import Mathlib

/-!
Oracle TNS dissector (`packet-tns.c`): shallow embedding and checked properties.

The packet buffer (`tvbuff_t`) is a list of bytes whose captured and reported
lengths coincide.  Offsets are natural numbers (the source never forms a
negative offset).  The accessors of the dissection library are bounds-checked:
an access outside the buffer raises an exception which unwinds the dissection of
the packet.  A raised exception is the value `none`; tree items added before it
stay in the tree.  The source allocates its scratch buffers with `malloc`; a store
outside such a block is undefined behaviour in C.  The run that is modelled ends
at such a store, with the value `none` as well (`Dis.undefined`), and the model
says nothing about what a real run does from there on: no item and no result is
asserted for it.  Which of the two ended a run is told by the step itself
(`heap_store .. = none` for the store, a buffer accessor giving `none` for the
exception).

Conventions of the embedding:
* the protocol tree is being built, so every `proto_tree_add_...` call checks its
  byte range and fetches its value;
* the text of a label is the formatted string, before the display layer shortens it;
* `malloc` succeeds, so the out-of-memory branches are left out;
* columns (`col_...`), `proto_item_set_end`, `proto_item_append_text` and the
  debug output have no part in the properties below and are left out;
* structs are laid out with 2-byte alignment of `uint16_t` on a little-endian host.
-/

namespace Tns

/-! ## Packet buffer accessors -/

/-- The packet buffer: the bytes of one `tvbuff_t`. -/
abbrev Tvb := List UInt8

/-- Models `tvb_reported_length_remaining`: bytes from `offset` to the end, `0` when
`offset` is past the end. -/
def tvb_reported_length_remaining (tvb : Tvb) (offset : Nat) : Nat :=
  tvb.length - offset

/-- Models `tvb_bytes_exist`: whether `length` bytes starting at `offset` are in the buffer. -/
def tvb_bytes_exist (tvb : Tvb) (offset length : Nat) : Bool :=
  decide (offset + length ≤ tvb.length)

/-- Models `tvb_get_guint8`: the byte at `offset`; `none` is the bounds exception. -/
def tvb_get_guint8 (tvb : Tvb) (offset : Nat) : Option Nat :=
  (tvb.get? offset).map UInt8.toNat

/-- Models `tvb_get_ntohs` / `tvb_get_guint16(.., ENC_BIG_ENDIAN)`: big-endian 16 bits. -/
def tvb_get_ntohs (tvb : Tvb) (offset : Nat) : Option Nat :=
  match tvb_get_guint8 tvb offset, tvb_get_guint8 tvb (offset + 1) with
  | some a, some b => some (a * 256 + b)
  | _, _ => none

/-- Models `tvb_get_letohs`: little-endian 16 bits. -/
def tvb_get_letohs (tvb : Tvb) (offset : Nat) : Option Nat :=
  match tvb_get_guint8 tvb offset, tvb_get_guint8 tvb (offset + 1) with
  | some a, some b => some (b * 256 + a)
  | _, _ => none

/-- Models `tvb_get_guint24(.., ENC_BIG_ENDIAN)`: big-endian 24 bits. -/
def tvb_get_guint24 (tvb : Tvb) (offset : Nat) : Option Nat :=
  match tvb_get_guint8 tvb offset, tvb_get_ntohs tvb (offset + 1) with
  | some a, some b => some (a * 65536 + b)
  | _, _ => none

/-- Models `tvb_get_ntohl`: big-endian 32 bits. -/
def tvb_get_ntohl (tvb : Tvb) (offset : Nat) : Option Nat :=
  match tvb_get_ntohs tvb offset, tvb_get_ntohs tvb (offset + 2) with
  | some a, some b => some (a * 65536 + b)
  | _, _ => none

/-- Models `tvb_get_letohl`: little-endian 32 bits. -/
def tvb_get_letohl (tvb : Tvb) (offset : Nat) : Option Nat :=
  match tvb_get_letohs tvb offset, tvb_get_letohs tvb (offset + 2) with
  | some a, some b => some (b * 65536 + a)
  | _, _ => none

/-- Models `tvb_get_ntoh64`: big-endian 64 bits. -/
def tvb_get_ntoh64 (tvb : Tvb) (offset : Nat) : Option Nat :=
  match tvb_get_ntohl tvb offset, tvb_get_ntohl tvb (offset + 4) with
  | some a, some b => some (a * 4294967296 + b)
  | _, _ => none

/-- Models `tvb_memcpy(tvb, target, offset, length)`: the `length` bytes at `offset`;
`none` when they are not all in the buffer. -/
def tvb_memcpy (tvb : Tvb) (offset length : Nat) : Option (List UInt8) :=
  if offset + length ≤ tvb.length then some ((tvb.drop offset).take length) else none

/-! ## Constants of the source -/

def TNS_TYPE_CONNECT : Nat := 1
def TNS_TYPE_ACCEPT : Nat := 2
def TNS_TYPE_ACK : Nat := 3
def TNS_TYPE_REFUSE : Nat := 4
def TNS_TYPE_REDIRECT : Nat := 5
def TNS_TYPE_DATA : Nat := 6
def TNS_TYPE_NULL : Nat := 7
def TNS_TYPE_ABORT : Nat := 9
def TNS_TYPE_RESEND : Nat := 11
def TNS_TYPE_MARKER : Nat := 12
def TNS_TYPE_ATTENTION : Nat := 13
def TNS_TYPE_CONTROL : Nat := 14
def TNS_TYPE_MAX : Nat := 19

def SQLNET_SET_PROTOCOL : Nat := 1
def SQLNET_USER_OCI_FUNC : Nat := 3
def SQLNET_RETURN_OPI_PARAM : Nat := 8
def SQLNET_PIGGYBACK_FUNC : Nat := 17
def SQLNET_SNS : Nat := 0xdeadbeef
def SQLNET_TTCI_REQ_SQLSTMT : Nat := 0x29

/-- The packet-type codes listed in the value table `tns_type_vals`. -/
def tns_type_vals : List Nat :=
  [TNS_TYPE_CONNECT, TNS_TYPE_ACCEPT, TNS_TYPE_ACK, TNS_TYPE_REFUSE, TNS_TYPE_REDIRECT,
   TNS_TYPE_DATA, TNS_TYPE_NULL, TNS_TYPE_ABORT, TNS_TYPE_RESEND, TNS_TYPE_MARKER,
   TNS_TYPE_ATTENTION, TNS_TYPE_CONTROL]

/-- The data-function ids listed in the value table `tns_data_funcs`. -/
def tns_data_funcs : List Nat :=
  [1, 2, 3, 4, 5, 6, 7, 8, 9, 10, 11, 12, 13, 14, 15, 16, 17, 18, 19, 32, 68, SQLNET_SNS]

/-! ## Framing: `dissect_tns` -/

/-- The two length callbacks `dissect_tns` can hand to `tcp_dissect_pdus`. -/
inductive PduLenFn
  | get_tns_pdu_len
  | get_tns_pdu_len_nochksum
  deriving DecidableEq, Repr

/-- Models `get_tns_pdu_len`: the 16-bit length of the TNS message. -/
def get_tns_pdu_len (tvb : Tvb) (offset : Nat) : Option Nat :=
  tvb_get_ntohs tvb offset

/-- Models `get_tns_pdu_len_nochksum`: the 32-bit length of the TNS message. -/
def get_tns_pdu_len_nochksum (tvb : Tvb) (offset : Nat) : Option Nat :=
  tvb_get_ntohl tvb offset

/-- Calling the selected callback. -/
def PduLenFn.call : PduLenFn → Tvb → Nat → Option Nat
  | .get_tns_pdu_len => Tns.get_tns_pdu_len
  | .get_tns_pdu_len_nochksum => Tns.get_tns_pdu_len_nochksum

/-- What one call of `dissect_tns` does. -/
inductive TnsOutcome
  /-- Models `return 0`: the type byte is not accepted; `tcp_dissect_pdus` is not called. -/
  | not_tns
  /-- Models `tvb_get_ntohs(tvb, 2)` raised the bounds exception. -/
  | bounds_error
  /-- Models `tcp_dissect_pdus(tvb, .., fixed_len, get_pdu_len, dissect_tns_pdu, ..)` is
  called and `tvb_captured_length(tvb)` is returned. -/
  | framed (fixed_len : Nat) (get_pdu_len : PduLenFn) (ret : Nat)
  deriving DecidableEq, Repr

/-- Models `dissect_tns`: the sanity check on the type byte and the choice of the
length-field width. -/
def dissect_tns (tvb : Tvb) : TnsOutcome :=
  let rejected : Bool :=
    if tvb_bytes_exist tvb 4 1 then
      match tvb_get_guint8 tvb 4 with
      | some type => decide (type < TNS_TYPE_CONNECT) || decide (type > TNS_TYPE_MAX)
      | none => false
    else false
  if rejected then .not_tns
  else
    match tvb_get_ntohs tvb 2 with
    | none => .bounds_error
    | some chksum =>
      let length := if chksum = 0 ∨ chksum = 4 then 2 else 4
      .framed length
        (if length = 2 then .get_tns_pdu_len else .get_tns_pdu_len_nochksum) tvb.length

/-- Models `get_data_func_id`: the data-function id of a Data payload starting at `offset`. -/
def get_data_func_id (tvb : Tvb) (offset : Nat) : Nat :=
  let first_byte :=
    if tvb_reported_length_remaining tvb offset > 0 then (tvb_get_guint8 tvb offset).getD 0
    else 0
  if tvb_bytes_exist tvb offset 4 && first_byte == 0xDE
      && tvb_get_guint24 tvb (offset + 1) == some 0xADBEEF then
    SQLNET_SNS
  else
    first_byte

/-- Models the conversion `%d` of `snprintf` for a value that is not negative: its
decimal digits. -/
def fmt_d (n : Nat) : List Char := Nat.toDigits 10 n

/-- Models `vsnum_to_vstext_basecustom`: the text written to `result` for the 32-bit
value `vsnum` with the format `"%d.%d.%d.%d.%d"`.  The longest text has 16
characters, so the bound `ITEM_LABEL_LENGTH` (240) never cuts it. -/
def vsnum_to_vstext_basecustom (vsnum : Nat) : String :=
  String.mk
    (fmt_d (vsnum >>> 24) ++ ('.' :: (fmt_d ((vsnum >>> 20) &&& 0xf) ++ ('.' ::
      (fmt_d ((vsnum >>> 12) &&& 0xf) ++ ('.' :: (fmt_d ((vsnum >>> 8) &&& 0xf) ++ ('.' ::
        fmt_d (vsnum &&& 0xff)))))))))

/-! ## The protocol tree

Items are listed in the order in which the dissector adds them; the nesting of
the tree (which subtree an item hangs under) is not recorded. -/

/-- The registered fields (`hf_...`) the modelled code adds to the tree. -/
inductive Hf
  | proto_tns
  | hf_tns_request
  | hf_tns_response
  | hf_tns_length
  | hf_tns_packet_checksum
  | hf_tns_packet_type
  | hf_tns_reserved_byte
  | hf_tns_header_checksum
  | hf_tns_marker_type
  | hf_tns_marker_data_byte
  | hf_tns_data_flag
  | hf_tns_data_id
  | hf_tns_data_length
  | hf_tns_data_oci_id
  | hf_tns_data_ttic_pkt_number
  | hf_tns_data_ttic_pkt_unknown_1
  | hf_tns_data_ttic_req_type
  | hf_tns_data_ttic_pkt_unknown_3
  | hf_tns_data_ttic_data_direction
  | hf_tns_data_ttic_param_count
  | hf_tns_data_ttic_stmt_sql
  /-- The fields `hf_tns_data_ttic_stmt_sql_p01` .. `_p20`, by their number. -/
  | hf_tns_data_ttic_stmt_sql_p (n : Nat)
  | hf_tns_data_piggyback_id
  | hf_tns_data_unused
  | hf_tns_data_setp_acc_version
  | hf_tns_data_setp_cli_plat
  | hf_tns_data_setp_version
  | hf_tns_data_setp_banner
  | hf_tns_data_sns_cli_vers
  | hf_tns_data_sns_srv_vers
  | hf_tns_data_sns_srvcnt
  | hf_tns_data_opi_version2_banner_len
  | hf_tns_data_opi_version2_banner
  | hf_tns_data_opi_version2_vsnum
  | hf_tns_data_opi_num_of_params
  | hf_tns_data_opi_param_length
  | hf_tns_data_opi_param_name
  | hf_tns_data_opi_param_value
  /-- A text-only node made by `proto_tree_add_subtree`. -/
  | subtree
  deriving DecidableEq, Repr

/-- The text put on an item by `proto_item_set_text` or `proto_tree_add_subtree`. -/
inductive Label
  /-- Format `"%s"` on the statement item. -/
  | stmt (text : List UInt8)
  /-- Format `"%02d String: %s"`. -/
  | param_string (idx : Nat) (text : List UInt8)
  /-- Format `"%02d Date/Time (Hex Bytes): %s"`, the bytes being dumped as `"%02x "`. -/
  | param_datetime (idx : Nat) (bytes : List UInt8)
  /-- Format `"%02d Number (Hex Bytes): %s"`, the bytes being dumped as `"%02x "`. -/
  | param_number (idx : Nat) (bytes : List UInt8)
  /-- The fixed text of a subtree node. -/
  | subtree (text : String)
  deriving DecidableEq, Repr

/-- One item of the protocol tree: the field, its byte range, the unsigned value
decoded for integer fields, and the label when the code sets one. -/
structure Item where
  hf : Hf
  start : Nat
  length : Nat
  value : Option Nat
  label : Option Label
  deriving DecidableEq, Repr

/-- The effect of a piece of dissection code: the items it added, in order, and
its result; `val = none` means the run ended early (after `items`): a bounds
exception was raised, or a step with undefined behaviour was reached. -/
structure Dis (α : Type) where
  items : List Item
  val : Option α
  deriving DecidableEq, Repr

/-- Finish with a result, adding nothing. -/
def Dis.ret {α : Type} (a : α) : Dis α := ⟨[], some a⟩

/-- The bounds exception. -/
def Dis.raise {α : Type} : Dis α := ⟨[], none⟩

/-- A step with undefined behaviour: the modelled run ends here, without a result. -/
def Dis.undefined {α : Type} : Dis α := ⟨[], none⟩

/-- Sequencing: the second part runs only when the first raised no exception. -/
def Dis.andThen {α β : Type} (m : Dis α) (f : α → Dis β) : Dis β :=
  match m.val with
  | none => ⟨m.items, none⟩
  | some a => ⟨m.items ++ (f a).items, (f a).val⟩

instance : Monad Dis where
  pure := Dis.ret
  bind := Dis.andThen

/-- A buffer read inside the dissection. -/
def Dis.read {α : Type} (o : Option α) : Dis α := ⟨[], o⟩

/-- Every item added by `m` satisfies `P`. -/
def Dis.all_items {α : Type} (P : Item → Prop) (m : Dis α) : Prop :=
  ∀ i ∈ m.items, P i

/-- Models `proto_tree_add_item` with an explicit length on a non-integer field (or one
whose value is not used): the byte range must be in the buffer. -/
def proto_tree_add_item (tvb : Tvb) (hf : Hf) (start length : Nat) : Dis Unit :=
  if start + length ≤ tvb.length then ⟨[⟨hf, start, length, none, none⟩], some ()⟩
  else Dis.raise

/-- An unsigned-integer item (`proto_tree_add_item` on an integer field,
`proto_tree_add_item_ret_uint`, `proto_tree_add_uint`, `proto_tree_add_checksum`):
`v` is the read of the `length` bytes at `start`; the value is returned. -/
def proto_tree_add_uint (hf : Hf) (start length : Nat) (v : Option Nat) : Dis Nat :=
  match v with
  | some n => ⟨[⟨hf, start, length, some n, none⟩], some n⟩
  | none => Dis.raise

/-- Models `proto_tree_add_item` on a string field followed by `proto_item_set_text`:
the byte range must be in the buffer; the item carries the label. -/
def proto_tree_add_item_text (tvb : Tvb) (hf : Hf) (start length : Nat) (label : Label) :
    Dis Unit :=
  if start + length ≤ tvb.length then ⟨[⟨hf, start, length, none, some label⟩], some ()⟩
  else Dis.raise

/-- Models `proto_tree_add_subtree(tree, tvb, start, -1, .., text)`: with length `-1` the
library asks for at least one byte at `start` unless the buffer is empty. -/
def proto_tree_add_subtree (tvb : Tvb) (start : Nat) (text : String) : Dis Unit :=
  if tvb.length = 0 ∨ start < tvb.length then
    ⟨[⟨.subtree, start, tvb.length - start, none, some (.subtree text)⟩], some ()⟩
  else Dis.raise

/-! ## The common header: `dissect_tns_pdu` -/

/-- The body decoders `dissect_tns_pdu` dispatches to. -/
inductive BodyDecoder
  | dissect_tns_connect
  | dissect_tns_accept
  | dissect_tns_refuse
  | dissect_tns_redirect
  | dissect_tns_abort
  | dissect_tns_marker (is_attention : Nat)
  | dissect_tns_control
  | dissect_tns_data
  | call_data_dissector
  deriving DecidableEq, Repr

/-- The `switch (type)` of `dissect_tns_pdu`. -/
def tns_pdu_switch (type : Nat) : BodyDecoder :=
  if type = TNS_TYPE_CONNECT then .dissect_tns_connect
  else if type = TNS_TYPE_ACCEPT then .dissect_tns_accept
  else if type = TNS_TYPE_REFUSE then .dissect_tns_refuse
  else if type = TNS_TYPE_REDIRECT then .dissect_tns_redirect
  else if type = TNS_TYPE_ABORT then .dissect_tns_abort
  else if type = TNS_TYPE_MARKER then .dissect_tns_marker 0
  else if type = TNS_TYPE_ATTENTION then .dissect_tns_marker 1
  else if type = TNS_TYPE_CONTROL then .dissect_tns_control
  else if type = TNS_TYPE_DATA then .dissect_tns_data
  else .call_data_dissector

/-- Models `dissect_tns_pdu` up to and including the `switch (type)`: the header items,
and as result the body decoder that is called together with the offset passed to
it.  `is_request` is `pinfo->match_uint == pinfo->destport`. -/
def dissect_tns_pdu (tvb : Tvb) (is_request : Bool) : Dis (BodyDecoder × Nat) := do
  let offset := 0
  proto_tree_add_item tvb .proto_tns 0 tvb.length
  proto_tree_add_item tvb (if is_request then .hf_tns_request else .hf_tns_response) offset 0
  let chksum ← Dis.read (tvb_get_ntohs tvb (offset + 2))
  let offset ←
    (if chksum = 0 ∨ chksum = 4 then do
      let _ ← proto_tree_add_uint .hf_tns_length offset 2 (tvb_get_ntohs tvb offset)
      let offset := offset + 2
      let _ ← proto_tree_add_uint .hf_tns_packet_checksum offset 2 (tvb_get_ntohs tvb offset)
      pure (offset + 2)
    else do
      let _ ← proto_tree_add_uint .hf_tns_length offset 4 (tvb_get_ntohl tvb offset)
      pure (offset + 4))
  let type ← proto_tree_add_uint .hf_tns_packet_type offset 1 (tvb_get_guint8 tvb offset)
  let offset := offset + 1
  proto_tree_add_item tvb .hf_tns_reserved_byte offset 1
  let offset := offset + 1
  let _ ← proto_tree_add_uint .hf_tns_header_checksum offset 2 (tvb_get_ntohs tvb offset)
  let offset := offset + 2
  pure (tns_pdu_switch type, offset)

/-- The value of the `hf_tns_length` item in a list of items. -/
def tns_length_field (items : List Item) : Option Nat :=
  match items.find? (fun i => i.hf = .hf_tns_length) with
  | some i => i.value
  | none => none

/-! ## Marker and Attention packets: `dissect_tns_marker` -/

/-- Models `dissect_tns_marker`, called by `dissect_tns_pdu` with `is_attention = 0` for
`TNS_TYPE_MARKER` and `is_attention = 1` for `TNS_TYPE_ATTENTION`. -/
def dissect_tns_marker (tvb : Tvb) (offset : Nat) (is_attention : Nat) : Dis Unit := do
  (if is_attention ≠ 0 then proto_tree_add_subtree tvb offset "Marker"
  else proto_tree_add_subtree tvb offset "Attention")
  let _ ← proto_tree_add_uint .hf_tns_marker_type offset 1 (tvb_get_guint8 tvb offset)
  let offset := offset + 1
  let _ ← proto_tree_add_uint .hf_tns_marker_data_byte offset 1 (tvb_get_guint8 tvb offset)
  let offset := offset + 1
  let _ ← proto_tree_add_uint .hf_tns_marker_data_byte offset 1 (tvb_get_guint8 tvb offset)
  pure ()

/-! ## The TTC/TTI SQL parameter block: `dissect_tns_data_sql_params` -/

/-- Models `ttci_packet_t`: the TTC/TTI parsing context. -/
structure ttci_packet_t where
  packet_number : Nat
  unknown_1 : Nat
  request_type : Nat
  unknown_2 : Nat
  unknown_3 : Nat
  stmt_byte1_prfx : Nat
  stmt_byte1 : Nat
  stmt_byte2 : Nat
  stmt_byte3 : Nat
  stmt_sign1 : Nat
  stmt_sign2 : Nat
  data_direction : Nat
  unknown_4 : Nat
  unknown_5 : Nat
  stmt_byte4 : Nat
  stmt_flags : Nat
  param_count : Nat
  unknown_6 : Nat
  unknown_7 : Nat
  stmt_sel_unk1 : Nat
  stmt_sel_unk2 : Nat
  deriving DecidableEq, Repr

/-- The zero-initialised context `ttci_packet_t ttci_packet = {}`. -/
def ttci_packet_zero : ttci_packet_t :=
  ⟨0, 0, 0, 0, 0, 0, 0, 0, 0, 0, 0, 0, 0, 0, 0, 0, 0, 0, 0, 0, 0⟩

/-- Models `ttci_stmt_pd_itm_t`: one parameter descriptor (the two nested structs
`param_props` and `param_marker` are flattened). -/
structure ttci_stmt_pd_itm_t where
  magic_1 : Nat
  magic_2 : Nat
  flags : Nat
  param_props_unknown_1 : Nat
  param_props_unknown_2 : Nat
  param_props_unknown_3 : Nat
  param_marker_1 : Nat
  param_marker_2 : Nat
  param_marker_3 : Nat
  deriving DecidableEq, Repr

/-- A descriptor slot after `memset(pd_list, 0, pd_list_size)`. -/
def pd_itm_zero : ttci_stmt_pd_itm_t := ⟨0, 0, 0, 0, 0, 0, 0, 0, 0⟩

/-- Models `sizeof(ttci_stmt_pd_hdr_t)`: 17 bytes of members laid out with 2-byte
alignment of the `uint16_t` members (the usual ABIs). -/
def sizeof_ttci_stmt_pd_hdr_t : Nat := 18

/-- Models `pd_header->unknown_5` after `tvb_memcpy(tvb, pd_header, offset, sizeof ..)`:
the member sits at byte 10 of the struct and is read in host order, here a
little-endian host. -/
def pd_header_unknown_5 (tvb : Tvb) (offset : Nat) : Option Nat :=
  match tvb_memcpy tvb offset sizeof_ttci_stmt_pd_hdr_t with
  | some _ => tvb_get_letohs tvb (offset + 10)
  | none => none

/-- The nominal start of the descriptor block (`buff_offset` before the scan). -/
def pd_block_offset (unknown_5 offset : Nat) : Nat :=
  if unknown_5 = 0x8002 then offset + sizeof_ttci_stmt_pd_hdr_t - 1
  else offset + sizeof_ttci_stmt_pd_hdr_t

/-- One probe of the magic scan: the two 16-bit reads at `buff_offset` and
`buff_offset + 2` and the comparison; `none` when a read raised. -/
def magic_probe (tvb : Tvb) (buff_offset : Nat) : Option Bool :=
  match tvb_get_ntohs tvb buff_offset, tvb_get_ntohs tvb (buff_offset + 2) with
  | some magic_1, some magic_2 => some (decide (magic_1 = 0x0300 ∧ magic_2 = 0x001))
  | _, _ => none

/-- How the magic scan ends. -/
inductive MagicScan
  /-- Models `found = true; break;` with the cursor at `buff_offset`. -/
  | found (buff_offset : Nat)
  /-- The loop ran out (`bytes` reached 0) with `found == false`. -/
  | not_found (buff_offset : Nat)
  /-- The probe at `buff_offset` raised the bounds exception. -/
  | bounds_error (buff_offset : Nat)
  deriving DecidableEq, Repr

/-- The loop `do { probe; bytes -= 1; buff_offset += 1; } while (bytes > 0)`,
entered with `bytes` and `buff_offset`. -/
def magic_scan (tvb : Tvb) : Nat → Nat → MagicScan
  | 0, buff_offset =>
    match magic_probe tvb buff_offset with
    | none => .bounds_error buff_offset
    | some true => .found buff_offset
    | some false => .not_found (buff_offset + 1)
  | bytes + 1, buff_offset =>
    match magic_probe tvb buff_offset with
    | none => .bounds_error buff_offset
    | some true => .found buff_offset
    | some false =>
      if bytes > 0 then magic_scan tvb bytes (buff_offset + 1)
      else .not_found (buff_offset + 1)

/-- One pass of the body of the descriptor loop up to (not including) the
value-list test: the descriptor read at `buff_offset` and the cursor after it.
Outer `none`: a read raised; inner `none`: `goto exit_clenup_list` on the magic test. -/
def read_descriptor (tvb : Tvb) (buff_offset : Nat) :
    Option (Option (ttci_stmt_pd_itm_t × Nat)) := do
  let magic_1 ← tvb_get_ntohs tvb buff_offset
  let buff_offset := buff_offset + 2
  let magic_2 ← tvb_get_ntohs tvb buff_offset
  let buff_offset := buff_offset + 2
  let flags ← tvb_get_guint8 tvb buff_offset
  let buff_offset := buff_offset + 1
  if magic_1 ≠ 0x0300 ∧ magic_2 ≠ 0x0001 then
    pure none
  else if flags = 0x16 ∨ flags = 0x07 then
    let unknown_1 ← tvb_get_ntohs tvb buff_offset
    let buff_offset := buff_offset + 2
    let unknown_2 ← tvb_get_guint8 tvb buff_offset
    let buff_offset := buff_offset + 1
    let unknown_3 ← tvb_get_guint8 tvb buff_offset
    let buff_offset := buff_offset + 1
    let marker_1 ← tvb_get_ntohs tvb buff_offset
    let buff_offset := buff_offset + 2
    let marker_2 ← tvb_get_ntohs tvb buff_offset
    let buff_offset := buff_offset + 2
    let marker_3 ← tvb_get_ntohs tvb buff_offset
    let buff_offset := buff_offset + 2
    pure (some (⟨magic_1, magic_2, flags, unknown_1, unknown_2, unknown_3,
      marker_1, marker_2, marker_3⟩, buff_offset))
  else
    let unknown_1 ← tvb_get_ntohs tvb buff_offset
    let buff_offset := buff_offset + 2
    let unknown_2 ← tvb_get_guint8 tvb buff_offset
    let buff_offset := buff_offset + 1
    let unknown_3 ← tvb_get_ntohs tvb buff_offset
    let buff_offset := buff_offset + 2
    let marker_1 ← tvb_get_ntohs tvb buff_offset
    let buff_offset := buff_offset + 2
    let marker_2 ← tvb_get_ntohs tvb buff_offset
    let buff_offset := buff_offset + 2
    let marker_3 ← tvb_get_ntohs tvb buff_offset
    let buff_offset := buff_offset + 2
    if flags = 0x01 ∧ magic_2 = 0x0109 then
      let marker_3 ← tvb_get_ntohs tvb buff_offset
      let buff_offset := buff_offset + 2
      pure (some (⟨magic_1, magic_2, flags, unknown_1, unknown_2, unknown_3,
        marker_1, marker_2, marker_3⟩, buff_offset))
    else
      pure (some (⟨magic_1, magic_2, flags, unknown_1, unknown_2, unknown_3,
        marker_1, marker_2, marker_3⟩, buff_offset))

/-- How the descriptor loop ends. -/
inductive PdLoad
  /-- The loop is left (count reached, or `break` on the value-list marker). -/
  | loaded (pd_list : List ttci_stmt_pd_itm_t) (buff_offset : Nat)
  /-- Models `goto exit_clenup_list` on an invalid descriptor. -/
  | invalid
  /-- A read raised the bounds exception. -/
  | bounds_error
  deriving DecidableEq, Repr

/-- The loop `for (int j = 0; j < pttci->param_count; j++)`.  The first argument
counts the passes still allowed; started at `param_count` it is never the reason
the loop stops, since `j` grows by one per pass. -/
def load_descriptors (tvb : Tvb) (param_count : Nat) :
    Nat → Nat → Nat → List ttci_stmt_pd_itm_t → PdLoad
  | 0, _, buff_offset, pd_list => .loaded pd_list buff_offset
  | fuel + 1, j, buff_offset, pd_list =>
    if j < param_count then
      match read_descriptor tvb buff_offset with
      | none => .bounds_error
      | some none => .invalid
      | some (some (d, buff_offset)) =>
        let pd_list := pd_list.set j d
        if d.param_marker_2 = 0x6901 ∧ d.param_marker_3 = 0x0007 then
          .loaded pd_list buff_offset
        else
          load_descriptors tvb param_count fuel (j + 1) buff_offset pd_list
    else .loaded pd_list buff_offset

/-- Models `hf_prop_ref_list[param_idx]`: twenty field references followed by `NULL`. -/
def hf_prop_ref_list (param_idx : Nat) : Option Hf :=
  if param_idx < 20 then some (.hf_tns_data_ttic_stmt_sql_p (param_idx + 1)) else none

/-- Models the store `block[idx] = v` into a heap block of `block.length` bytes
(`malloc(block.length)`): the bytes of the block after the store; `none` when
`idx` is not an index of the block, where the store is undefined behaviour. -/
def heap_store (block : List UInt8) (idx : Nat) (v : UInt8) : Option (List UInt8) :=
  if idx < block.length then some (block.set idx v) else none

/-- A C string in a buffer: the bytes before the first zero byte. -/
def c_string (byte_buffer : List UInt8) : List UInt8 :=
  byte_buffer.takeWhile (fun b => b != 0)

/-- Models `strlen`. -/
def strlen (byte_buffer : List UInt8) : Nat := (c_string byte_buffer).length

/-- The bytes dumped by `for (j = 0; j < value_len && j < sizeof(numbuf)/4; j++)
sprintf(p, "%02x ", tvb_get_guint8(tvb, offset + j))`; `none` when a read raised. -/
def hex_dump (tvb : Tvb) (offset value_len : Nat) : Nat → Nat → Option (List UInt8)
  | 0, _ => some []
  | fuel + 1, j =>
    if j < value_len ∧ j < 1024 / 4 then
      match tvb.get? (offset + j) with
      | none => none
      | some b => (hex_dump tvb offset value_len fuel (j + 1)).map (fun l => b :: l)
    else some []

/-- The value loop `for (i = 0, param_idx = 0, value_len = 0; i < bytes_remaining &&
param_idx < pttci->param_count && hf_prop_ref_list[param_idx]; param_idx++, i += value_len)`.
The result is the value of `offset` at `exit_clenup_list`.  The first argument
counts the passes still allowed; started at `param_count` it is never the reason
the loop stops.  In the String branch `bytes ++ [0]` is the block of
`malloc(value_len + 1)` after `memset(.., 0, value_len + 1)` and the copy of the
`value_len` bytes by `tvb_memcpy`; the store `byte_buffer[value_len + 1] = 0`
follows, as in the source. -/
def value_loop (tvb : Tvb) (param_count : Nat) (pd_list : List ttci_stmt_pd_itm_t)
    (bytes_remaining : Nat) : Nat → Nat → Nat → Nat → Dis Nat
  | 0, _, _, offset => Dis.ret offset
  | fuel + 1, i, param_idx, offset =>
    if i < bytes_remaining ∧ param_idx < param_count ∧ (hf_prop_ref_list param_idx).isSome then
      if tvb_reported_length_remaining tvb offset ≤ 0 then Dis.ret offset
      else
        match hf_prop_ref_list param_idx, tvb_get_guint8 tvb offset with
        | none, _ => Dis.ret offset
        | some _, none => Dis.raise
        | some hf_prop_ref, some value_len =>
          let offset := offset + 1
          if value_len = 0 then Dis.ret offset
          else
            let pd := pd_list.getD param_idx pd_itm_zero
            if pd.param_props_unknown_2 &&& 0x10 ≠ 0 then
              match tvb_memcpy tvb offset value_len with
              | none => Dis.raise
              | some bytes =>
                match heap_store (bytes ++ [0]) (value_len + 1) 0 with
                | none => Dis.undefined
                | some byte_buffer =>
                  Dis.andThen
                    (proto_tree_add_item_text tvb hf_prop_ref (offset - 1)
                      (strlen byte_buffer + 1)
                      (.param_string (param_idx + 1) (c_string byte_buffer)))
                    (fun _ => value_loop tvb param_count pd_list bytes_remaining fuel
                      (i + value_len) (param_idx + 1) (offset + value_len))
            else
              match hex_dump tvb offset value_len value_len 0 with
              | none => Dis.raise
              | some numbuf =>
                Dis.andThen
                  (proto_tree_add_item_text tvb hf_prop_ref (offset - 1) (value_len + 1)
                    (if pd.param_props_unknown_1 = 0x0b00
                        ∧ pd.param_props_unknown_2 &&& 0x0004 ≠ 0
                      then .param_datetime (param_idx + 1) numbuf
                      else .param_number (param_idx + 1) numbuf))
                  (fun _ => value_loop tvb param_count pd_list bytes_remaining fuel
                    (i + value_len) (param_idx + 1) (offset + value_len))
    else Dis.ret offset

/-- The part of `dissect_tns_data_sql_params` from the descriptor loop on,
entered with the scan cursor `buff_offset`; `offset` is the offset the function
was called with. -/
def params_from_descriptors (tvb : Tvb) (offset : Nat) (pttci : ttci_packet_t)
    (buff_offset : Nat) : Dis Nat :=
  match load_descriptors tvb pttci.param_count pttci.param_count 0 buff_offset
      (List.replicate (pttci.param_count + 1) pd_itm_zero) with
  | .bounds_error => Dis.raise
  | .invalid => Dis.ret offset
  | .loaded pd_list buff_offset =>
    let offset := buff_offset
    let bytes_remaining := tvb_reported_length_remaining tvb offset
    if bytes_remaining = 0 then Dis.ret offset
    else
      Dis.andThen (proto_tree_add_subtree tvb offset "TTC/TTI SQL Parameters")
        (fun _ => value_loop tvb pttci.param_count pd_list bytes_remaining
          pttci.param_count 0 0 offset)

/-- The magic scan as `dissect_tns_data_sql_params` runs it from `buff_offset`:
`if (bytes > 4) do .. while (bytes > 0)`. -/
def params_magic_scan (tvb : Tvb) (buff_offset : Nat) : MagicScan :=
  let bytes := tvb_reported_length_remaining tvb buff_offset
  if bytes > 4 then magic_scan tvb bytes buff_offset else .not_found buff_offset

/-- Models `dissect_tns_data_sql_params`: the returned offset and the items added. -/
def dissect_tns_data_sql_params (tvb : Tvb) (offset : Nat) (pttci : ttci_packet_t) : Dis Nat :=
  let bytes_remaining := tvb_reported_length_remaining tvb offset
  if bytes_remaining > sizeof_ttci_stmt_pd_hdr_t + 6 then
    match pd_header_unknown_5 tvb offset with
    | none => Dis.raise
    | some unknown_5 =>
      match params_magic_scan tvb (pd_block_offset unknown_5 offset) with
      | .bounds_error _ => Dis.raise
      | .not_found _ => Dis.ret offset
      | .found buff_offset => params_from_descriptors tvb offset pttci buff_offset
  else Dis.ret offset

/-! ## The TTC/TTI SQL statement: `dissect_tns_data_sql` -/

/-- The block of `dissect_tns_data_sql` guarded by
`tvb_reported_length_remaining(tvb, offset) > 19`: the statement header.  The
result is the offset after the header and the updated context. -/
def sql_header (tvb : Tvb) (offset : Nat) (pttci : ttci_packet_t) :
    Dis (Nat × ttci_packet_t) := do
  let unknown_2 ← Dis.read (tvb_get_ntohs tvb offset)
  let offset := offset + 2
  let unknown_3 ← proto_tree_add_uint .hf_tns_data_ttic_pkt_unknown_3 offset 2
    (tvb_get_ntohs tvb offset)
  let offset := offset + 2
  let pttci := { pttci with unknown_2 := unknown_2, unknown_3 := unknown_3 }
  let stmt_byte1 ← Dis.read (tvb_get_guint8 tvb offset)
  let offset := offset + 1
  let (pttci, offset) ←
    (if stmt_byte1 ≠ 0x01 then do
      let b ← Dis.read (tvb_get_guint8 tvb offset)
      pure ({ pttci with stmt_byte1_prfx := stmt_byte1, stmt_byte1 := b }, offset + 1)
    else
      pure ({ pttci with stmt_byte1 := stmt_byte1 }, offset))
  let stmt_byte2 ← Dis.read (tvb_get_guint8 tvb offset)
  let offset := offset + 1
  let stmt_byte3 ← Dis.read (tvb_get_guint8 tvb offset)
  let offset := offset + 1
  let stmt_sign1 ← Dis.read (tvb_get_ntohs tvb offset)
  let offset := offset + 2
  let stmt_sign2 ← Dis.read (tvb_get_guint8 tvb offset)
  let offset := offset + 1
  let pttci := { pttci with stmt_byte2 := stmt_byte2, stmt_byte3 := stmt_byte3,
                            stmt_sign1 := stmt_sign1, stmt_sign2 := stmt_sign2 }
  let (pttci, offset) ←
    (if stmt_sign1 = 0 ∧ stmt_sign2 = 0x04 then do
      let data_direction ← proto_tree_add_uint .hf_tns_data_ttic_data_direction offset 1
        (tvb_get_guint8 tvb offset)
      let offset := offset + 1
      let unknown_4 ← Dis.read (tvb_get_guint8 tvb offset)
      let offset := offset + 1
      let unknown_5 ← Dis.read (tvb_get_ntohs tvb offset)
      let offset := offset + 2
      pure ({ pttci with data_direction := data_direction, unknown_4 := unknown_4,
                         unknown_5 := unknown_5 }, offset)
    else if stmt_sign1 = 0 ∧ stmt_sign2 = 0 then do
      let offset := offset + 2
      let data_direction ← proto_tree_add_uint .hf_tns_data_ttic_data_direction offset 1
        (tvb_get_guint8 tvb offset)
      let offset := offset + 1
      let unknown_4 ← Dis.read (tvb_get_guint8 tvb offset)
      let offset := offset + 1
      let unknown_5 ← Dis.read (tvb_get_ntohs tvb offset)
      let offset := offset + 2
      pure ({ pttci with data_direction := data_direction, unknown_4 := unknown_4,
                         unknown_5 := unknown_5 }, offset)
    else
      pure (pttci, offset))
  let stmt_byte4 ← Dis.read (tvb_get_guint8 tvb offset)
  let offset := offset + 1
  let stmt_flags ← Dis.read (tvb_get_guint8 tvb offset)
  let offset := offset + 1
  let param_count ← Dis.read (tvb_get_guint8 tvb offset)
  let tv_disp_offset := offset
  let offset := offset + 1
  let unknown_6 ← Dis.read (tvb_get_ntohs tvb offset)
  let offset := offset + 2
  let unknown_7 ← Dis.read (tvb_get_ntohs tvb offset)
  let offset := offset + 2
  let pttci := { pttci with stmt_byte4 := stmt_byte4, stmt_flags := stmt_flags,
                            param_count := param_count, unknown_6 := unknown_6,
                            unknown_7 := unknown_7 }
  let (pttci, offset, tv_disp_offset) ←
    (if stmt_flags = 0x0a then do
      let stmt_sel_unk1 ← Dis.read (tvb_get_guint8 tvb offset)
      let offset := offset + 1
      let stmt_sel_unk2 ← Dis.read (tvb_get_guint8 tvb offset)
      let offset := offset + 1
      let param_count ← Dis.read (tvb_get_guint8 tvb offset)
      pure ({ pttci with stmt_sel_unk1 := stmt_sel_unk1, stmt_sel_unk2 := stmt_sel_unk2,
                         param_count := param_count }, offset + 1, offset)
    else
      pure (pttci, offset, tv_disp_offset))
  let _ ← proto_tree_add_uint .hf_tns_data_ttic_param_count tv_disp_offset 1
    (tvb_get_guint8 tvb tv_disp_offset)
  pure (offset, pttci)

/-- The statement header from `stmt_byte2` on, read at `offset`: the part of
the block of `dissect_tns_data_sql` that follows the test of `stmt_byte1`. -/
def sql_header_rest (tvb : Tvb) (offset : Nat) (pttci : ttci_packet_t) :
    Dis (Nat × ttci_packet_t) := do
  let stmt_byte2 ← Dis.read (tvb_get_guint8 tvb offset)
  let offset := offset + 1
  let stmt_byte3 ← Dis.read (tvb_get_guint8 tvb offset)
  let offset := offset + 1
  let stmt_sign1 ← Dis.read (tvb_get_ntohs tvb offset)
  let offset := offset + 2
  let stmt_sign2 ← Dis.read (tvb_get_guint8 tvb offset)
  let offset := offset + 1
  let pttci := { pttci with stmt_byte2 := stmt_byte2, stmt_byte3 := stmt_byte3,
                            stmt_sign1 := stmt_sign1, stmt_sign2 := stmt_sign2 }
  let (pttci, offset) ←
    (if stmt_sign1 = 0 ∧ stmt_sign2 = 0x04 then do
      let data_direction ← proto_tree_add_uint .hf_tns_data_ttic_data_direction offset 1
        (tvb_get_guint8 tvb offset)
      let offset := offset + 1
      let unknown_4 ← Dis.read (tvb_get_guint8 tvb offset)
      let offset := offset + 1
      let unknown_5 ← Dis.read (tvb_get_ntohs tvb offset)
      let offset := offset + 2
      pure ({ pttci with data_direction := data_direction, unknown_4 := unknown_4,
                         unknown_5 := unknown_5 }, offset)
    else if stmt_sign1 = 0 ∧ stmt_sign2 = 0 then do
      let offset := offset + 2
      let data_direction ← proto_tree_add_uint .hf_tns_data_ttic_data_direction offset 1
        (tvb_get_guint8 tvb offset)
      let offset := offset + 1
      let unknown_4 ← Dis.read (tvb_get_guint8 tvb offset)
      let offset := offset + 1
      let unknown_5 ← Dis.read (tvb_get_ntohs tvb offset)
      let offset := offset + 2
      pure ({ pttci with data_direction := data_direction, unknown_4 := unknown_4,
                         unknown_5 := unknown_5 }, offset)
    else
      pure (pttci, offset))
  let stmt_byte4 ← Dis.read (tvb_get_guint8 tvb offset)
  let offset := offset + 1
  let stmt_flags ← Dis.read (tvb_get_guint8 tvb offset)
  let offset := offset + 1
  let param_count ← Dis.read (tvb_get_guint8 tvb offset)
  let tv_disp_offset := offset
  let offset := offset + 1
  let unknown_6 ← Dis.read (tvb_get_ntohs tvb offset)
  let offset := offset + 2
  let unknown_7 ← Dis.read (tvb_get_ntohs tvb offset)
  let offset := offset + 2
  let pttci := { pttci with stmt_byte4 := stmt_byte4, stmt_flags := stmt_flags,
                            param_count := param_count, unknown_6 := unknown_6,
                            unknown_7 := unknown_7 }
  let (pttci, offset, tv_disp_offset) ←
    (if stmt_flags = 0x0a then do
      let stmt_sel_unk1 ← Dis.read (tvb_get_guint8 tvb offset)
      let offset := offset + 1
      let stmt_sel_unk2 ← Dis.read (tvb_get_guint8 tvb offset)
      let offset := offset + 1
      let param_count ← Dis.read (tvb_get_guint8 tvb offset)
      pure ({ pttci with stmt_sel_unk1 := stmt_sel_unk1, stmt_sel_unk2 := stmt_sel_unk2,
                         param_count := param_count }, offset + 1, offset)
    else
      pure (pttci, offset, tv_disp_offset))
  let _ ← proto_tree_add_uint .hf_tns_data_ttic_param_count tv_disp_offset 1
    (tvb_get_guint8 tvb tv_disp_offset)
  pure (offset, pttci)

/-- The `if .. else if ..` of `dissect_tns_data_sql` on `stmt_sign1` and
`stmt_sign2`, entered with the offset right after `stmt_sign2`: the updated
context and the offset after the block. -/
def sql_header_sign (tvb : Tvb) (offset : Nat) (pttci : ttci_packet_t) :
    Dis (ttci_packet_t × Nat) :=
  if pttci.stmt_sign1 = 0 ∧ pttci.stmt_sign2 = 0x04 then do
    let data_direction ← proto_tree_add_uint .hf_tns_data_ttic_data_direction offset 1
      (tvb_get_guint8 tvb offset)
    let offset := offset + 1
    let unknown_4 ← Dis.read (tvb_get_guint8 tvb offset)
    let offset := offset + 1
    let unknown_5 ← Dis.read (tvb_get_ntohs tvb offset)
    let offset := offset + 2
    pure ({ pttci with data_direction := data_direction, unknown_4 := unknown_4,
                       unknown_5 := unknown_5 }, offset)
  else if pttci.stmt_sign1 = 0 ∧ pttci.stmt_sign2 = 0 then do
    let offset := offset + 2
    let data_direction ← proto_tree_add_uint .hf_tns_data_ttic_data_direction offset 1
      (tvb_get_guint8 tvb offset)
    let offset := offset + 1
    let unknown_4 ← Dis.read (tvb_get_guint8 tvb offset)
    let offset := offset + 1
    let unknown_5 ← Dis.read (tvb_get_ntohs tvb offset)
    let offset := offset + 2
    pure ({ pttci with data_direction := data_direction, unknown_4 := unknown_4,
                       unknown_5 := unknown_5 }, offset)
  else
    pure (pttci, offset)

/-- The end of the statement header of `dissect_tns_data_sql`, from the read of
`stmt_byte4` at `offset` to the parameter-count item: the offset after the
header and the updated context. -/
def sql_header_tail (tvb : Tvb) (offset : Nat) (pttci : ttci_packet_t) :
    Dis (Nat × ttci_packet_t) := do
  let stmt_byte4 ← Dis.read (tvb_get_guint8 tvb offset)
  let offset := offset + 1
  let stmt_flags ← Dis.read (tvb_get_guint8 tvb offset)
  let offset := offset + 1
  let param_count ← Dis.read (tvb_get_guint8 tvb offset)
  let tv_disp_offset := offset
  let offset := offset + 1
  let unknown_6 ← Dis.read (tvb_get_ntohs tvb offset)
  let offset := offset + 2
  let unknown_7 ← Dis.read (tvb_get_ntohs tvb offset)
  let offset := offset + 2
  let pttci := { pttci with stmt_byte4 := stmt_byte4, stmt_flags := stmt_flags,
                            param_count := param_count, unknown_6 := unknown_6,
                            unknown_7 := unknown_7 }
  let (pttci, offset, tv_disp_offset) ←
    (if stmt_flags = 0x0a then do
      let stmt_sel_unk1 ← Dis.read (tvb_get_guint8 tvb offset)
      let offset := offset + 1
      let stmt_sel_unk2 ← Dis.read (tvb_get_guint8 tvb offset)
      let offset := offset + 1
      let param_count ← Dis.read (tvb_get_guint8 tvb offset)
      pure ({ pttci with stmt_sel_unk1 := stmt_sel_unk1, stmt_sel_unk2 := stmt_sel_unk2,
                         param_count := param_count }, offset + 1, offset)
    else
      pure (pttci, offset, tv_disp_offset))
  let _ ← proto_tree_add_uint .hf_tns_data_ttic_param_count tv_disp_offset 1
    (tvb_get_guint8 tvb tv_disp_offset)
  pure (offset, pttci)

/-- The loop `for (int i = 0; i < bytes_remaining; i++)` searching the statement
end: the first `i` with `byte_buffer[i] == 0x01 && byte_buffer[i+1] == 0x01`.  The
first argument counts the passes left, `bytes_remaining - i`. -/
def stmt_end_scan (byte_buffer : List UInt8) : Nat → Nat → Option Nat
  | 0, _ => none
  | fuel + 1, i =>
    if byte_buffer.getD i 0 = 0x01 ∧ byte_buffer.getD (i + 1) 0 = 0x01 then some i
    else stmt_end_scan byte_buffer fuel (i + 1)

/-- How `dissect_tns_data_sql` ends. -/
inductive SqlStmt
  /-- One of the statements `return offset;`. -/
  | ret (offset : Nat)
  /-- The statement `return dissect_tns_data_sql_params(tvb, data_tree, offset, pttci);`
  with the offset and the context passed. -/
  | params (offset : Nat) (pttci : ttci_packet_t)
  deriving DecidableEq, Repr

/-- Models `dissect_tns_data_sql` from the `switch (pttci->data_direction)` up to its
final `return`, entered with the offset after the header. -/
def sql_statement (tvb : Tvb) (offset : Nat) (pttci : ttci_packet_t) : Dis SqlStmt :=
  let hdr_jmp_len : Option Nat :=
    if pttci.data_direction = 0x7f then some 15
    else if pttci.data_direction = 0xff then some 18
    else none
  match hdr_jmp_len with
  | none => Dis.ret (.ret offset)
  | some hdr_jmp_len =>
    let offset := offset + hdr_jmp_len
    let bytes_remaining := tvb_reported_length_remaining tvb offset
    if bytes_remaining = 0 then Dis.ret (.ret offset)
    else
      match tvb_memcpy tvb offset bytes_remaining with
      | none => Dis.raise
      | some bytes =>
        let byte_buffer := bytes ++ [0]
        let found := stmt_end_scan byte_buffer bytes_remaining 0
        let stmt_length := found.getD 0
        let byte_buffer :=
          match found with
          | some i => byte_buffer.set i 0
          | none => byte_buffer
        if stmt_length ≠ strlen byte_buffer then Dis.ret (.ret offset)
        else
          Dis.andThen
            (proto_tree_add_item_text tvb .hf_tns_data_ttic_stmt_sql offset stmt_length
              (.stmt (c_string byte_buffer)))
            (fun _ => Dis.ret (.params (offset + stmt_length) pttci))

/-- Models `dissect_tns_data_sql` up to its final `return` statement. -/
def dissect_tns_data_sql_stmt (tvb : Tvb) (offset : Nat) (pttci : ttci_packet_t) :
    Dis SqlStmt :=
  if tvb_reported_length_remaining tvb offset > 19 then
    Dis.andThen (sql_header tvb offset pttci) (fun r => sql_statement tvb r.1 r.2)
  else sql_statement tvb offset pttci

/-- Models `dissect_tns_data_sql`: the returned offset and the items added. -/
def dissect_tns_data_sql (tvb : Tvb) (offset : Nat) (pttci : ttci_packet_t) : Dis Nat :=
  Dis.andThen (dissect_tns_data_sql_stmt tvb offset pttci) (fun r =>
    match r with
    | .ret offset => Dis.ret offset
    | .params offset pttci => dissect_tns_data_sql_params tvb offset pttci)

/-! ## Data packets: `dissect_tns_data` -/

def OPI_VERSION2 : Nat := 1
def OPI_OSESSKEY : Nat := 2
def OPI_OAUTH : Nat := 3

/-- Models `tvb_strsize`: the size of the NUL-terminated string at `offset`, the NUL
included; `none` (exception) when there is no NUL before the end. -/
def tvb_strsize (tvb : Tvb) (offset : Nat) : Option Nat :=
  if offset ≤ tvb.length then
    if strlen (tvb.drop offset) < (tvb.drop offset).length then
      some (strlen (tvb.drop offset) + 1)
    else none
  else none

/-- Models `proto_tree_add_item(.., start, -1, ENC_ASCII)` on an `FT_STRINGZ` field (also
`proto_tree_add_item_ret_length`): the item runs to the terminating NUL, which
must exist; the item length is returned. -/
def proto_tree_add_stringz (tvb : Tvb) (hf : Hf) (start : Nat) : Dis Nat :=
  match tvb_strsize tvb start with
  | some n => ⟨[⟨hf, start, n, none, none⟩], some n⟩
  | none => Dis.raise

/-- The loop `for (;;)` over the version bytes of a Set Protocol message; the
result is the offset of the terminating zero byte.  The first argument counts
the passes left; started at the number of remaining bytes plus one, the read in
the last pass allowed is already outside the buffer. -/
def setp_versions (tvb : Tvb) (hf : Hf) : Nat → Nat → Dis Nat
  | 0, _ => Dis.raise
  | fuel + 1, offset =>
    match tvb_get_guint8 tvb offset with
    | none => Dis.raise
    | some vers =>
      if vers = 0 then Dis.ret offset
      else
        Dis.andThen (proto_tree_add_uint hf offset 1 (some vers))
          (fun _ => setp_versions tvb hf fuel (offset + 1))

/-- The probes of `case SQLNET_RETURN_OPI_PARAM`: the pair `(opi, skip)`. -/
def opi_detect (tvb : Tvb) (offset : Nat) : Nat × Nat :=
  if tvb_bytes_exist tvb offset 11 then
    if tvb_get_ntohl tvb (offset + 2) = some 0x4f726163 then (OPI_VERSION2, 1)
    else if tvb_get_ntohl tvb (offset + 3) = some 0x4f726163 then (OPI_VERSION2, 2)
    else if tvb_get_ntoh64 tvb (offset + 3) = some 0x0000000c41555448 then (OPI_OSESSKEY, 1)
    else if tvb_get_ntoh64 tvb (offset + 3) = some 0x0c0c415554485f53 then (OPI_OSESSKEY, 2)
    else if tvb_get_ntoh64 tvb (offset + 3) = some 0x0000001341555448 then (OPI_OAUTH, 1)
    else if tvb_get_ntoh64 tvb (offset + 3) = some 0x1313415554485f56 then (OPI_OAUTH, 2)
    else (0, 0)
  else (0, 0)

/-- The branch `if ( opi == OPI_VERSION2 )`. -/
def opi_version2 (tvb : Tvb) (skip offset : Nat) : Dis Nat := do
  proto_tree_add_item tvb .hf_tns_data_unused offset skip
  let offset := offset + skip
  let len ← Dis.read (tvb_get_guint8 tvb offset)
  let _ ← proto_tree_add_uint .hf_tns_data_opi_version2_banner_len offset 1
    (tvb_get_guint8 tvb offset)
  let offset := offset + 1
  proto_tree_add_item tvb .hf_tns_data_opi_version2_banner offset len
  let offset := offset + len + (if skip = 1 then 1 else 0)
  let _ ← proto_tree_add_uint .hf_tns_data_opi_version2_vsnum offset 4
    (if skip = 1 then tvb_get_ntohl tvb offset else tvb_get_letohl tvb offset)
  pure (offset + 4)

/-- One pass of the loop `for ( par = 1; par <= params; par++ )`. -/
def opi_param (tvb : Tvb) (opi skip offset : Nat) : Dis Nat := do
  proto_tree_add_subtree tvb offset "Parameter"
  let len ← proto_tree_add_uint .hf_tns_data_opi_param_length offset 1
    (tvb_get_guint8 tvb offset)
  let offset := offset + 1
  let offset ←
    (if ¬ (len = 0 ∨ len = 2) then do
      proto_tree_add_item tvb .hf_tns_data_opi_param_name offset len
      pure (offset + len)
    else pure offset)
  let offset_prev := offset
  let offset := offset + (if skip = 1 then 4 else 2)
  let len ←
    (if opi = OPI_OSESSKEY then Dis.read (tvb_get_guint8 tvb offset)
    else do
      let b ← Dis.read (tvb_get_guint8 tvb offset_prev)
      if b = 0 then pure 0 else Dis.read (tvb_get_guint8 tvb offset))
  let (offset, offset_prev) ←
    (if (opi = OPI_OSESSKEY ∧ ¬ (len = 0 ∨ len = 9 ∨ len = 0x39))
        ∨ (opi = OPI_OAUTH ∧ ¬ (len = 0 ∨ len = 0x39)) then do
      proto_tree_add_item tvb .hf_tns_data_unused offset_prev (offset - offset_prev)
      let _ ← proto_tree_add_uint .hf_tns_data_opi_param_length offset 1
        (tvb_get_guint8 tvb offset)
      let offset := offset + 1
      proto_tree_add_item tvb .hf_tns_data_opi_param_value offset len
      let offset := offset + len
      pure (offset, offset)
    else pure (offset + 1, offset_prev))
  let offset ←
    (if opi = OPI_OSESSKEY then do
      let b ← Dis.read (tvb_get_guint8 tvb offset)
      pure (offset + (if b = 2 then 5 else 3))
    else pure (offset + (if len = 0 then 1 else 3)))
  let offset :=
    if skip = 1 then
      offset + 1 + (if len = 0 ∨ len = 0x39 then 3 else 4)
        + (if opi = OPI_OAUTH then (if len = 0 then 2 else 0) else 0)
    else offset
  proto_tree_add_item tvb .hf_tns_data_unused offset_prev (offset - offset_prev)
  pure offset

/-- The loop `for ( par = 1; par <= params; par++ )`; the first argument is the
number of passes left. -/
def opi_params (tvb : Tvb) (opi skip : Nat) : Nat → Nat → Dis Nat
  | 0, offset => Dis.ret offset
  | n + 1, offset =>
    Dis.andThen (opi_param tvb opi skip offset) (fun offset => opi_params tvb opi skip n offset)

/-- The branch `else if ( opi == OPI_OSESSKEY || opi == OPI_OAUTH )`. -/
def opi_auth (tvb : Tvb) (opi skip offset : Nat) : Dis Nat := do
  let (params, offset) ←
    (if skip = 1 then do
      let params ← proto_tree_add_uint .hf_tns_data_opi_num_of_params offset 1
        (tvb_get_guint8 tvb offset)
      let offset := offset + 1
      proto_tree_add_item tvb .hf_tns_data_unused offset 5
      pure (params, offset + 5)
    else do
      proto_tree_add_item tvb .hf_tns_data_unused offset 1
      let offset := offset + 1
      let params ← proto_tree_add_uint .hf_tns_data_opi_num_of_params offset 1
        (tvb_get_guint8 tvb offset)
      let offset := offset + 1
      proto_tree_add_item tvb .hf_tns_data_unused offset 2
      pure (params, offset + 2))
  proto_tree_add_subtree tvb offset "Parameters"
  opi_params tvb opi skip params offset

/-- Models `case SQLNET_USER_OCI_FUNC` of `dissect_tns_data`. -/
def data_user_oci_func (tvb : Tvb) (offset : Nat) : Dis Nat := do
  let offset ←
    (if tvb_reported_length_remaining tvb offset > 0 then do
      let _ ← proto_tree_add_uint .hf_tns_data_oci_id offset 1 (tvb_get_guint8 tvb offset)
      pure (offset + 1)
    else pure offset)
  let (ttci_packet, offset) ←
    (if tvb_reported_length_remaining tvb offset > 3 then do
      let packet_number ← proto_tree_add_uint .hf_tns_data_ttic_pkt_number offset 1
        (tvb_get_guint8 tvb offset)
      let offset := offset + 1
      let unknown_1 ← proto_tree_add_uint .hf_tns_data_ttic_pkt_unknown_1 offset 2
        (tvb_get_ntohs tvb offset)
      let offset := offset + 2
      let request_type ← proto_tree_add_uint .hf_tns_data_ttic_req_type offset 1
        (tvb_get_guint8 tvb offset)
      let offset := offset + 1
      pure ({ ttci_packet_zero with packet_number := packet_number, unknown_1 := unknown_1,
                                    request_type := request_type }, offset)
    else pure (ttci_packet_zero, offset))
  if ttci_packet.request_type = SQLNET_TTCI_REQ_SQLSTMT then
    dissect_tns_data_sql tvb offset ttci_packet
  else pure offset

/-- Models `case SQLNET_SNS` of `dissect_tns_data`. -/
def data_sns (tvb : Tvb) (offset : Nat) (is_request : Bool) : Dis Nat := do
  let _ ← proto_tree_add_uint .hf_tns_data_id offset 4 (tvb_get_ntohl tvb offset)
  let offset := offset + 4
  let _ ← proto_tree_add_uint .hf_tns_data_length offset 2 (tvb_get_ntohs tvb offset)
  let offset := offset + 2
  let _ ← proto_tree_add_uint
    (if is_request then .hf_tns_data_sns_cli_vers else .hf_tns_data_sns_srv_vers) offset 4
    (tvb_get_ntohl tvb offset)
  let offset := offset + 4
  let _ ← proto_tree_add_uint .hf_tns_data_sns_srvcnt offset 2 (tvb_get_ntohs tvb offset)
  pure (offset - 10)

/-- The `switch (data_func_id)` of `dissect_tns_data`.  The result is `none` for
the `return` that skips `call_data_dissector`, else the offset after the `switch`. -/
def data_switch (tvb : Tvb) (offset : Nat) (is_request : Bool) (data_func_id : Nat) :
    Dis (Option Nat) :=
  if data_func_id = SQLNET_SET_PROTOCOL then
    if is_request then do
      proto_tree_add_subtree tvb offset "Accepted Versions"
      let offset ← setp_versions tvb .hf_tns_data_setp_acc_version
        (tvb_reported_length_remaining tvb offset + 1) offset
      let offset := offset + 1
      let _ ← proto_tree_add_stringz tvb .hf_tns_data_setp_cli_plat offset
      pure none
    else do
      proto_tree_add_subtree tvb offset "Versions"
      let offset ← setp_versions tvb .hf_tns_data_setp_version
        (tvb_reported_length_remaining tvb offset + 1) offset
      let offset := offset + 1
      let len ← proto_tree_add_stringz tvb .hf_tns_data_setp_banner offset
      pure (some (offset + len))
  else if data_func_id = SQLNET_USER_OCI_FUNC then do
    let offset ← data_user_oci_func tvb offset
    pure (some offset)
  else if data_func_id = SQLNET_RETURN_OPI_PARAM then
    let (opi, skip) := opi_detect tvb offset
    if opi = OPI_VERSION2 then do
      let offset ← opi_version2 tvb skip offset
      pure (some offset)
    else if opi = OPI_OSESSKEY ∨ opi = OPI_OAUTH then do
      let offset ← opi_auth tvb opi skip offset
      pure (some offset)
    else pure (some offset)
  else if data_func_id = SQLNET_PIGGYBACK_FUNC then do
    let _ ← proto_tree_add_uint .hf_tns_data_piggyback_id offset 1 (tvb_get_guint8 tvb offset)
    pure (some (offset + 1))
  else if data_func_id = SQLNET_SNS then do
    let offset ← data_sns tvb offset is_request
    pure (some offset)
  else pure (some offset)

/-- Models `dissect_tns_data`, entered with the offset of the data flags.  The result is
the offset of the remainder handed to `call_data_dissector`
(`tvb_new_subset_remaining(tvb, offset)`, which raises when `offset` is past the
end), or `none` when the function returns without that call.  Of
`proto_tree_add_bitmask` only the 16-bit flag item is listed, not the items of
the single flag bits. -/
def dissect_tns_data (tvb : Tvb) (offset : Nat) (is_request : Bool) : Dis (Option Nat) := do
  proto_tree_add_subtree tvb offset "Data"
  let _ ← proto_tree_add_uint .hf_tns_data_flag offset 2 (tvb_get_ntohs tvb offset)
  let offset := offset + 2
  let data_func_id := get_data_func_id tvb offset
  let offset ←
    (if tvb_reported_length_remaining tvb offset > 0 then
      if data_func_id ≠ SQLNET_SNS ∧ data_func_id ∈ tns_data_funcs then do
        let _ ← proto_tree_add_uint .hf_tns_data_id offset 1 (tvb_get_guint8 tvb offset)
        pure (offset + 1)
      else pure offset
    else pure offset)
  let r ← data_switch tvb offset is_request data_func_id
  match r with
  | none => pure none
  | some offset => if offset ≤ tvb.length then pure (some offset) else Dis.raise

/-! ## Framing by `tcp_dissect_pdus`

The routine belongs to the dissection library (`packet-tcp.c`), not to
`packet-tns.c`.  It is embedded as the library documents and implements it, for
one call on the data of one segment (or of the segments reassembled so far),
with reassembly enabled (`tns_desegment` and `pinfo->can_desegment` set). -/

/-- Why a call of `tcp_dissect_pdus` returns. -/
inductive PduStop
  /-- No byte remains. -/
  | done
  /-- The data from `desegment_offset` on is kept and more data is asked for:
  `desegment_len` more bytes, or (`none`) one more segment. -/
  | need_more (desegment_offset : Nat) (desegment_len : Option Nat)
  /-- The length callback returned less than `fixed_len` at `offset`: a bounds
  error is reported and the rest of the data is not looked at. -/
  | bounds_error (offset : Nat)
  /-- A read at `offset` raised the bounds exception: the length callback, or the
  read of the checksum field in `dissect_tns` before the framing starts. -/
  | raised (offset : Nat)
  deriving DecidableEq, Repr

/-- The effect of a call of `tcp_dissect_pdus`: the PDUs handed to the PDU
dissector, in order, and why the call returns. -/
structure PduFraming where
  pdus : List Tvb
  stop : PduStop
  deriving DecidableEq, Repr

/-- The loop `while (tvb_reported_length_remaining(tvb, offset) > 0)` of
`tcp_dissect_pdus`.  An exception of the PDU dissector is caught and the loop
goes on, so the PDUs do not depend on their dissection.  The first numeric
argument counts the passes still allowed; every pass moves `offset` by at least
one byte, so started at `tvb.length + 1` it is never the reason the loop stops. -/
def tcp_dissect_pdus (tvb : Tvb) (fixed_len : Nat) (get_pdu_len : PduLenFn) :
    Nat → Nat → PduFraming
  | 0, _ => ⟨[], .done⟩
  | fuel + 1, offset =>
    if tvb_reported_length_remaining tvb offset > 0 then
      let captured_length_remaining := tvb_reported_length_remaining tvb offset
      if captured_length_remaining < fixed_len then ⟨[], .need_more offset none⟩
      else
        match get_pdu_len.call tvb offset with
        | none => ⟨[], .raised offset⟩
        | some plen =>
          if plen = 0 then ⟨[], .need_more offset none⟩
          else if plen < fixed_len then ⟨[], .bounds_error offset⟩
          else if captured_length_remaining < plen then
            ⟨[], .need_more offset (some (plen - captured_length_remaining))⟩
          else
            ⟨(tvb.drop offset).take plen
                :: (tcp_dissect_pdus tvb fixed_len get_pdu_len fuel (offset + plen)).pdus,
              (tcp_dissect_pdus tvb fixed_len get_pdu_len fuel (offset + plen)).stop⟩
    else ⟨[], .done⟩

/-- The framing done by one call of `dissect_tns`: the call of `tcp_dissect_pdus`
it makes, if it makes one.  When `tvb_get_ntohs(tvb, 2)` raises, nothing is
framed and the exception leaves `dissect_tns`. -/
def dissect_tns_pdus (tvb : Tvb) : PduFraming :=
  match dissect_tns tvb with
  | .framed fixed_len get_pdu_len _ =>
    tcp_dissect_pdus tvb fixed_len get_pdu_len (tvb.length + 1) 0
  | .not_tns => ⟨[], .done⟩
  | .bounds_error => ⟨[], .raised 2⟩

/-! ## Sample inputs -/

/-- A SQL-statement payload as `dissect_tns_data_sql` receives it at offset 0: the
21-byte statement header of the SELECT shape without the optional leading byte
(data direction 0x7F, statement flags 0x01, parameter count 0), the 15 skipped
bytes, the text `SELECT 1 FROM DUAL` and the bytes `01 01`. -/
def sql_sample : Tvb :=
  [0x00, 0x00, 0x00, 0x00, 0x01, 0x01, 0x0d, 0x00, 0x00, 0x04, 0x7f, 0xff, 0xff, 0xff,
   0x01, 0x01, 0x00, 0x00, 0x00, 0x00, 0x00,
   0, 0, 0, 0, 0, 0, 0, 0, 0, 0, 0, 0, 0, 0, 0,
   0x53, 0x45, 0x4c, 0x45, 0x43, 0x54, 0x20, 0x31, 0x20, 0x46, 0x52, 0x4f, 0x4d, 0x20,
   0x44, 0x55, 0x41, 0x4c,
   0x01, 0x01]

/-- The context after the statement header of `sql_sample`. -/
def sql_sample_ttci : ttci_packet_t :=
  ⟨0, 0, 0, 0, 0, 0, 1, 1, 13, 0, 4, 127, 255, 65535, 1, 1, 0, 0, 0, 0, 0⟩

/-- The payload `sql_sample` followed by 30 zero bytes: a parameter block without
the descriptor magic `03 00 00 01`. -/
def sql_sample_no_magic : Tvb := sql_sample ++ List.replicate 30 0

/-- The payload `sql_sample` with the data-direction byte (offset 10) changed to
0x05, a value that is neither 0x7F nor 0xFF. -/
def sql_sample_bad_direction : Tvb :=
  [0x00, 0x00, 0x00, 0x00, 0x01, 0x01, 0x0d, 0x00, 0x00, 0x04, 0x05, 0xff, 0xff, 0xff,
   0x01, 0x01, 0x00, 0x00, 0x00, 0x00, 0x00,
   0, 0, 0, 0, 0, 0, 0, 0, 0, 0, 0, 0, 0, 0, 0,
   0x53, 0x45, 0x4c, 0x45, 0x43, 0x54, 0x20, 0x31, 0x20, 0x46, 0x52, 0x4f, 0x4d, 0x20,
   0x44, 0x55, 0x41, 0x4c,
   0x01, 0x01]

/-- The context after the statement header of `sql_sample_bad_direction`. -/
def sql_sample_bad_direction_ttci : ttci_packet_t :=
  ⟨0, 0, 0, 0, 0, 0, 1, 1, 13, 0, 4, 5, 255, 65535, 1, 1, 0, 0, 0, 0, 0⟩

/-- The payload `sql_sample` with the byte 0x35 put in front of the statement
byte `01` at offset 4: the header variant with the optional leading byte. -/
def sql_sample_prfx : Tvb :=
  [0x00, 0x00, 0x00, 0x00, 0x35, 0x01, 0x01, 0x0d, 0x00, 0x00, 0x04, 0x7f, 0xff, 0xff, 0xff,
   0x01, 0x01, 0x00, 0x00, 0x00, 0x00, 0x00,
   0, 0, 0, 0, 0, 0, 0, 0, 0, 0, 0, 0, 0, 0, 0,
   0x53, 0x45, 0x4c, 0x45, 0x43, 0x54, 0x20, 0x31, 0x20, 0x46, 0x52, 0x4f, 0x4d, 0x20,
   0x44, 0x55, 0x41, 0x4c,
   0x01, 0x01]

/-- A SQL-statement payload of the shape with `stmt_sign2 == 0`: two bytes more
before the data direction (0xFF), statement flags 0x01, parameter count 0; the
18 skipped bytes, the text `DELETE FROM T` and the bytes `01 01`. -/
def sql_sample_dml : Tvb :=
  [0x00, 0x00, 0x00, 0x00, 0x01, 0x01, 0x0d, 0x00, 0x00, 0x00, 0xaa, 0xbb, 0xff, 0x11,
   0x22, 0x33, 0x01, 0x01, 0x00, 0x00, 0x00, 0x00, 0x00,
   0, 0, 0, 0, 0, 0, 0, 0, 0, 0, 0, 0, 0, 0, 0, 0, 0, 0,
   0x44, 0x45, 0x4c, 0x45, 0x54, 0x45, 0x20, 0x46, 0x52, 0x4f, 0x4d, 0x20, 0x54,
   0x01, 0x01]

/-- A SQL-statement payload with statement flags 0x0A: the byte 05 at the first
parameter-count position, and behind the two 16-bit fields `7F FF`, `FF FF` and
the bytes `01 01` the parameter count 02; then the 15 skipped bytes, the text
`SELECT 1 FROM DUAL` and the bytes `01 01`. -/
def sql_sample_select : Tvb :=
  [0x00, 0x00, 0x00, 0x00, 0x01, 0x01, 0x0d, 0x00, 0x00, 0x04, 0x7f, 0xff, 0xff, 0xff,
   0x01, 0x0a, 0x05, 0x7f, 0xff, 0xff, 0xff, 0x01, 0x01, 0x02,
   0, 0, 0, 0, 0, 0, 0, 0, 0, 0, 0, 0, 0, 0, 0,
   0x53, 0x45, 0x4c, 0x45, 0x43, 0x54, 0x20, 0x31, 0x20, 0x46, 0x52, 0x4f, 0x4d, 0x20,
   0x44, 0x55, 0x41, 0x4c,
   0x01, 0x01]

/-- The payload `sql_sample` with `stmt_sign2` (offset 9) changed to 0x09, which
is neither 0x04 nor 0x00. -/
def sql_sample_other_sign : Tvb :=
  [0x00, 0x00, 0x00, 0x00, 0x01, 0x01, 0x0d, 0x00, 0x00, 0x09, 0x7f, 0xff, 0xff, 0xff,
   0x01, 0x01, 0x00, 0x00, 0x00, 0x00, 0x00,
   0, 0, 0, 0, 0, 0, 0, 0, 0, 0, 0, 0, 0, 0, 0,
   0x53, 0x45, 0x4c, 0x45, 0x43, 0x54, 0x20, 0x31, 0x20, 0x46, 0x52, 0x4f, 0x4d, 0x20,
   0x44, 0x55, 0x41, 0x4c,
   0x01, 0x01]

/-- A parameter block as `dissect_tns_data_sql_params` receives it at offset 0: the
18-byte parameter header starting with `01 01`, three bytes `AA BB 03` that do
not start the magic, one descriptor `03 00 00 01 ..` whose marker fields are
`69 01` and `00 07`, and one value of length 3. -/
def params_sample : Tvb :=
  [0x01, 0x01, 0, 0, 0, 0, 0, 0, 0, 0, 0, 0, 0, 0, 0, 0, 0, 0,
   0xAA, 0xBB, 0x03,
   0x03, 0x00, 0x00, 0x01, 0x28, 0x00, 0x01, 0x10, 0x00, 0x00, 0x02, 0x03, 0x69, 0x01,
   0x00, 0x07,
   0x03, 0x41, 0x42, 0x43]

/-- A context with parameter count 1, for `params_sample`. -/
def params_sample_ttci : ttci_packet_t :=
  ⟨0, 0, 0, 0, 0, 0, 1, 1, 13, 0, 0, 127, 0, 0, 1, 1, 1, 0, 0, 0, 0⟩

/-- A parameter block with two descriptors (property byte 0x00; the second one
carries the marker fields `69 01` and `00 07`) and the value list `02 41 42`,
`00`, `01 43`: the second length byte is 0. -/
def params_sample_zero : Tvb :=
  [0x01, 0x01, 0, 0, 0, 0, 0, 0, 0, 0, 0, 0, 0, 0, 0, 0, 0, 0,
   0x03, 0x00, 0x00, 0x01, 0x28, 0x00, 0x01, 0x00, 0x00, 0x00, 0x02, 0x03, 0x69, 0x01,
   0x00, 0x01,
   0x03, 0x00, 0x00, 0x01, 0x28, 0x00, 0x01, 0x00, 0x00, 0x00, 0x02, 0x03, 0x69, 0x01,
   0x00, 0x07,
   0x02, 0x41, 0x42, 0x00, 0x01, 0x43]

/-- A context with parameter count 2, for `params_sample_zero`. -/
def params_sample_zero_ttci : ttci_packet_t :=
  ⟨0, 0, 0, 0, 0, 0, 1, 1, 13, 0, 0, 127, 0, 0, 1, 1, 2, 0, 0, 0, 0⟩

/-- A Set Protocol request as `dissect_tns_data` receives it at offset 0: the flag
word `00 00`, the id byte `01`, the version list `01 02 03`, its terminator `00`
and the NUL-terminated platform string `linux`. -/
def setp_sample : Tvb :=
  [0x00, 0x00, 0x01, 0x01, 0x02, 0x03, 0x00, 0x6c, 0x69, 0x6e, 0x75, 0x78, 0x00]

/-- The parameter block `params_sample` with the byte `param_props.unknown_2` of
its descriptor (offset 28) changed from 0x10 to 0x00. -/
def params_sample_number : Tvb :=
  [0x01, 0x01, 0, 0, 0, 0, 0, 0, 0, 0, 0, 0, 0, 0, 0, 0, 0, 0,
   0xAA, 0xBB, 0x03,
   0x03, 0x00, 0x00, 0x01, 0x28, 0x00, 0x01, 0x00, 0x00, 0x00, 0x02, 0x03, 0x69, 0x01,
   0x00, 0x07,
   0x03, 0x41, 0x42, 0x43]

/-- The parameter block `params_sample` with the properties of its descriptor
(offsets 26 to 28) changed from `00 01 10` to `0B 00 04`. -/
def params_sample_datetime : Tvb :=
  [0x01, 0x01, 0, 0, 0, 0, 0, 0, 0, 0, 0, 0, 0, 0, 0, 0, 0, 0,
   0xAA, 0xBB, 0x03,
   0x03, 0x00, 0x00, 0x01, 0x28, 0x0b, 0x00, 0x04, 0x00, 0x00, 0x02, 0x03, 0x69, 0x01,
   0x00, 0x07,
   0x03, 0x41, 0x42, 0x43]

/-- A parameter block with one descriptor, which has the properties `0B 00` and
`04` and the marker fields `69 01` and `00 07`, and the two values `02 41 42` and
`01 43`; it is read with the parameter count 2. -/
def params_sample_marker_first : Tvb :=
  [0x01, 0x01, 0, 0, 0, 0, 0, 0, 0, 0, 0, 0, 0, 0, 0, 0, 0, 0,
   0x03, 0x00, 0x00, 0x01, 0x28, 0x0b, 0x00, 0x04, 0x00, 0x00, 0x02, 0x03, 0x69, 0x01,
   0x00, 0x07,
   0x02, 0x41, 0x42, 0x01, 0x43]

/-- A parameter block with two descriptors, the second one of the shape with
flag 0x01 and `magic_2 == 0x0109` (18 bytes, the marker fields `69 01` and, read
again, `00 07`), and the values `02 41 42` and `01 43`. -/
def params_sample_wide : Tvb :=
  [0x01, 0x01, 0, 0, 0, 0, 0, 0, 0, 0, 0, 0, 0, 0, 0, 0, 0, 0,
   0x03, 0x00, 0x00, 0x01, 0x28, 0x00, 0x01, 0x10, 0x00, 0x00, 0x02, 0x03, 0x69, 0x01,
   0x00, 0x01,
   0x03, 0x00, 0x01, 0x09, 0x01, 0x00, 0x01, 0x10, 0x00, 0x00, 0x02, 0x03, 0x69, 0x01,
   0x00, 0x00, 0x00, 0x07,
   0x02, 0x41, 0x42, 0x01, 0x43]

/-- The parameter block `params_sample_wide` with the byte `param_props.unknown_2`
of both descriptors (offsets 25 and 41) changed from 0x10 to 0x00. -/
def params_sample_wide_number : Tvb :=
  [0x01, 0x01, 0, 0, 0, 0, 0, 0, 0, 0, 0, 0, 0, 0, 0, 0, 0, 0,
   0x03, 0x00, 0x00, 0x01, 0x28, 0x00, 0x01, 0x00, 0x00, 0x00, 0x02, 0x03, 0x69, 0x01,
   0x00, 0x01,
   0x03, 0x00, 0x01, 0x09, 0x01, 0x00, 0x01, 0x00, 0x00, 0x00, 0x02, 0x03, 0x69, 0x01,
   0x00, 0x00, 0x00, 0x07,
   0x02, 0x41, 0x42, 0x01, 0x43]

/-- A parameter block with three descriptors (flag 0x28 with the property byte
0x10, flag 0x16 of the short shape, flag 0x28 with the properties `0B 00` and
`04`, the last one carrying the marker fields `69 01` and `00 07`) and the values
`02 41 42`, `02 C1 02` and `03 78 7A 0A`. -/
def params_sample_three : Tvb :=
  [0x01, 0x01, 0, 0, 0, 0, 0, 0, 0, 0, 0, 0, 0, 0, 0, 0, 0, 0,
   0x03, 0x00, 0x00, 0x01, 0x28, 0x00, 0x01, 0x10, 0x00, 0x00, 0x02, 0x03, 0x69, 0x01,
   0x00, 0x02,
   0x03, 0x00, 0x00, 0x01, 0x16, 0x00, 0x00, 0x00, 0x00, 0x02, 0x03, 0x69, 0x01,
   0x00, 0x0c,
   0x03, 0x00, 0x00, 0x01, 0x28, 0x0b, 0x00, 0x04, 0x00, 0x00, 0x02, 0x03, 0x69, 0x01,
   0x00, 0x07,
   0x02, 0x41, 0x42, 0x02, 0xc1, 0x02, 0x03, 0x78, 0x7a, 0x0a]

/-- A parameter block like `params_sample_wide` whose second descriptor starts
with `04 00 00 02`: neither magic field has its expected value. -/
def params_sample_bad_magic : Tvb :=
  [0x01, 0x01, 0, 0, 0, 0, 0, 0, 0, 0, 0, 0, 0, 0, 0, 0, 0, 0,
   0x03, 0x00, 0x00, 0x01, 0x28, 0x00, 0x01, 0x10, 0x00, 0x00, 0x02, 0x03, 0x69, 0x01,
   0x00, 0x01,
   0x04, 0x00, 0x00, 0x02, 0x28, 0x00, 0x01, 0x10, 0x00, 0x00, 0x02, 0x03, 0x69, 0x01,
   0x00, 0x07,
   0x02, 0x41, 0x42, 0x01, 0x43]

/-- A Return OPI Parameter payload behind the id byte with `Orac` at offset 2:
one byte, the banner length 6, the banner `Oracle`, one byte, and the version
bytes `0B 02 00 01`. -/
def opi_sample_v1 : Tvb :=
  [0x00, 0x06, 0x4f, 0x72, 0x61, 0x63, 0x6c, 0x65, 0x00, 0x0b, 0x02, 0x00, 0x01]

/-- A Return OPI Parameter payload behind the id byte with `Orac` at offset 3:
two bytes, the banner length 6, the banner `Oracle` and the version bytes
`01 00 02 0B`. -/
def opi_sample_v2 : Tvb :=
  [0x00, 0x00, 0x06, 0x4f, 0x72, 0x61, 0x63, 0x6c, 0x65, 0x01, 0x00, 0x02, 0x0b]

/-- A User OCI Functions payload behind the id byte: the OCI call id 0x5E, the
packet number 1, the 16-bit field 0, the request type 0x29, and the statement
payload `sql_sample`. -/
def oci_sample_sql : Tvb := [0x5e, 0x01, 0x00, 0x00, 0x29] ++ sql_sample

/-- A complete packet of 10 bytes with the 16-bit length field: length `00 0A`,
packet checksum `00 00`, type 6. -/
def pdu_sample_classic : Tvb := [0x00, 0x0a, 0x00, 0x00, 0x06, 0x00, 0x00, 0x00, 0x00, 0x00]

/-- A complete packet of 10 bytes with the 32-bit length field `00 00 00 0A`, type 6. -/
def pdu_sample_modern : Tvb := [0x00, 0x00, 0x00, 0x0a, 0x06, 0x00, 0x00, 0x00, 0x00, 0x00]

/-- A stream of 10 bytes whose 16-bit length field is `00 00`: the declared
length is 0. -/
def pdu_sample_zero_length : Tvb :=
  [0x00, 0x00, 0x00, 0x00, 0x06, 0x00, 0x00, 0x00, 0x00, 0x00]

/-- The payload `sql_sample` with the blank behind `SELECT` (offset 42) changed to
a zero byte. -/
def sql_sample_stmt_nul : Tvb :=
  [0x00, 0x00, 0x00, 0x00, 0x01, 0x01, 0x0d, 0x00, 0x00, 0x04, 0x7f, 0xff, 0xff, 0xff,
   0x01, 0x01, 0x00, 0x00, 0x00, 0x00, 0x00,
   0, 0, 0, 0, 0, 0, 0, 0, 0, 0, 0, 0, 0, 0, 0,
   0x53, 0x45, 0x4c, 0x45, 0x43, 0x54, 0x00, 0x31, 0x20, 0x46, 0x52, 0x4f, 0x4d, 0x20,
   0x44, 0x55, 0x41, 0x4c,
   0x01, 0x01]

/-- The first 20 bytes of `sql_sample`: the statement header without its last byte. -/
def sql_sample_short : Tvb :=
  [0x00, 0x00, 0x00, 0x00, 0x01, 0x01, 0x0d, 0x00, 0x00, 0x04, 0x7f, 0xff, 0xff, 0xff,
   0x01, 0x01, 0x00, 0x00, 0x00, 0x00]

/-- The first 21 bytes of `sql_sample`: the statement header and nothing behind it. -/
def sql_sample_header_only : Tvb :=
  [0x00, 0x00, 0x00, 0x00, 0x01, 0x01, 0x0d, 0x00, 0x00, 0x04, 0x7f, 0xff, 0xff, 0xff,
   0x01, 0x01, 0x00, 0x00, 0x00, 0x00, 0x00]

/-- The parameter block `params_sample` with the value list `05 41 42 43`: the
length byte announces 5 bytes, 3 follow. -/
def params_sample_short_string : Tvb :=
  [0x01, 0x01, 0, 0, 0, 0, 0, 0, 0, 0, 0, 0, 0, 0, 0, 0, 0, 0,
   0xAA, 0xBB, 0x03,
   0x03, 0x00, 0x00, 0x01, 0x28, 0x00, 0x01, 0x10, 0x00, 0x00, 0x02, 0x03, 0x69, 0x01,
   0x00, 0x07,
   0x05, 0x41, 0x42, 0x43]

/-- The parameter block `params_sample_number` with the value list `05 41 42 43`:
the length byte announces 5 bytes, 3 follow. -/
def params_sample_short_number : Tvb :=
  [0x01, 0x01, 0, 0, 0, 0, 0, 0, 0, 0, 0, 0, 0, 0, 0, 0, 0, 0,
   0xAA, 0xBB, 0x03,
   0x03, 0x00, 0x00, 0x01, 0x28, 0x00, 0x01, 0x00, 0x00, 0x00, 0x02, 0x03, 0x69, 0x01,
   0x00, 0x07,
   0x05, 0x41, 0x42, 0x43]

/-- The statement header of `sql_sample`, the 15 skipped bytes, and the bytes
`00 53 45 4C 45 43 54`: a zero byte first and no two bytes `01 01` behind the header. -/
def sql_sample_no_terminator : Tvb :=
  [0x00, 0x00, 0x00, 0x00, 0x01, 0x01, 0x0d, 0x00, 0x00, 0x04, 0x7f, 0xff, 0xff, 0xff,
   0x01, 0x01, 0x00, 0x00, 0x00, 0x00, 0x00,
   0, 0, 0, 0, 0, 0, 0, 0, 0, 0, 0, 0, 0, 0, 0,
   0x00, 0x53, 0x45, 0x4c, 0x45, 0x43, 0x54]

/-- The statement header of `sql_sample`, the 15 skipped bytes, and the text
`SELECT 1` with nothing behind it. -/
def sql_sample_unterminated : Tvb :=
  [0x00, 0x00, 0x00, 0x00, 0x01, 0x01, 0x0d, 0x00, 0x00, 0x04, 0x7f, 0xff, 0xff, 0xff,
   0x01, 0x01, 0x00, 0x00, 0x00, 0x00, 0x00,
   0, 0, 0, 0, 0, 0, 0, 0, 0, 0, 0, 0, 0, 0, 0,
   0x53, 0x45, 0x4c, 0x45, 0x43, 0x54, 0x20, 0x31]

/-- A Set Protocol payload that ends inside the version list: the flag word
`00 00`, the id byte `01` and the versions `01 02 03` without a terminator. -/
def setp_sample_open : Tvb := [0x00, 0x00, 0x01, 0x01, 0x02, 0x03]

/-- A Marker packet (type 12) of 11 bytes: the 8-byte header and the three body
bytes `01 00 02`. -/
def marker_sample : Tvb :=
  [0x00, 0x0b, 0x00, 0x00, 0x0c, 0x00, 0x00, 0x00, 0x01, 0x00, 0x02]

/-- An Attention packet (type 13) of 11 bytes: the 8-byte header and the three body
bytes `01 00 02`. -/
def attention_sample : Tvb :=
  [0x00, 0x0b, 0x00, 0x00, 0x0d, 0x00, 0x00, 0x00, 0x01, 0x00, 0x02]

/-! ## Lemmas on the buffer accessors -/

theorem tvb_get_guint8_drop (tvb : Tvb) (offset k : Nat) :
    tvb_get_guint8 tvb (offset + k) = tvb_get_guint8 (tvb.drop offset) k := by
  simp [tvb_get_guint8, List.get?_eq_getElem?, List.getElem?_drop]

theorem tvb_get_guint8_lt (tvb : Tvb) (offset v : Nat) (h : tvb_get_guint8 tvb offset = some v) :
    v < 256 := by
  simp only [tvb_get_guint8, Option.map_eq_some'] at h
  obtain ⟨b, _, hb⟩ := h
  rw [← hb]
  exact b.toNat_lt

/-! ## Lemmas on sequencing -/

theorem dis_bind_eq {α β : Type} (m : Dis α) (f : α → Dis β) :
    (m >>= f) = Dis.andThen m f := rfl

theorem dis_pure_eq {α : Type} (a : α) : (pure a : Dis α) = Dis.ret a := rfl

@[simp] theorem andThen_items {α β : Type} (m : Dis α) (f : α → Dis β) :
    (Dis.andThen m f).items
      = m.items ++ (match m.val with
                    | some a => (f a).items
                    | none => []) := by
  unfold Dis.andThen
  cases m.val <;> simp

@[simp] theorem andThen_val {α β : Type} (m : Dis α) (f : α → Dis β) :
    (Dis.andThen m f).val = m.val.bind (fun a => (f a).val) := by
  unfold Dis.andThen
  cases m.val <;> simp

@[simp] theorem ret_items {α : Type} (a : α) : (Dis.ret a).items = [] := rfl
@[simp] theorem ret_val {α : Type} (a : α) : (Dis.ret a).val = some a := rfl
@[simp] theorem raise_items {α : Type} : (Dis.raise : Dis α).items = [] := rfl
@[simp] theorem raise_val {α : Type} : (Dis.raise : Dis α).val = none := rfl
@[simp] theorem read_items {α : Type} (o : Option α) : (Dis.read o).items = [] := rfl
@[simp] theorem read_val {α : Type} (o : Option α) : (Dis.read o).val = o := rfl

@[simp] theorem add_uint_some (hf : Hf) (start length n : Nat) :
    proto_tree_add_uint hf start length (some n)
      = ⟨[⟨hf, start, length, some n, none⟩], some n⟩ := rfl

@[simp] theorem add_uint_none (hf : Hf) (start length : Nat) :
    proto_tree_add_uint hf start length none = Dis.raise := rfl

theorem add_uint_val (hf : Hf) (start length : Nat) (v : Option Nat) :
    (proto_tree_add_uint hf start length v).val = v := by
  cases v <;> rfl

/-- C1: for a buffer of at least 4 bytes with `c` the big-endian 16-bit value at
offset 2, the length callback chosen by `dissect_tns` (unless it declines the
stream) and the length item decoded by `dissect_tns_pdu` both yield the 16-bit
big-endian value at offset 0 when `c` is 0 or 4, and the 32-bit big-endian value
at offset 0 for every other `c`. -/
theorem declared_length_by_checksum (tvb : Tvb) (is_request : Bool) (h : 4 ≤ tvb.length) :
    ∃ c len16 len32, tvb_get_ntohs tvb 2 = some c ∧ tvb_get_ntohs tvb 0 = some len16
      ∧ tvb_get_ntohl tvb 0 = some len32
      ∧ ((c = 0 ∨ c = 4) →
          (dissect_tns tvb = .not_tns ∨ dissect_tns tvb = .framed 2 .get_tns_pdu_len tvb.length)
          ∧ PduLenFn.get_tns_pdu_len.call tvb 0 = some len16
          ∧ tns_length_field (dissect_tns_pdu tvb is_request).items = some len16)
      ∧ (¬ (c = 0 ∨ c = 4) →
          (dissect_tns tvb = .not_tns
            ∨ dissect_tns tvb = .framed 4 .get_tns_pdu_len_nochksum tvb.length)
          ∧ PduLenFn.get_tns_pdu_len_nochksum.call tvb 0 = some len32
          ∧ tns_length_field (dissect_tns_pdu tvb is_request).items = some len32) := by
  match tvb, h with
  | b0 :: b1 :: b2 :: b3 :: rest, _ =>
    have h2 : tvb_get_ntohs (b0 :: b1 :: b2 :: b3 :: rest) 2
        = some (b2.toNat * 256 + b3.toNat) := by simp [tvb_get_ntohs, tvb_get_guint8]
    have h0 : tvb_get_ntohs (b0 :: b1 :: b2 :: b3 :: rest) 0
        = some (b0.toNat * 256 + b1.toNat) := by simp [tvb_get_ntohs, tvb_get_guint8]
    have h4 : tvb_get_ntohl (b0 :: b1 :: b2 :: b3 :: rest) 0
        = some ((b0.toNat * 256 + b1.toNat) * 65536 + (b2.toNat * 256 + b3.toNat)) := by
      simp [tvb_get_ntohl, tvb_get_ntohs, tvb_get_guint8]
    refine ⟨_, _, _, h2, h0, h4, ?_, ?_⟩
    · intro hc
      refine ⟨?_, ?_, ?_⟩
      · simp only [dissect_tns, h2]
        simp only [hc, if_true]
        split <;> simp
      · simp [PduLenFn.call, get_tns_pdu_len, h0]
      · simp only [dissect_tns_pdu, dis_bind_eq, dis_pure_eq, andThen_items, h2, h0, read_val,
          proto_tree_add_item, if_pos hc]
        cases is_request <;> simp [tns_length_field, List.find?]
    · intro hc
      refine ⟨?_, ?_, ?_⟩
      · simp only [dissect_tns, h2]
        simp only [hc, if_false]
        split <;> simp
      · simp [PduLenFn.call, get_tns_pdu_len_nochksum, h4]
      · simp only [dissect_tns_pdu, dis_bind_eq, dis_pure_eq, andThen_items, h2, h4, read_val,
          proto_tree_add_item, if_neg hc]
        cases is_request <;> simp [tns_length_field, List.find?]

/-- Witness for C1 on a classic-layout packet of 10 bytes. -/
theorem declared_length_by_checksum_witness :
    4 ≤ ([0, 10, 0, 0, 6, 0, 0, 0, 0, 0] : Tvb).length
      ∧ ∃ c len16 len32, tvb_get_ntohs [0, 10, 0, 0, 6, 0, 0, 0, 0, 0] 2 = some c
        ∧ tvb_get_ntohs [0, 10, 0, 0, 6, 0, 0, 0, 0, 0] 0 = some len16
        ∧ tvb_get_ntohl [0, 10, 0, 0, 6, 0, 0, 0, 0, 0] 0 = some len32
        ∧ ((c = 0 ∨ c = 4) →
            (dissect_tns [0, 10, 0, 0, 6, 0, 0, 0, 0, 0] = .not_tns
              ∨ dissect_tns [0, 10, 0, 0, 6, 0, 0, 0, 0, 0]
                  = .framed 2 .get_tns_pdu_len ([0, 10, 0, 0, 6, 0, 0, 0, 0, 0] : Tvb).length)
            ∧ PduLenFn.get_tns_pdu_len.call [0, 10, 0, 0, 6, 0, 0, 0, 0, 0] 0 = some len16
            ∧ tns_length_field (dissect_tns_pdu [0, 10, 0, 0, 6, 0, 0, 0, 0, 0] true).items
                = some len16)
        ∧ (¬ (c = 0 ∨ c = 4) →
            (dissect_tns [0, 10, 0, 0, 6, 0, 0, 0, 0, 0] = .not_tns
              ∨ dissect_tns [0, 10, 0, 0, 6, 0, 0, 0, 0, 0]
                  = .framed 4 .get_tns_pdu_len_nochksum
                      ([0, 10, 0, 0, 6, 0, 0, 0, 0, 0] : Tvb).length)
            ∧ PduLenFn.get_tns_pdu_len_nochksum.call [0, 10, 0, 0, 6, 0, 0, 0, 0, 0] 0
                = some len32
            ∧ tns_length_field (dissect_tns_pdu [0, 10, 0, 0, 6, 0, 0, 0, 0, 0] true).items
                = some len32) :=
  ⟨by decide, declared_length_by_checksum [0, 10, 0, 0, 6, 0, 0, 0, 0, 0] true (by decide)⟩

/-- C2 fails as stated: in the packet `00 00 00 0A 06 00 00 00 00 00` the 16-bit
field at offset 2 is 10 (neither 0 nor 4, so the length is the 32-bit value 10),
and the body decoder is called at offset 8, not at offset 6. -/
theorem body_offset_modern_counterexample :
    tvb_get_ntohs [0, 0, 0, 10, 6, 0, 0, 0, 0, 0] 2 = some 10
      ∧ (dissect_tns_pdu [0, 0, 0, 10, 6, 0, 0, 0, 0, 0] true).val
          = some (.dissect_tns_data, 8)
      ∧ (dissect_tns_pdu [0, 0, 0, 10, 6, 0, 0, 0, 0, 0] true).val
          ≠ some (.dissect_tns_data, 6) := by
  decide

/-- C2 amended: whenever `dissect_tns_pdu` reaches its `switch`, the body decoder
is called at offset 8, whatever the 16-bit field at offset 2 holds; and it does
reach the `switch`, with the decoder selected by the byte at offset 4, for
every packet of at least 8 bytes. -/
theorem body_offset_always_8 (tvb : Tvb) (is_request : Bool) :
    (∀ d o, (dissect_tns_pdu tvb is_request).val = some (d, o) → o = 8)
      ∧ (8 ≤ tvb.length →
          ∃ type, tvb_get_guint8 tvb 4 = some type
            ∧ (dissect_tns_pdu tvb is_request).val = some (tns_pdu_switch type, 8)) := by
  constructor
  · intro d o h
    simp only [dissect_tns_pdu, dis_bind_eq, dis_pure_eq, andThen_val, read_val,
      Option.bind_eq_some] at h
    obtain ⟨_, _, _, _, c, _, o1, ho1, _, _, _, _, _, _, h⟩ := h
    have h4 : o1 = 4 := by
      split at ho1
      · simp only [andThen_val, add_uint_val, ret_val, Option.bind_eq_some] at ho1
        obtain ⟨_, _, _, _, ho1⟩ := ho1
        simp only [Option.some.injEq] at ho1
        omega
      · simp only [andThen_val, add_uint_val, ret_val, Option.bind_eq_some] at ho1
        obtain ⟨_, _, ho1⟩ := ho1
        simp only [Option.some.injEq] at ho1
        omega
    simp only [ret_val, Option.some.injEq, Prod.mk.injEq] at h
    omega
  · intro h
    match tvb, h with
    | b0 :: b1 :: b2 :: b3 :: b4 :: b5 :: b6 :: b7 :: rest, _ =>
      refine ⟨b4.toNat, by simp [tvb_get_guint8], ?_⟩
      have h2 : tvb_get_ntohs (b0 :: b1 :: b2 :: b3 :: b4 :: b5 :: b6 :: b7 :: rest) (0 + 2)
          = some (b2.toNat * 256 + b3.toNat) := by simp [tvb_get_ntohs, tvb_get_guint8]
      simp only [dissect_tns_pdu, dis_bind_eq, dis_pure_eq, andThen_val, h2, read_val,
        proto_tree_add_item, Option.some_bind]
      by_cases hc : b2.toNat * 256 + b3.toNat = 0 ∨ b2.toNat * 256 + b3.toNat = 4
      · simp only [if_pos hc]
        simp [add_uint_val, tvb_get_ntohs, tvb_get_guint8]
      · simp only [if_neg hc]
        simp [add_uint_val, tvb_get_ntohs, tvb_get_guint8, tvb_get_ntohl]

/-- Witness for the amended C2 on a modern-layout Data packet. -/
theorem body_offset_always_8_witness :
    (8 : Nat) = 8
      ∧ ∃ type, tvb_get_guint8 [0, 0, 0, 10, 6, 0, 0, 0, 0, 0] 4 = some type
          ∧ (dissect_tns_pdu [0, 0, 0, 10, 6, 0, 0, 0, 0, 0] true).val
              = some (tns_pdu_switch type, 8) :=
  ⟨(body_offset_always_8 [0, 0, 0, 10, 6, 0, 0, 0, 0, 0] true).1 .dissect_tns_data 8
      (by decide),
   (body_offset_always_8 [0, 0, 0, 10, 6, 0, 0, 0, 0, 0] true).2 (by decide)⟩

/-- C3 fails as stated: in the stream `00 0A 00 00 08 00 00 00 00 00` the byte at
offset 4 is 8, which is not in `tns_type_vals`, yet `dissect_tns` does not
return 0: it frames with the 16-bit length (10, the whole stream) and
`dissect_tns_pdu` decodes the packet through its default branch. -/
theorem unknown_type_in_range_counterexample :
    tvb_get_guint8 [0, 10, 0, 0, 8, 0, 0, 0, 0, 0] 4 = some 8
      ∧ 8 ∉ tns_type_vals
      ∧ dissect_tns [0, 10, 0, 0, 8, 0, 0, 0, 0, 0] ≠ .not_tns
      ∧ dissect_tns [0, 10, 0, 0, 8, 0, 0, 0, 0, 0] = .framed 2 .get_tns_pdu_len 10
      ∧ get_tns_pdu_len [0, 10, 0, 0, 8, 0, 0, 0, 0, 0] 0 = some 10
      ∧ (dissect_tns_pdu [0, 10, 0, 0, 8, 0, 0, 0, 0, 0] true).val
          = some (.call_data_dissector, 8) := by
  decide

/-- C3 amended: for a stream whose byte at offset 4 exists, `dissect_tns` returns
0 without framing exactly when that byte is below `TNS_TYPE_CONNECT` (1) or above
`TNS_TYPE_MAX` (19). -/
theorem declines_type_outside_range (tvb : Tvb) (type : Nat)
    (h : tvb_get_guint8 tvb 4 = some type) :
    dissect_tns tvb = .not_tns ↔ (type < 1 ∨ 19 < type) := by
  have hlen : tvb_bytes_exist tvb 4 1 = true := by
    simp only [tvb_get_guint8, Option.map_eq_some', List.get?_eq_getElem?] at h
    obtain ⟨b, hb, _⟩ := h
    have := (List.getElem?_eq_some_iff.mp hb).1
    simp only [tvb_bytes_exist, decide_eq_true_eq]
    omega
  simp only [dissect_tns, hlen, h, if_true, TNS_TYPE_CONNECT, TNS_TYPE_MAX]
  by_cases ht : type < 1 ∨ 19 < type
  · have hb : (decide (type < 1) || decide (type > 19)) = true := by
      simpa using ht
    rw [if_pos hb]
    exact iff_of_true rfl ht
  · have hb : ¬ (decide (type < 1) || decide (type > 19)) = true := by
      simpa using ht
    rw [if_neg hb]
    refine iff_of_false ?_ ht
    cases tvb_get_ntohs tvb 2 <;> simp

/-- Witness for the amended C3: a type byte of 0 is declined. -/
theorem declines_type_outside_range_witness :
    dissect_tns [0, 10, 0, 0, 0, 0, 0, 0, 0, 0] = .not_tns ↔ ((0 : Nat) < 1 ∨ 19 < (0 : Nat)) :=
  declines_type_outside_range [0, 10, 0, 0, 0, 0, 0, 0, 0, 0] 0 (by decide)

/-! ## Data-function id -/

theorem get_data_func_id_drop (tvb : Tvb) (offset : Nat) :
    get_data_func_id tvb offset = get_data_func_id (tvb.drop offset) 0 := by
  have h8 : ∀ k, tvb_get_guint8 tvb (offset + k) = tvb_get_guint8 (tvb.drop offset) (0 + k) := by
    intro k
    rw [tvb_get_guint8_drop, Nat.zero_add]
  have h1 := h8 1
  have h2 := h8 2
  have h3 := h8 3
  have h0 := h8 0
  simp only [Nat.add_zero, Nat.zero_add] at h0 h1 h2 h3
  have he : tvb_bytes_exist tvb offset 4 = tvb_bytes_exist (tvb.drop offset) 0 4 := by
    simp only [tvb_bytes_exist, List.length_drop, decide_eq_decide]
    omega
  simp only [get_data_func_id, tvb_reported_length_remaining, tvb_get_guint24, tvb_get_ntohs,
    List.length_drop, Nat.sub_zero, he, h0, Nat.add_assoc, h1, h2, h3, Nat.zero_add,
    Nat.reduceAdd]

theorem get_data_func_id_cons4 (b b1 b2 b3 : UInt8) (rest : List UInt8) :
    get_data_func_id (b :: b1 :: b2 :: b3 :: rest) 0
      = if b.toNat = 222 ∧ b1.toNat * 65536 + (b2.toNat * 256 + b3.toNat) = 11386607
        then 0xDEADBEEF else b.toNat := by
  simp only [get_data_func_id, tvb_reported_length_remaining, tvb_bytes_exist, tvb_get_guint24,
      tvb_get_ntohs, tvb_get_guint8, SQLNET_SNS, List.get?_eq_getElem?, List.length_cons,
      List.getElem?_cons_zero, List.getElem?_cons_succ, Option.map_some']
  simp

/-- C4: with the Data payload being the bytes from `offset` on, `get_data_func_id`
returns `0xDEADBEEF` when the payload starts with `DE AD BE EF` (whatever
follows), `0` when the payload is empty, and the value of the first byte for
every other payload. -/
theorem data_func_id_sentinel (tvb : Tvb) (offset : Nat) :
    (∀ rest, tvb.drop offset = 0xDE :: 0xAD :: 0xBE :: 0xEF :: rest →
        get_data_func_id tvb offset = 0xDEADBEEF)
      ∧ (tvb.drop offset = [] → get_data_func_id tvb offset = 0)
      ∧ (∀ b rest, tvb.drop offset = b :: rest →
          (¬ ∃ rest', b :: rest = 0xDE :: 0xAD :: 0xBE :: 0xEF :: rest') →
          get_data_func_id tvb offset = b.toNat) := by
  have e1 : (0xDE : UInt8).toNat = 222 := rfl
  have e2 : (0xAD : UInt8).toNat = 173 := rfl
  have e3 : (0xBE : UInt8).toNat = 190 := rfl
  have e4 : (0xEF : UInt8).toNat = 239 := rfl
  rw [get_data_func_id_drop]
  refine ⟨?_, ?_, ?_⟩
  · intro rest h
    rw [h, get_data_func_id_cons4, e1, e2, e3, e4]
    rfl
  · intro h
    rw [h]
    rfl
  · intro b rest h hne
    rw [h]
    rcases rest with _ | ⟨b1, _ | ⟨b2, _ | ⟨b3, rest'⟩⟩⟩
    · simp [get_data_func_id, tvb_reported_length_remaining, tvb_bytes_exist, tvb_get_guint8]
    · simp [get_data_func_id, tvb_reported_length_remaining, tvb_bytes_exist, tvb_get_guint8]
    · simp [get_data_func_id, tvb_reported_length_remaining, tvb_bytes_exist, tvb_get_guint8]
    · rw [get_data_func_id_cons4]
      split
      · rename_i hc
        exfalso
        apply hne
        have l1 := b1.toNat_lt
        have l2 := b2.toNat_lt
        have l3 := b3.toNat_lt
        have h1 : b1.toNat = 173 := by omega
        have h2 : b2.toNat = 190 := by omega
        have h3 : b3.toNat = 239 := by omega
        refine ⟨rest', ?_⟩
        rw [UInt8.ext (hc.1.trans e1.symm), UInt8.ext (h1.trans e2.symm),
          UInt8.ext (h2.trans e3.symm), UInt8.ext (h3.trans e4.symm)]
      · rfl

/-- Witness for C4: a payload that starts with `DE AD BE EF`, one that does not,
and an empty one. -/
theorem data_func_id_sentinel_witness :
    get_data_func_id [0, 0, 0xDE, 0xAD, 0xBE, 0xEF, 7] 2 = 0xDEADBEEF
      ∧ get_data_func_id [0, 0] 2 = 0
      ∧ get_data_func_id [0, 0, 0xDE, 0xAD, 0xBE, 0xEE] 2 = (0xDE : UInt8).toNat :=
  ⟨(data_func_id_sentinel [0, 0, 0xDE, 0xAD, 0xBE, 0xEF, 7] 2).1 [7] (by decide),
   (data_func_id_sentinel [0, 0] 2).2.1 (by decide),
   (data_func_id_sentinel [0, 0, 0xDE, 0xAD, 0xBE, 0xEE] 2).2.2 0xDE [0xAD, 0xBE, 0xEE]
     (by decide) (by
        rintro ⟨r, hr⟩
        injection hr with _ hr
        injection hr with _ hr
        injection hr with _ hr
        injection hr with h _
        exact absurd h (by decide))⟩

/-! ## Secure Network Services -/

theorem tvb_get_guint8_of_lt (tvb : Tvb) (offset : Nat) (h : offset < tvb.length) :
    ∃ v, tvb_get_guint8 tvb offset = some v := by
  refine ⟨(tvb.get ⟨offset, h⟩).toNat, ?_⟩
  simp [tvb_get_guint8, List.get?_eq_getElem?, List.getElem?_eq_getElem h]

theorem tvb_get_ntohs_of_le (tvb : Tvb) (offset : Nat) (h : offset + 2 ≤ tvb.length) :
    ∃ v, tvb_get_ntohs tvb offset = some v := by
  obtain ⟨a, ha⟩ := tvb_get_guint8_of_lt tvb offset (by omega)
  obtain ⟨b, hb⟩ := tvb_get_guint8_of_lt tvb (offset + 1) (by omega)
  exact ⟨a * 256 + b, by simp [tvb_get_ntohs, ha, hb]⟩

theorem tvb_get_ntohl_of_le (tvb : Tvb) (offset : Nat) (h : offset + 4 ≤ tvb.length) :
    ∃ v, tvb_get_ntohl tvb offset = some v := by
  obtain ⟨a, ha⟩ := tvb_get_ntohs_of_le tvb offset (by omega)
  obtain ⟨b, hb⟩ := tvb_get_ntohs_of_le tvb (offset + 2) (by omega)
  exact ⟨a * 65536 + b, by simp [tvb_get_ntohl, ha, hb]⟩

theorem data_sns_val_eq (tvb : Tvb) (offset x : Nat) (is_request : Bool)
    (h : (data_sns tvb offset is_request).val = some x) : x = offset := by
  simp only [data_sns, dis_bind_eq, dis_pure_eq, andThen_val, add_uint_val, ret_val,
    Option.bind_eq_some] at h
  obtain ⟨_, _, _, _, _, _, _, _, h⟩ := h
  simp only [Option.some.injEq] at h
  omega

theorem data_sns_val_of_le (tvb : Tvb) (offset : Nat) (is_request : Bool)
    (h : offset + 12 ≤ tvb.length) : (data_sns tvb offset is_request).val = some offset := by
  obtain ⟨a, ha⟩ := tvb_get_ntohl_of_le tvb offset (by omega)
  obtain ⟨b, hb⟩ := tvb_get_ntohs_of_le tvb (offset + 4) (by omega)
  obtain ⟨c, hc⟩ := tvb_get_ntohl_of_le tvb (offset + 4 + 2) (by omega)
  obtain ⟨d, hd⟩ := tvb_get_ntohs_of_le tvb (offset + 4 + 2 + 4) (by omega)
  simp only [data_sns, dis_bind_eq, dis_pure_eq, andThen_val, add_uint_val, ret_val, ha, hb, hc,
    hd, Option.some_bind, Option.some.injEq]
  omega

theorem get_data_func_id_sns (tvb : Tvb) (offset : Nat) (rest : List UInt8)
    (h : tvb.drop offset = 0xDE :: 0xAD :: 0xBE :: 0xEF :: rest) :
    get_data_func_id tvb offset = SQLNET_SNS := by
  have e1 : (0xDE : UInt8).toNat = 222 := rfl
  have e2 : (0xAD : UInt8).toNat = 173 := rfl
  have e3 : (0xBE : UInt8).toNat = 190 := rfl
  have e4 : (0xEF : UInt8).toNat = 239 := rfl
  rw [get_data_func_id_drop, h, get_data_func_id_cons4, e1, e2, e3, e4]
  rfl

/-- C5: for a Data packet whose payload (the bytes after the 2-byte flag word at
`offset`) starts with `DE AD BE EF`, `dissect_tns_data` never returns without the
passthrough call; whenever the passthrough is reached its cursor is `offset + 2`,
the offset of the first sentinel byte, so the view starts with `DE AD BE EF`; and
it is reached whenever the twelve bytes of the SNS fields are in the buffer. -/
theorem sns_passthrough_at_sentinel (tvb : Tvb) (offset : Nat) (is_request : Bool)
    (rest : List UInt8) (h : tvb.drop (offset + 2) = 0xDE :: 0xAD :: 0xBE :: 0xEF :: rest) :
    (dissect_tns_data tvb offset is_request).val ≠ some none
      ∧ (∀ c, (dissect_tns_data tvb offset is_request).val = some (some c) →
          c = offset + 2 ∧ (tvb.drop c).take 4 = [0xDE, 0xAD, 0xBE, 0xEF])
      ∧ (8 ≤ rest.length →
          (dissect_tns_data tvb offset is_request).val = some (some (offset + 2))) := by
  have hid := get_data_func_id_sns tvb (offset + 2) rest h
  have hlen : offset + 2 + (4 + rest.length) = tvb.length := by
    have := congrArg List.length h
    simp only [List.length_drop, List.length_cons] at this
    omega
  have hsw : data_switch tvb (offset + 2) is_request SQLNET_SNS
      = Dis.andThen (data_sns tvb (offset + 2) is_request) (fun o => Dis.ret (some o)) := by
    simp [data_switch, SQLNET_SNS, SQLNET_SET_PROTOCOL, SQLNET_USER_OCI_FUNC,
      SQLNET_RETURN_OPI_PARAM, SQLNET_PIGGYBACK_FUNC, dis_bind_eq, dis_pure_eq]
  have hval : (dissect_tns_data tvb offset is_request).val
      = ((proto_tree_add_subtree tvb offset "Data").val.bind fun _ =>
          (tvb_get_ntohs tvb offset).bind fun _ =>
            (data_sns tvb (offset + 2) is_request).val.bind fun o =>
              if o ≤ tvb.length then some (some o) else none) := by
    simp only [dissect_tns_data, dis_bind_eq, dis_pure_eq, andThen_val, add_uint_val, hid, hsw,
      ret_val]
    simp only [ne_eq, not_true_eq_false, false_and, if_false, ite_self, andThen_val, ret_val,
      Option.some_bind, hsw, Option.bind_assoc]
    congr 1
    funext _
    congr 1
    funext _
    congr 1
    funext o
    split <;> simp
  constructor
  · rw [hval]
    intro hc
    simp only [Option.bind_eq_some] at hc
    obtain ⟨_, _, _, _, o, _, hc⟩ := hc
    split at hc <;> simp at hc
  constructor
  · intro c hc
    rw [hval] at hc
    simp only [Option.bind_eq_some] at hc
    obtain ⟨_, _, _, _, o, ho, hc⟩ := hc
    have := data_sns_val_eq tvb (offset + 2) o is_request ho
    subst this
    split at hc
    · simp only [Option.some.injEq] at hc
      subst hc
      exact ⟨rfl, by rw [h]; rfl⟩
    · simp at hc
  · intro hr
    rw [hval]
    obtain ⟨f, hf⟩ := tvb_get_ntohs_of_le tvb offset (by omega)
    have hs : (proto_tree_add_subtree tvb offset "Data").val = some () := by
      have : offset < tvb.length := by omega
      simp [proto_tree_add_subtree, this]
    rw [hs, hf, data_sns_val_of_le tvb (offset + 2) is_request (by omega)]
    simp only [Option.some_bind]
    rw [if_pos (by omega)]

/-- Witness for C5: a request whose payload is the sentinel, a length, a
version and a service count. -/
theorem sns_passthrough_at_sentinel_witness :
    (dissect_tns_data [0, 0, 0xDE, 0xAD, 0xBE, 0xEF, 0, 12, 11, 2, 0, 0, 0, 1] 0 true).val
        ≠ some none
      ∧ (∀ c, (dissect_tns_data [0, 0, 0xDE, 0xAD, 0xBE, 0xEF, 0, 12, 11, 2, 0, 0, 0, 1] 0
                true).val = some (some c) →
          c = 0 + 2
            ∧ (([0, 0, 0xDE, 0xAD, 0xBE, 0xEF, 0, 12, 11, 2, 0, 0, 0, 1] : Tvb).drop c).take 4
                = [0xDE, 0xAD, 0xBE, 0xEF])
      ∧ (8 ≤ ([0, 12, 11, 2, 0, 0, 0, 1] : List UInt8).length →
          (dissect_tns_data [0, 0, 0xDE, 0xAD, 0xBE, 0xEF, 0, 12, 11, 2, 0, 0, 0, 1] 0
            true).val = some (some (0 + 2))) :=
  sns_passthrough_at_sentinel [0, 0, 0xDE, 0xAD, 0xBE, 0xEF, 0, 12, 11, 2, 0, 0, 0, 1] 0 true
    [0, 12, 11, 2, 0, 0, 0, 1] (by decide)

/-! ## Items of a given kind -/

theorem all_items_andThen {α β : Type} (P : Item → Prop) (m : Dis α) (f : α → Dis β)
    (hm : m.all_items P) (hf : ∀ a, (f a).all_items P) : (Dis.andThen m f).all_items P := by
  intro i hi
  rw [andThen_items, List.mem_append] at hi
  rcases hi with hi | hi
  · exact hm i hi
  · cases hv : m.val with
    | none => rw [hv] at hi; simp at hi
    | some a => rw [hv] at hi; exact hf a i hi

theorem all_items_ret {α : Type} (P : Item → Prop) (a : α) : (Dis.ret a).all_items P := by
  intro i hi
  simp at hi

theorem all_items_raise {α : Type} (P : Item → Prop) : (Dis.raise : Dis α).all_items P := by
  intro i hi
  simp at hi

theorem all_items_read {α : Type} (P : Item → Prop) (o : Option α) :
    (Dis.read o).all_items P := by
  intro i hi
  simp at hi

theorem all_items_add_uint (P : Item → Prop) (hf : Hf) (start length : Nat) (v : Option Nat)
    (h : ∀ n, P ⟨hf, start, length, some n, none⟩) :
    (proto_tree_add_uint hf start length v).all_items P := by
  intro i hi
  cases v with
  | none => simp at hi
  | some n =>
    simp only [add_uint_some, List.mem_singleton] at hi
    rw [hi]
    exact h n

theorem all_items_ite {α : Type} (P : Item → Prop) (c : Prop) [Decidable c] (a b : Dis α)
    (ha : a.all_items P) (hb : b.all_items P) : (if c then a else b).all_items P := by
  split
  · exact ha
  · exact hb

theorem sql_header_items_no_stmt (tvb : Tvb) (offset : Nat) (pttci : ttci_packet_t) :
    (sql_header tvb offset pttci).all_items (fun i => i.hf ≠ .hf_tns_data_ttic_stmt_sql) := by
  simp only [sql_header, dis_bind_eq, dis_pure_eq]
  repeat' first
    | with_reducible exact all_items_ret _ _
    | with_reducible exact all_items_read _ _
    | (with_reducible refine all_items_add_uint _ _ _ _ _ ?_; intro _; dsimp only; decide)
    | with_reducible apply all_items_andThen
    | with_reducible apply all_items_ite
    | (refine Prod.rec ?_; intro _; refine Prod.rec ?_; intro _ _; dsimp only)
    | (refine Prod.rec ?_; intro _ _; dsimp only)
    | intro _

theorem all_items_add_item_text (P : Item → Prop) (tvb : Tvb) (hf : Hf) (start length : Nat)
    (label : Label) (h : P ⟨hf, start, length, none, some label⟩) :
    (proto_tree_add_item_text tvb hf start length label).all_items P := by
  intro i hi
  unfold proto_tree_add_item_text at hi
  split at hi
  · simp only [List.mem_singleton] at hi
    rw [hi]
    exact h
  · simp at hi

theorem all_items_add_subtree (P : Item → Prop) (tvb : Tvb) (start : Nat) (text : String)
    (h : P ⟨.subtree, start, tvb.length - start, none, some (.subtree text)⟩) :
    (proto_tree_add_subtree tvb start text).all_items P := by
  intro i hi
  unfold proto_tree_add_subtree at hi
  split at hi
  · simp only [List.mem_singleton] at hi
    rw [hi]
    exact h
  · simp at hi

theorem hf_prop_ref_ne_stmt (param_idx : Nat) (hf : Hf) (h : hf_prop_ref_list param_idx = some hf) :
    hf ≠ .hf_tns_data_ttic_stmt_sql := by
  unfold hf_prop_ref_list at h
  split at h
  · simp only [Option.some.injEq] at h
    rw [← h]
    simp
  · simp at h

theorem value_loop_items_no_stmt (tvb : Tvb) (param_count : Nat)
    (pd_list : List ttci_stmt_pd_itm_t) (bytes_remaining : Nat) :
    ∀ fuel i param_idx offset,
      (value_loop tvb param_count pd_list bytes_remaining fuel i param_idx offset).all_items
        (fun i => i.hf ≠ .hf_tns_data_ttic_stmt_sql) := by
  intro fuel
  induction fuel with
  | zero =>
    intro i param_idx offset
    exact all_items_ret _ _
  | succ fuel ih =>
    intro i param_idx offset
    unfold value_loop
    split
    · split
      · exact all_items_ret _ _
      · split
        · exact all_items_ret _ _
        · exact all_items_raise _
        · rename_i hf_prop_ref value_len hhf _
          dsimp only
          split
          · exact all_items_ret _ _
          · split
            · split
              · exact all_items_raise _
              · split
                · exact all_items_raise _
                · apply all_items_andThen
                  · exact all_items_add_item_text _ _ _ _ _ _ (hf_prop_ref_ne_stmt _ _ hhf)
                  · intro _
                    exact ih _ _ _
            · split
              · exact all_items_raise _
              · apply all_items_andThen
                · exact all_items_add_item_text _ _ _ _ _ _ (hf_prop_ref_ne_stmt _ _ hhf)
                · intro _
                  exact ih _ _ _
    · exact all_items_ret _ _

theorem params_items_no_stmt (tvb : Tvb) (offset : Nat) (pttci : ttci_packet_t) :
    (dissect_tns_data_sql_params tvb offset pttci).all_items
      (fun i => i.hf ≠ .hf_tns_data_ttic_stmt_sql) := by
  unfold dissect_tns_data_sql_params
  dsimp only
  split
  · split
    · exact all_items_raise _
    · split
      · exact all_items_raise _
      · exact all_items_ret _ _
      · unfold params_from_descriptors
        split
        · exact all_items_raise _
        · exact all_items_ret _ _
        · dsimp only
          split
          · exact all_items_ret _ _
          · apply all_items_andThen
            · exact all_items_add_subtree _ _ _ _ (by simp)
            · intro _
              exact value_loop_items_no_stmt _ _ _ _ _ _ _ _
  · exact all_items_ret _ _

/-! ## The statement text -/

theorem stmt_end_scan_first (byte_buffer : List UInt8) (n : Nat)
    (hn : byte_buffer.getD n 0 = 0x01 ∧ byte_buffer.getD (n + 1) 0 = 0x01) :
    ∀ fuel i, i ≤ n → n < i + fuel →
      (∀ j, i ≤ j → j < n →
        ¬ (byte_buffer.getD j 0 = 0x01 ∧ byte_buffer.getD (j + 1) 0 = 0x01)) →
      stmt_end_scan byte_buffer fuel i = some n := by
  intro fuel
  induction fuel with
  | zero =>
    intro i h1 h2 _
    omega
  | succ fuel ih =>
    intro i h1 h2 h3
    unfold stmt_end_scan
    by_cases hi : i = n
    · subst hi
      rw [if_pos hn]
    · rw [if_neg (h3 i (Nat.le_refl i) (by omega))]
      exact ih (i + 1) (by omega) (by omega) (fun j hj1 hj2 => h3 j (by omega) hj2)

theorem c_string_append_zero (s rest : List UInt8) (hs : ∀ b ∈ s, b ≠ 0) :
    c_string (s ++ 0 :: rest) = s := by
  induction s with
  | nil => simp [c_string]
  | cons a s ih =>
    have ha : a ≠ 0 := hs a (List.mem_cons_self a s)
    have ih2 := ih (fun b hb => hs b (List.mem_cons_of_mem a hb))
    unfold c_string at ih2 ⊢
    simp only [List.cons_append]
    rw [List.takeWhile_cons_of_pos (by simpa using ha), ih2]

theorem set_length_append (s : List UInt8) (a b : UInt8) (t : List UInt8) :
    (s ++ a :: t).set s.length b = s ++ b :: t := by
  induction s with
  | nil => rfl
  | cons x s ih => simp [ih]

theorem sql_statement_eval (tvb : Tvb) (o1 jmp : Nat) (p1 : ttci_packet_t) (s rest : List UInt8)
    (hj : (p1.data_direction = 0x7f ∧ jmp = 15) ∨ (p1.data_direction = 0xff ∧ jmp = 18))
    (hdrop : tvb.drop (o1 + jmp) = s ++ 0x01 :: 0x01 :: rest)
    (hzero : ∀ b ∈ s, b ≠ 0)
    (hfirst : ∀ j, j < s.length →
      ¬ ((s ++ 0x01 :: 0x01 :: rest).getD j 0 = 0x01
          ∧ (s ++ 0x01 :: 0x01 :: rest).getD (j + 1) 0 = 0x01)) :
    sql_statement tvb o1 p1
      = ⟨[⟨.hf_tns_data_ttic_stmt_sql, o1 + jmp, s.length, none, some (.stmt s)⟩],
          some (.params (o1 + jmp + s.length) p1)⟩ := by
  have hlen : tvb.length - (o1 + jmp) = s.length + (rest.length + 2) := by
    have := congrArg List.length hdrop
    simpa using this
  have hjmp : (if p1.data_direction = 0x7f then some 15
      else if p1.data_direction = 0xff then some 18 else none) = some jmp := by
    rcases hj with ⟨h1, h2⟩ | ⟨h1, h2⟩
    · rw [if_pos h1, h2]
    · rw [if_neg (by rw [h1]; decide), if_pos h1, h2]
  have hcpy : tvb_memcpy tvb (o1 + jmp) (s.length + (rest.length + 2))
      = some (s ++ 0x01 :: 0x01 :: rest) := by
    unfold tvb_memcpy
    rw [if_pos (by omega), hdrop]
    congr 1
    apply List.take_of_length_le
    simp
  have hget (j : Nat) (hj : j < s.length + (rest.length + 2)) :
      (s ++ 0x01 :: 0x01 :: rest ++ [0]).getD j 0 = (s ++ 0x01 :: 0x01 :: rest).getD j 0 := by
    rw [List.getD_append]
    simpa using hj
  have hscan : stmt_end_scan (s ++ 0x01 :: 0x01 :: rest ++ [0]) (s.length + (rest.length + 2)) 0
      = some s.length := by
    apply stmt_end_scan_first
    · rw [hget _ (by omega), hget _ (by omega)]
      constructor
      · rw [List.getD_append_right _ _ _ _ (Nat.le_refl _)]
        simp
      · rw [List.getD_append_right _ _ _ _ (Nat.le_succ _)]
        simp
    · omega
    · omega
    · intro j _ hj2
      rw [hget _ (by omega), hget _ (by omega)]
      exact hfirst j hj2
  unfold sql_statement
  simp only [hjmp, tvb_reported_length_remaining, hlen]
  rw [if_neg (by omega), hcpy]
  simp only [hscan, Option.getD_some]
  have hset : (s ++ 0x01 :: 0x01 :: rest ++ [0]).set s.length 0
      = s ++ 0 :: (0x01 :: rest ++ [0]) := by
    rw [List.append_assoc, List.cons_append, set_length_append]
  rw [hset]
  have hstr : strlen (s ++ 0 :: (0x01 :: rest ++ [0])) = s.length := by
    unfold strlen
    rw [c_string_append_zero s _ hzero]
  rw [hstr, c_string_append_zero s _ hzero]
  simp only [ne_eq, not_true_eq_false, if_false]
  unfold proto_tree_add_item_text
  rw [if_pos (by omega)]
  rfl

theorem filter_stmt_nil {α : Type} (m : Dis α)
    (h : m.all_items (fun i => i.hf ≠ .hf_tns_data_ttic_stmt_sql)) :
    m.items.filter (fun i => decide (i.hf = .hf_tns_data_ttic_stmt_sql)) = [] := by
  rw [List.filter_eq_nil_iff]
  intro i hi
  simpa using h i hi

/-- C6: let the statement header leave the cursor at `o1` with data direction
0x7F (skip 15) or 0xFF (skip 18), and let the bytes from the statement start
`o1 + jmp` be a text `s` without zero byte followed by `01 01`, with no earlier
pair of consecutive `01` bytes.  Then `dissect_tns_data_sql` adds exactly one
statement item; its byte range is `[o1 + jmp, o1 + jmp + len s)` and its text is
`s`, without the terminator bytes. -/
theorem sql_statement_field_exact (tvb : Tvb) (offset : Nat) (pttci : ttci_packet_t)
    (o1 jmp : Nat) (p1 : ttci_packet_t) (s rest : List UInt8)
    (hentry : (if tvb_reported_length_remaining tvb offset > 19
        then (sql_header tvb offset pttci).val else some (offset, pttci)) = some (o1, p1))
    (hj : (p1.data_direction = 0x7f ∧ jmp = 15) ∨ (p1.data_direction = 0xff ∧ jmp = 18))
    (hdrop : tvb.drop (o1 + jmp) = s ++ 0x01 :: 0x01 :: rest)
    (hzero : ∀ b ∈ s, b ≠ 0)
    (hfirst : ∀ j, j < s.length →
      ¬ ((s ++ 0x01 :: 0x01 :: rest).getD j 0 = 0x01
          ∧ (s ++ 0x01 :: 0x01 :: rest).getD (j + 1) 0 = 0x01)) :
    (dissect_tns_data_sql tvb offset pttci).items.filter
        (fun i => decide (i.hf = .hf_tns_data_ttic_stmt_sql))
      = [⟨.hf_tns_data_ttic_stmt_sql, o1 + jmp, s.length, none, some (.stmt s)⟩] := by
  have hst := sql_statement_eval tvb o1 jmp p1 s rest hj hdrop hzero hfirst
  have hpar := filter_stmt_nil _ (params_items_no_stmt tvb (o1 + jmp + s.length) p1)
  unfold dissect_tns_data_sql dissect_tns_data_sql_stmt
  by_cases hrem : tvb_reported_length_remaining tvb offset > 19
  · rw [if_pos hrem] at hentry ⊢
    have hhdr := filter_stmt_nil _ (sql_header_items_no_stmt tvb offset pttci)
    simp only [andThen_items, andThen_val, hentry, Option.some_bind, hst, List.filter_append,
      hhdr, hpar, List.nil_append, List.append_nil]
    rfl
  · rw [if_neg hrem] at hentry ⊢
    simp only [Option.some.injEq, Prod.mk.injEq] at hentry
    obtain ⟨rfl, rfl⟩ := hentry
    simp only [andThen_items, hst, List.filter_append, hpar, List.append_nil]
    rfl

/-- Witness for C6: data direction 0x7F and the text `SELECT 1 FROM DUAL` followed
by `01 01`; the statement starts at offset 21 + 15 = 36 and is 18 bytes long. -/
theorem sql_statement_field_exact_witness :
    (dissect_tns_data_sql sql_sample 0 ttci_packet_zero).items.filter
        (fun i => decide (i.hf = .hf_tns_data_ttic_stmt_sql))
      = [⟨.hf_tns_data_ttic_stmt_sql, 36, 18, none,
          some (.stmt [0x53, 0x45, 0x4c, 0x45, 0x43, 0x54, 0x20, 0x31, 0x20, 0x46, 0x52,
            0x4f, 0x4d, 0x20, 0x44, 0x55, 0x41, 0x4c])⟩] :=
  sql_statement_field_exact sql_sample 0 ttci_packet_zero 21 15 sql_sample_ttci
    [0x53, 0x45, 0x4c, 0x45, 0x43, 0x54, 0x20, 0x31, 0x20, 0x46, 0x52, 0x4f, 0x4d, 0x20,
      0x44, 0x55, 0x41, 0x4c] []
    (by decide) (Or.inl ⟨by decide, rfl⟩) (by decide) (by decide) (by decide)

/-! ## Hand-over to the parameter scanner -/

theorem sql_statement_item (tvb : Tvb) (offset : Nat) (pttci : ttci_packet_t) (it : Item)
    (hit : it ∈ (sql_statement tvb offset pttci).items) :
    (sql_statement tvb offset pttci).val = some (.params (it.start + it.length) pttci) := by
  unfold sql_statement at hit ⊢
  dsimp only at hit ⊢
  split
  · rename_i h
    rw [h] at hit
    simp at hit
  · rename_i jmp h
    rw [h] at hit
    dsimp only at hit
    split
    · rename_i h0
      rw [if_pos h0] at hit
      simp at hit
    · rename_i h0
      rw [if_neg h0] at hit
      split
      · rename_i hc
        rw [hc] at hit
        simp at hit
      · rename_i bytes hc
        rw [hc] at hit
        dsimp only at hit
        split
        · rename_i hne
          rw [if_pos hne] at hit
          simp at hit
        · rename_i hne
          rw [if_neg hne] at hit
          simp only [andThen_items, andThen_val, ret_val, ret_items] at hit ⊢
          unfold proto_tree_add_item_text at hit ⊢
          split
          · rename_i hb
            rw [if_pos hb] at hit
            simp only [List.append_nil, List.mem_singleton] at hit
            rw [hit]
            rfl
          · rename_i hb
            rw [if_neg hb] at hit
            simp at hit

/-- C7 fails as stated: on `sql_sample` the statement item starts at 36 and is 18
bytes long, and the parameter scanner is handed offset 54 = 36 + 18, where the two
terminator bytes `01 01` sit, not offset 56 = 36 + 18 + 2. -/
theorem sql_params_offset_counterexample :
    (dissect_tns_data_sql_stmt sql_sample 0 ttci_packet_zero).items.filter
        (fun i => decide (i.hf = .hf_tns_data_ttic_stmt_sql))
      = [⟨.hf_tns_data_ttic_stmt_sql, 36, 18, none,
          some (.stmt [0x53, 0x45, 0x4c, 0x45, 0x43, 0x54, 0x20, 0x31, 0x20, 0x46, 0x52,
            0x4f, 0x4d, 0x20, 0x44, 0x55, 0x41, 0x4c])⟩]
      ∧ (dissect_tns_data_sql_stmt sql_sample 0 ttci_packet_zero).val
          = some (.params 54 sql_sample_ttci)
      ∧ (dissect_tns_data_sql_stmt sql_sample 0 ttci_packet_zero).val
          ≠ some (.params (36 + 18 + 2) sql_sample_ttci)
      ∧ (sql_sample.drop 54).take 2 = [0x01, 0x01] := by
  decide

/-- C7 amended: whenever `dissect_tns_data_sql` has added a statement item with
start `o` and length `n`, it ends with the call of `dissect_tns_data_sql_params`
at offset `o + n` (the offset of the first of the two `01` bytes when they were
found), and returns what that call returns. -/
theorem sql_params_called_at_stmt_end (tvb : Tvb) (offset : Nat) (pttci : ttci_packet_t)
    (it : Item) (hit : it ∈ (dissect_tns_data_sql_stmt tvb offset pttci).items)
    (hhf : it.hf = .hf_tns_data_ttic_stmt_sql) :
    ∃ p, (dissect_tns_data_sql_stmt tvb offset pttci).val
          = some (.params (it.start + it.length) p)
      ∧ (dissect_tns_data_sql tvb offset pttci).val
          = (dissect_tns_data_sql_params tvb (it.start + it.length) p).val := by
  have key : ∃ p, (dissect_tns_data_sql_stmt tvb offset pttci).val
      = some (.params (it.start + it.length) p) := by
    unfold dissect_tns_data_sql_stmt at hit ⊢
    split
    · rename_i hrem
      rw [if_pos hrem] at hit
      rw [andThen_items, List.mem_append] at hit
      rcases hit with hit | hit
      · exact absurd hhf (sql_header_items_no_stmt tvb offset pttci it hit)
      · cases hv : (sql_header tvb offset pttci).val with
        | none => rw [hv] at hit; simp at hit
        | some r =>
          rw [hv] at hit
          refine ⟨r.2, ?_⟩
          rw [andThen_val, hv, Option.some_bind]
          exact sql_statement_item tvb r.1 r.2 it hit
    · rename_i hrem
      rw [if_neg hrem] at hit
      exact ⟨pttci, sql_statement_item tvb offset pttci it hit⟩
  obtain ⟨p, hp⟩ := key
  refine ⟨p, hp, ?_⟩
  unfold dissect_tns_data_sql
  rw [andThen_val, hp, Option.some_bind]

/-- Witness for the amended C7 on `sql_sample`: the scanner is called at 36 + 18. -/
theorem sql_params_called_at_stmt_end_witness :
    ∃ p, (dissect_tns_data_sql_stmt sql_sample 0 ttci_packet_zero).val
          = some (.params (36 + 18) p)
      ∧ (dissect_tns_data_sql sql_sample 0 ttci_packet_zero).val
          = (dissect_tns_data_sql_params sql_sample (36 + 18) p).val :=
  sql_params_called_at_stmt_end sql_sample 0 ttci_packet_zero
    ⟨.hf_tns_data_ttic_stmt_sql, 36, 18, none,
      some (.stmt [0x53, 0x45, 0x4c, 0x45, 0x43, 0x54, 0x20, 0x31, 0x20, 0x46, 0x52,
        0x4f, 0x4d, 0x20, 0x44, 0x55, 0x41, 0x4c])⟩
    (by decide) rfl

/-! ## The magic scan -/

theorem drop_take4 (tvb : Tvb) (q : Nat) (h : q + 4 ≤ tvb.length) :
    ∃ a b c d, (tvb.drop q).take 4 = [a, b, c, d]
      ∧ tvb_get_guint8 tvb q = some a.toNat ∧ tvb_get_guint8 tvb (q + 1) = some b.toNat
      ∧ tvb_get_guint8 tvb (q + 2) = some c.toNat
      ∧ tvb_get_guint8 tvb (q + 2 + 1) = some d.toNat := by
  have hl : 4 ≤ (tvb.drop q).length := by
    rw [List.length_drop]
    omega
  have e0 := tvb_get_guint8_drop tvb q 0
  have e1 := tvb_get_guint8_drop tvb q 1
  have e2 := tvb_get_guint8_drop tvb q 2
  have e3 := tvb_get_guint8_drop tvb q 3
  rw [Nat.add_zero] at e0
  match hd : tvb.drop q, hl with
  | a :: b :: c :: d :: rest, _ =>
    rw [hd] at e0 e1 e2 e3
    exact ⟨a, b, c, d, rfl, by rw [e0]; rfl, by rw [e1]; rfl, by rw [e2]; rfl,
      by rw [Nat.add_assoc, e3]; rfl⟩

theorem magic_probe_of_le (tvb : Tvb) (q : Nat) (h : q + 4 ≤ tvb.length) :
    magic_probe tvb q = some (decide ((tvb.drop q).take 4 = [0x03, 0x00, 0x00, 0x01])) := by
  obtain ⟨a, b, c, d, h4, ha, hb, hc, hd⟩ := drop_take4 tvb q h
  have e3 : (0x03 : UInt8).toNat = 3 := rfl
  have e0 : (0x00 : UInt8).toNat = 0 := rfl
  have e1 : (0x01 : UInt8).toNat = 1 := rfl
  have la := a.toNat_lt
  have lb := b.toNat_lt
  have lc := c.toNat_lt
  have ld := d.toNat_lt
  unfold magic_probe tvb_get_ntohs
  rw [ha, hb, hc, hd, h4]
  dsimp only
  congr 1
  rw [decide_eq_decide]
  constructor
  · rintro ⟨h1, h2⟩
    have a3 : a.toNat = 3 := by omega
    have b0 : b.toNat = 0 := by omega
    have c0 : c.toNat = 0 := by omega
    have d1 : d.toNat = 1 := by omega
    rw [UInt8.ext (a3.trans e3.symm), UInt8.ext (b0.trans e0.symm),
      UInt8.ext (c0.trans e0.symm), UInt8.ext (d1.trans e1.symm)]
  · intro h
    injection h with h1 h
    injection h with h2 h
    injection h with h3 h
    injection h with h4 _
    rw [h1, h2, h3, h4, e3, e0, e1]
    decide

theorem magic_scan_finds_first (tvb : Tvb) (p : Nat) (hp : p + 4 ≤ tvb.length)
    (hmagic : (tvb.drop p).take 4 = [0x03, 0x00, 0x00, 0x01]) :
    ∀ d q bytes, q + d = p → q + bytes = tvb.length →
      (∀ r, q ≤ r → r < p → (tvb.drop r).take 4 ≠ [0x03, 0x00, 0x00, 0x01]) →
      magic_scan tvb bytes q = .found p := by
  intro d
  induction d with
  | zero =>
    intro q bytes hq _ _
    have hqp : q = p := by omega
    subst hqp
    have hpr := magic_probe_of_le tvb q hp
    rw [hmagic] at hpr
    cases bytes with
    | zero => unfold magic_scan; rw [hpr]; rfl
    | succ n => unfold magic_scan; rw [hpr]; rfl
  | succ d ih =>
    intro q bytes hq hb hne
    have hpr := magic_probe_of_le tvb q (by omega)
    rw [decide_eq_false (hne q (Nat.le_refl q) (by omega))] at hpr
    cases bytes with
    | zero => omega
    | succ n =>
      unfold magic_scan
      rw [hpr]
      dsimp only
      rw [if_pos (by omega)]
      exact ih (q + 1) n (by omega) (by omega) (fun r hr1 hr2 => hne r (by omega) hr2)

/-- C8: when `dissect_tns_data_sql_params` reaches the scan (more than 24 bytes
remain at `offset`) and the four bytes `03 00 00 01` first occur, at or after the
nominal start `start` of the scan, at offset `p`, the magic scan stops with its
cursor at `p`, and the function continues with the descriptor loop entered at
`p`, whose first pass (when the parameter count is not 0) reads the descriptor
at `p`. -/
theorem magic_scan_stops_at_first_match (tvb : Tvb) (offset : Nat) (pttci : ttci_packet_t)
    (unknown_5 start p : Nat)
    (hrem : tvb_reported_length_remaining tvb offset > sizeof_ttci_stmt_pd_hdr_t + 6)
    (hhdr : pd_header_unknown_5 tvb offset = some unknown_5)
    (hstart : start = pd_block_offset unknown_5 offset)
    (hsp : start ≤ p)
    (hmagic : (tvb.drop p).take 4 = [0x03, 0x00, 0x00, 0x01])
    (hfirst : ∀ r, start ≤ r → r < p → (tvb.drop r).take 4 ≠ [0x03, 0x00, 0x00, 0x01]) :
    params_magic_scan tvb start = .found p
      ∧ dissect_tns_data_sql_params tvb offset pttci
          = params_from_descriptors tvb offset pttci p
      ∧ ∀ n pd_list,
          (read_descriptor tvb p = none →
            load_descriptors tvb (n + 1) (n + 1) 0 p pd_list = .bounds_error)
          ∧ (read_descriptor tvb p = some none →
            load_descriptors tvb (n + 1) (n + 1) 0 p pd_list = .invalid)
          ∧ ∀ d buff_offset, read_descriptor tvb p = some (some (d, buff_offset)) →
            load_descriptors tvb (n + 1) (n + 1) 0 p pd_list
              = if d.param_marker_2 = 0x6901 ∧ d.param_marker_3 = 0x0007 then
                  .loaded (pd_list.set 0 d) buff_offset
                else load_descriptors tvb (n + 1) n 1 buff_offset (pd_list.set 0 d) := by
  have hp : p + 4 ≤ tvb.length := by
    have := congrArg List.length hmagic
    simp only [List.length_take, List.length_drop, List.length_cons, List.length_nil] at this
    omega
  have hscan : params_magic_scan tvb start = .found p := by
    unfold params_magic_scan
    dsimp only
    have hb : tvb_reported_length_remaining tvb start > 4 := by
      unfold tvb_reported_length_remaining sizeof_ttci_stmt_pd_hdr_t at *
      unfold pd_block_offset sizeof_ttci_stmt_pd_hdr_t at hstart
      split at hstart <;> omega
    rw [if_pos hb]
    unfold tvb_reported_length_remaining at hb ⊢
    exact magic_scan_finds_first tvb p hp hmagic (p - start) start _ (by omega) (by omega) hfirst
  refine ⟨hscan, ?_, ?_⟩
  · unfold dissect_tns_data_sql_params
    dsimp only
    rw [if_pos hrem, hhdr]
    dsimp only
    rw [← hstart, hscan]
  · intro n pd_list
    have h0 : (0 : Nat) < n + 1 := Nat.succ_pos n
    refine ⟨?_, ?_, ?_⟩
    · intro h
      simp only [load_descriptors, h0, if_true, h]
    · intro h
      simp only [load_descriptors, h0, if_true, h]
    · intro d buff_offset h
      simp only [load_descriptors, h0, if_true, h]

/-- Witness for C8 on `params_sample`: the scan starts at 18 and the magic first
occurs at 21. -/
theorem magic_scan_stops_at_first_match_witness :
    params_magic_scan params_sample 18 = .found 21
      ∧ dissect_tns_data_sql_params params_sample 0 params_sample_ttci
          = params_from_descriptors params_sample 0 params_sample_ttci 21
      ∧ ∀ n pd_list,
          (read_descriptor params_sample 21 = none →
            load_descriptors params_sample (n + 1) (n + 1) 0 21 pd_list = .bounds_error)
          ∧ (read_descriptor params_sample 21 = some none →
            load_descriptors params_sample (n + 1) (n + 1) 0 21 pd_list = .invalid)
          ∧ ∀ d buff_offset, read_descriptor params_sample 21 = some (some (d, buff_offset)) →
            load_descriptors params_sample (n + 1) (n + 1) 0 21 pd_list
              = if d.param_marker_2 = 0x6901 ∧ d.param_marker_3 = 0x0007 then
                  .loaded (pd_list.set 0 d) buff_offset
                else load_descriptors params_sample (n + 1) n 1 buff_offset (pd_list.set 0 d) :=
  magic_scan_stops_at_first_match params_sample 0 params_sample_ttci 0 18 21
    (by decide) (by decide) (by decide) (by decide) (by decide)
    (by
      intro r h1 h2
      interval_cases r <;> decide)

/-- C9, the code at a failing input: on `sql_sample_no_magic` the scan starts at
offset 72 with 14 bytes remaining, finds no match, and goes on to probe offset
83, where only 3 bytes remain; the second 16-bit read of that probe is outside
the buffer and raises the bounds exception. -/
theorem magic_scan_probes_short_tail :
    tvb_reported_length_remaining sql_sample_no_magic 72 = 14
      ∧ params_magic_scan sql_sample_no_magic 72 = .bounds_error 83
      ∧ tvb_reported_length_remaining sql_sample_no_magic 83 = 3
      ∧ tvb_get_ntohs sql_sample_no_magic (83 + 2) = none := by
  decide

/-- C10, the code at a failing input: `sql_sample_no_magic` holds no `03 00 00 01`
at all, and `dissect_tns_data_sql_params`, called at offset 54 after the
statement, does not return 54: the scan raises the bounds exception, which also
ends `dissect_tns_data_sql`; the statement item added before stays in the tree
and no parameter item is added. -/
theorem missing_magic_raises :
    (∀ q, q < sql_sample_no_magic.length →
        (sql_sample_no_magic.drop q).take 4 ≠ [0x03, 0x00, 0x00, 0x01])
      ∧ (dissect_tns_data_sql_stmt sql_sample_no_magic 0 ttci_packet_zero).val
          = some (.params 54 sql_sample_ttci)
      ∧ dissect_tns_data_sql_params sql_sample_no_magic 54 sql_sample_ttci = ⟨[], none⟩
      ∧ (dissect_tns_data_sql sql_sample_no_magic 0 ttci_packet_zero).val = none
      ∧ (dissect_tns_data_sql sql_sample_no_magic 0 ttci_packet_zero).items.filter
            (fun i => decide (i.hf = .hf_tns_data_ttic_stmt_sql))
          = [⟨.hf_tns_data_ttic_stmt_sql, 36, 18, none,
              some (.stmt [0x53, 0x45, 0x4c, 0x45, 0x43, 0x54, 0x20, 0x31, 0x20, 0x46, 0x52,
                0x4f, 0x4d, 0x20, 0x44, 0x55, 0x41, 0x4c])⟩] := by
  decide

/-! ## The skip before the statement text -/

theorem sql_statement_item_start (tvb : Tvb) (offset : Nat) (pttci : ttci_packet_t) (it : Item)
    (hit : it ∈ (sql_statement tvb offset pttci).items) :
    (pttci.data_direction = 0x7f ∧ it.start = offset + 15)
      ∨ (pttci.data_direction = 0xff ∧ it.start = offset + 18) := by
  unfold sql_statement at hit
  dsimp only at hit
  by_cases h7 : pttci.data_direction = 0x7f
  · left
    refine ⟨h7, ?_⟩
    rw [if_pos h7] at hit
    dsimp only at hit
    split at hit
    · simp at hit
    · split at hit
      · simp at hit
      · split at hit
        · simp at hit
        · simp only [andThen_items, ret_items] at hit
          unfold proto_tree_add_item_text at hit
          split at hit
          · simp only [List.append_nil, List.mem_singleton] at hit
            rw [hit]
          · simp at hit
  · rw [if_neg h7] at hit
    by_cases hf : pttci.data_direction = 0xff
    · right
      refine ⟨hf, ?_⟩
      rw [if_pos hf] at hit
      dsimp only at hit
      split at hit
      · simp at hit
      · split at hit
        · simp at hit
        · split at hit
          · simp at hit
          · simp only [andThen_items, ret_items] at hit
            unfold proto_tree_add_item_text at hit
            split at hit
            · simp only [List.append_nil, List.mem_singleton] at hit
              rw [hit]
            · simp at hit
    · rw [if_neg hf] at hit
      simp at hit

/-- C15: let the statement header leave the cursor at `o1` (the entry offset when
no more than 19 bytes remain and the header is not parsed).  Every statement item
that `dissect_tns_data_sql` adds starts at `o1 + 15` when the data direction is
0x7F and at `o1 + 18` when it is 0xFF. -/
theorem stmt_starts_after_skip (tvb : Tvb) (offset : Nat) (pttci : ttci_packet_t)
    (o1 : Nat) (p1 : ttci_packet_t)
    (hentry : (if tvb_reported_length_remaining tvb offset > 19
        then (sql_header tvb offset pttci).val else some (offset, pttci)) = some (o1, p1))
    (it : Item) (hit : it ∈ (dissect_tns_data_sql_stmt tvb offset pttci).items)
    (hhf : it.hf = .hf_tns_data_ttic_stmt_sql) :
    (p1.data_direction = 0x7f ∧ it.start = o1 + 15)
      ∨ (p1.data_direction = 0xff ∧ it.start = o1 + 18) := by
  unfold dissect_tns_data_sql_stmt at hit
  by_cases hrem : tvb_reported_length_remaining tvb offset > 19
  · rw [if_pos hrem] at hit hentry
    rw [andThen_items, List.mem_append, hentry] at hit
    rcases hit with hit | hit
    · exact absurd hhf (sql_header_items_no_stmt tvb offset pttci it hit)
    · exact sql_statement_item_start tvb o1 p1 it hit
  · rw [if_neg hrem] at hit hentry
    simp only [Option.some.injEq, Prod.mk.injEq] at hentry
    obtain ⟨rfl, rfl⟩ := hentry
    exact sql_statement_item_start tvb offset pttci it hit

/-- Witness for C15 on `sql_sample`: the header ends at 21, the data direction is
0x7F and the statement item starts at 21 + 15. -/
theorem stmt_starts_after_skip_witness :
    (sql_sample_ttci.data_direction = 0x7f ∧ (36 : Nat) = 21 + 15)
      ∨ (sql_sample_ttci.data_direction = 0xff ∧ (36 : Nat) = 21 + 18) :=
  stmt_starts_after_skip sql_sample 0 ttci_packet_zero 21 sql_sample_ttci (by decide)
    ⟨.hf_tns_data_ttic_stmt_sql, 36, 18, none,
      some (.stmt [0x53, 0x45, 0x4c, 0x45, 0x43, 0x54, 0x20, 0x31, 0x20, 0x46, 0x52,
        0x4f, 0x4d, 0x20, 0x44, 0x55, 0x41, 0x4c])⟩
    (by decide) rfl

/-! ## Invalid data direction -/

theorem sql_header_items_kinds (tvb : Tvb) (offset : Nat) (pttci : ttci_packet_t) :
    (sql_header tvb offset pttci).all_items
      (fun i => i.hf ≠ .hf_tns_data_ttic_stmt_sql ∧ i.hf ≠ .subtree
        ∧ ∀ n, i.hf ≠ .hf_tns_data_ttic_stmt_sql_p n) := by
  simp only [sql_header, dis_bind_eq, dis_pure_eq]
  repeat' first
    | with_reducible exact all_items_ret _ _
    | with_reducible exact all_items_read _ _
    | (with_reducible refine all_items_add_uint _ _ _ _ _ ?_; intro _; dsimp only; simp)
    | with_reducible apply all_items_andThen
    | with_reducible apply all_items_ite
    | (refine Prod.rec ?_; intro _; refine Prod.rec ?_; intro _ _; dsimp only)
    | (refine Prod.rec ?_; intro _ _; dsimp only)
    | intro _

theorem sql_statement_invalid (tvb : Tvb) (offset : Nat) (pttci : ttci_packet_t)
    (h7 : pttci.data_direction ≠ 0x7f) (hf : pttci.data_direction ≠ 0xff) :
    sql_statement tvb offset pttci = Dis.ret (.ret offset) := by
  unfold sql_statement
  dsimp only
  rw [if_neg h7, if_neg hf]

/-- C16: let the statement header leave the cursor at `o1` (the entry offset when
no more than 19 bytes remain and the header is not parsed) with a data direction
that is neither 0x7F nor 0xFF.  Then `dissect_tns_data_sql` returns `o1` itself,
without a skip; it adds no item beyond those of the header, and none of its items
is a statement item, a parameter value item or the parameter subtree. -/
theorem invalid_direction_aborts (tvb : Tvb) (offset : Nat) (pttci : ttci_packet_t)
    (o1 : Nat) (p1 : ttci_packet_t)
    (hentry : (if tvb_reported_length_remaining tvb offset > 19
        then (sql_header tvb offset pttci).val else some (offset, pttci)) = some (o1, p1))
    (h7 : p1.data_direction ≠ 0x7f) (hf : p1.data_direction ≠ 0xff) :
    (dissect_tns_data_sql tvb offset pttci).val = some o1
      ∧ (dissect_tns_data_sql tvb offset pttci).items
          = (if tvb_reported_length_remaining tvb offset > 19
              then (sql_header tvb offset pttci).items else [])
      ∧ (dissect_tns_data_sql tvb offset pttci).all_items
          (fun i => i.hf ≠ .hf_tns_data_ttic_stmt_sql ∧ i.hf ≠ .subtree
            ∧ ∀ n, i.hf ≠ .hf_tns_data_ttic_stmt_sql_p n) := by
  have hst := sql_statement_invalid tvb o1 p1 h7 hf
  have hitems : (dissect_tns_data_sql tvb offset pttci).items
      = (if tvb_reported_length_remaining tvb offset > 19
          then (sql_header tvb offset pttci).items else []) := by
    unfold dissect_tns_data_sql dissect_tns_data_sql_stmt
    by_cases hrem : tvb_reported_length_remaining tvb offset > 19
    · rw [if_pos hrem] at hentry
      simp only [if_pos hrem, andThen_items, andThen_val, hentry, hst, ret_items, ret_val,
        Option.some_bind, List.append_nil]
    · rw [if_neg hrem] at hentry
      simp only [Option.some.injEq, Prod.mk.injEq] at hentry
      obtain ⟨rfl, rfl⟩ := hentry
      simp only [if_neg hrem, andThen_items, hst, ret_items, ret_val, List.append_nil]
  refine ⟨?_, hitems, ?_⟩
  · unfold dissect_tns_data_sql dissect_tns_data_sql_stmt
    by_cases hrem : tvb_reported_length_remaining tvb offset > 19
    · rw [if_pos hrem] at hentry
      simp only [if_pos hrem, andThen_val, hentry, hst, ret_val, Option.some_bind]
    · rw [if_neg hrem] at hentry
      simp only [Option.some.injEq, Prod.mk.injEq] at hentry
      obtain ⟨rfl, rfl⟩ := hentry
      simp only [if_neg hrem, andThen_val, hst, ret_val, Option.some_bind]
  · intro i hi
    rw [hitems] at hi
    split at hi
    · exact sql_header_items_kinds tvb offset pttci i hi
    · simp at hi

/-- Witness for C16 on `sql_sample_bad_direction`: the header ends at 21 with the
data direction 0x05, and 21 is returned. -/
theorem invalid_direction_aborts_witness :
    (dissect_tns_data_sql sql_sample_bad_direction 0 ttci_packet_zero).val = some 21
      ∧ (dissect_tns_data_sql sql_sample_bad_direction 0 ttci_packet_zero).items
          = (if tvb_reported_length_remaining sql_sample_bad_direction 0 > 19
              then (sql_header sql_sample_bad_direction 0 ttci_packet_zero).items else [])
      ∧ (dissect_tns_data_sql sql_sample_bad_direction 0 ttci_packet_zero).all_items
          (fun i => i.hf ≠ .hf_tns_data_ttic_stmt_sql ∧ i.hf ≠ .subtree
            ∧ ∀ n, i.hf ≠ .hf_tns_data_ttic_stmt_sql_p n) :=
  invalid_direction_aborts sql_sample_bad_direction 0 ttci_packet_zero 21
    sql_sample_bad_direction_ttci (by decide) (by decide) (by decide)

/-! ## The optional byte before `stmt_byte1` -/

theorem sql_header_split (tvb : Tvb) (offset : Nat) (pttci : ttci_packet_t) :
    sql_header tvb offset pttci
      = Dis.andThen (Dis.read (tvb_get_ntohs tvb offset)) (fun unknown_2 =>
          Dis.andThen (proto_tree_add_uint .hf_tns_data_ttic_pkt_unknown_3 (offset + 2) 2
              (tvb_get_ntohs tvb (offset + 2))) (fun unknown_3 =>
            Dis.andThen (Dis.read (tvb_get_guint8 tvb (offset + 2 + 2))) (fun stmt_byte1 =>
              if stmt_byte1 ≠ 0x01 then
                Dis.andThen (Dis.read (tvb_get_guint8 tvb (offset + 2 + 2 + 1))) (fun b =>
                  sql_header_rest tvb (offset + 2 + 2 + 1 + 1)
                    { pttci with unknown_2 := unknown_2, unknown_3 := unknown_3,
                                 stmt_byte1_prfx := stmt_byte1, stmt_byte1 := b })
              else
                sql_header_rest tvb (offset + 2 + 2 + 1)
                  { pttci with unknown_2 := unknown_2, unknown_3 := unknown_3,
                               stmt_byte1 := stmt_byte1 }))) := by
  unfold sql_header sql_header_rest
  simp only [dis_bind_eq, dis_pure_eq]
  congr 1
  funext unknown_2
  congr 1
  funext unknown_3
  congr 1
  funext stmt_byte1
  split
  · simp only [Dis.andThen, Dis.read, Dis.ret]
    cases tvb_get_guint8 tvb (offset + 2 + 2 + 1) <;> rfl
  · rfl

theorem sql_header_rest_keeps (tvb : Tvb) (offset : Nat) (pttci : ttci_packet_t)
    (o1 : Nat) (p1 : ttci_packet_t)
    (h : (sql_header_rest tvb offset pttci).val = some (o1, p1)) :
    tvb_get_guint8 tvb offset = some p1.stmt_byte2
      ∧ p1.stmt_byte1 = pttci.stmt_byte1 ∧ p1.stmt_byte1_prfx = pttci.stmt_byte1_prfx := by
  simp only [sql_header_rest, dis_bind_eq, dis_pure_eq, andThen_val, read_val, add_uint_val,
    ret_val, Option.bind_eq_some] at h
  obtain ⟨b2, hb2, b3, hb3, s1, hs1, s2, hs2, x, hx, b4, hb4, fl, hfl, pc, hpc, u6, hu6, u7, hu7,
    y, hy, z, hz, h⟩ := h
  have hx1 : x.1.stmt_byte2 = b2 ∧ x.1.stmt_byte1 = pttci.stmt_byte1
      ∧ x.1.stmt_byte1_prfx = pttci.stmt_byte1_prfx := by
    split at hx
    · simp only [andThen_val, add_uint_val, read_val, ret_val, Option.bind_eq_some,
        Option.some.injEq] at hx
      obtain ⟨_, _, _, _, _, _, rfl⟩ := hx
      exact ⟨rfl, rfl, rfl⟩
    · split at hx
      · simp only [andThen_val, add_uint_val, read_val, ret_val, Option.bind_eq_some,
          Option.some.injEq] at hx
        obtain ⟨_, _, _, _, _, _, rfl⟩ := hx
        exact ⟨rfl, rfl, rfl⟩
      · simp only [ret_val, Option.some.injEq] at hx
        subst hx
        exact ⟨rfl, rfl, rfl⟩
  have hy1 : y.1.stmt_byte2 = x.1.stmt_byte2 ∧ y.1.stmt_byte1 = x.1.stmt_byte1
      ∧ y.1.stmt_byte1_prfx = x.1.stmt_byte1_prfx := by
    split at hy
    · simp only [andThen_val, read_val, ret_val, Option.bind_eq_some, Option.some.injEq] at hy
      obtain ⟨_, _, _, _, _, _, rfl⟩ := hy
      exact ⟨rfl, rfl, rfl⟩
    · simp only [ret_val, Option.some.injEq] at hy
      subst hy
      exact ⟨rfl, rfl, rfl⟩
  simp only [Option.some.injEq, Prod.mk.injEq] at h
  obtain ⟨_, rfl⟩ := h
  refine ⟨?_, ?_, ?_⟩
  · rw [hb2, hy1.1, hx1.1]
  · rw [hy1.2.1, hx1.2.1]
  · rw [hy1.2.2, hx1.2.2]

/-- C20: when more than 19 bytes remain at the entry offset `e`, let `b` be the
byte at `e + 4`.  If `b` is 0x01, it becomes `stmt_byte1`, the stored prefix is
left as it was, and the rest of the header (`stmt_byte2` first) is read from
`e + 5`.  Otherwise `b` becomes the prefix, `stmt_byte1` is the byte at `e + 5`,
and the same rest of the header is read from `e + 6`. -/
theorem prefix_byte_shifts_header (tvb : Tvb) (e : Nat) (pttci : ttci_packet_t)
    (hrem : tvb_reported_length_remaining tvb e > 19) :
    ∃ u2 u3 b b5, tvb_get_ntohs tvb e = some u2 ∧ tvb_get_ntohs tvb (e + 2) = some u3
      ∧ tvb_get_guint8 tvb (e + 4) = some b ∧ tvb_get_guint8 tvb (e + 5) = some b5
      ∧ (b = 0x01 →
          sql_header tvb e pttci
            = Dis.andThen
                ⟨[⟨.hf_tns_data_ttic_pkt_unknown_3, e + 2, 2, some u3, none⟩], some ()⟩
                (fun _ => sql_header_rest tvb (e + 5)
                  { pttci with unknown_2 := u2, unknown_3 := u3, stmt_byte1 := b })
          ∧ ∀ o1 p1, (sql_header tvb e pttci).val = some (o1, p1) →
              p1.stmt_byte1 = 0x01 ∧ p1.stmt_byte1_prfx = pttci.stmt_byte1_prfx
                ∧ tvb_get_guint8 tvb (e + 5) = some p1.stmt_byte2)
      ∧ (b ≠ 0x01 →
          sql_header tvb e pttci
            = Dis.andThen
                ⟨[⟨.hf_tns_data_ttic_pkt_unknown_3, e + 2, 2, some u3, none⟩], some ()⟩
                (fun _ => sql_header_rest tvb (e + 6)
                  { pttci with unknown_2 := u2, unknown_3 := u3, stmt_byte1_prfx := b,
                               stmt_byte1 := b5 })
          ∧ ∀ o1 p1, (sql_header tvb e pttci).val = some (o1, p1) →
              p1.stmt_byte1_prfx = b ∧ p1.stmt_byte1 = b5
                ∧ tvb_get_guint8 tvb (e + 6) = some p1.stmt_byte2) := by
  unfold tvb_reported_length_remaining at hrem
  obtain ⟨u2, hu2⟩ := tvb_get_ntohs_of_le tvb e (by omega)
  obtain ⟨u3, hu3⟩ := tvb_get_ntohs_of_le tvb (e + 2) (by omega)
  obtain ⟨b, hb⟩ := tvb_get_guint8_of_lt tvb (e + 2 + 2) (by omega)
  obtain ⟨b5, hb5⟩ := tvb_get_guint8_of_lt tvb (e + 2 + 2 + 1) (by omega)
  refine ⟨u2, u3, b, b5, hu2, hu3, hb, hb5, ?_, ?_⟩
  · intro h1
    have heq : sql_header tvb e pttci
        = Dis.andThen
            ⟨[⟨.hf_tns_data_ttic_pkt_unknown_3, e + 2, 2, some u3, none⟩], some ()⟩
            (fun _ => sql_header_rest tvb (e + 5)
              { pttci with unknown_2 := u2, unknown_3 := u3, stmt_byte1 := b }) := by
      rw [sql_header_split, hu2, hu3, hb]
      simp only [Dis.andThen, Dis.read, add_uint_some, List.nil_append]
      rw [if_neg (by simpa using h1)]
    refine ⟨heq, ?_⟩
    intro o1 p1 hv
    rw [heq, andThen_val] at hv
    simp only [Option.some_bind] at hv
    have := sql_header_rest_keeps tvb (e + 5) _ o1 p1 hv
    exact ⟨this.2.1.trans h1, this.2.2, this.1⟩
  · intro h1
    have heq : sql_header tvb e pttci
        = Dis.andThen
            ⟨[⟨.hf_tns_data_ttic_pkt_unknown_3, e + 2, 2, some u3, none⟩], some ()⟩
            (fun _ => sql_header_rest tvb (e + 6)
              { pttci with unknown_2 := u2, unknown_3 := u3, stmt_byte1_prfx := b,
                           stmt_byte1 := b5 }) := by
      rw [sql_header_split, hu2, hu3, hb, hb5]
      simp only [Dis.andThen, Dis.read, add_uint_some, List.nil_append]
      rw [if_pos h1]
    refine ⟨heq, ?_⟩
    intro o1 p1 hv
    rw [heq, andThen_val] at hv
    simp only [Option.some_bind] at hv
    have := sql_header_rest_keeps tvb (e + 6) _ o1 p1 hv
    exact ⟨this.2.2, this.2.1, this.1⟩

/-- Witness for C20 on `sql_sample_prfx`, whose byte at offset 4 is 0x35. -/
theorem prefix_byte_shifts_header_witness :
    ∃ u2 u3 b b5, tvb_get_ntohs sql_sample_prfx 0 = some u2
      ∧ tvb_get_ntohs sql_sample_prfx (0 + 2) = some u3
      ∧ tvb_get_guint8 sql_sample_prfx (0 + 4) = some b
      ∧ tvb_get_guint8 sql_sample_prfx (0 + 5) = some b5
      ∧ (b = 0x01 →
          sql_header sql_sample_prfx 0 ttci_packet_zero
            = Dis.andThen
                ⟨[⟨.hf_tns_data_ttic_pkt_unknown_3, 0 + 2, 2, some u3, none⟩], some ()⟩
                (fun _ => sql_header_rest sql_sample_prfx (0 + 5)
                  { ttci_packet_zero with unknown_2 := u2, unknown_3 := u3, stmt_byte1 := b })
          ∧ ∀ o1 p1, (sql_header sql_sample_prfx 0 ttci_packet_zero).val = some (o1, p1) →
              p1.stmt_byte1 = 0x01 ∧ p1.stmt_byte1_prfx = ttci_packet_zero.stmt_byte1_prfx
                ∧ tvb_get_guint8 sql_sample_prfx (0 + 5) = some p1.stmt_byte2)
      ∧ (b ≠ 0x01 →
          sql_header sql_sample_prfx 0 ttci_packet_zero
            = Dis.andThen
                ⟨[⟨.hf_tns_data_ttic_pkt_unknown_3, 0 + 2, 2, some u3, none⟩], some ()⟩
                (fun _ => sql_header_rest sql_sample_prfx (0 + 6)
                  { ttci_packet_zero with unknown_2 := u2, unknown_3 := u3,
                                          stmt_byte1_prfx := b, stmt_byte1 := b5 })
          ∧ ∀ o1 p1, (sql_header sql_sample_prfx 0 ttci_packet_zero).val = some (o1, p1) →
              p1.stmt_byte1_prfx = b ∧ p1.stmt_byte1 = b5
                ∧ tvb_get_guint8 sql_sample_prfx (0 + 6) = some p1.stmt_byte2) :=
  prefix_byte_shifts_header sql_sample_prfx 0 ttci_packet_zero (by decide)

/-! ## Bind values -/

theorem value_loop_step (tvb : Tvb) (param_count : Nat) (pd_list : List ttci_stmt_pd_itm_t)
    (bytes_remaining fuel i param_idx offset value_len : Nat) (hf : Hf)
    (hi : i < bytes_remaining) (hidx : param_idx < param_count)
    (hhf : hf_prop_ref_list param_idx = some hf)
    (hlen : tvb_get_guint8 tvb offset = some value_len) :
    value_loop tvb param_count pd_list bytes_remaining (fuel + 1) i param_idx offset
      = if value_len = 0 then Dis.ret (offset + 1)
        else if (pd_list.getD param_idx pd_itm_zero).param_props_unknown_2 &&& 0x10 ≠ 0 then
          (tvb_memcpy tvb (offset + 1) value_len).elim Dis.raise (fun bytes =>
            (heap_store (bytes ++ [0]) (value_len + 1) 0).elim Dis.undefined
              (fun byte_buffer =>
                Dis.andThen
                  (proto_tree_add_item_text tvb hf (offset + 1 - 1) (strlen byte_buffer + 1)
                    (.param_string (param_idx + 1) (c_string byte_buffer)))
                  (fun _ => value_loop tvb param_count pd_list bytes_remaining fuel
                    (i + value_len) (param_idx + 1) (offset + 1 + value_len))))
        else
          (hex_dump tvb (offset + 1) value_len value_len 0).elim Dis.raise (fun numbuf =>
            Dis.andThen
              (proto_tree_add_item_text tvb hf (offset + 1 - 1) (value_len + 1)
                (if (pd_list.getD param_idx pd_itm_zero).param_props_unknown_1 = 0x0b00
                    ∧ (pd_list.getD param_idx pd_itm_zero).param_props_unknown_2 &&& 0x0004 ≠ 0
                  then .param_datetime (param_idx + 1) numbuf
                  else .param_number (param_idx + 1) numbuf))
              (fun _ => value_loop tvb param_count pd_list bytes_remaining fuel
                (i + value_len) (param_idx + 1) (offset + 1 + value_len))) := by
  have hlt : offset < tvb.length := by
    simp only [tvb_get_guint8, Option.map_eq_some', List.get?_eq_getElem?] at hlen
    obtain ⟨b, hb, _⟩ := hlen
    exact (List.getElem?_eq_some_iff.mp hb).1
  rw [value_loop]
  have hc : i < bytes_remaining ∧ param_idx < param_count
      ∧ (hf_prop_ref_list param_idx).isSome = true := ⟨hi, hidx, by rw [hhf]; rfl⟩
  rw [if_pos hc]
  have hr : ¬ tvb_reported_length_remaining tvb offset ≤ 0 := by
    unfold tvb_reported_length_remaining
    omega
  rw [if_neg hr, hhf, hlen]
  dsimp only
  split
  · rfl
  · split
    · cases tvb_memcpy tvb (offset + 1) value_len with
      | none => rfl
      | some bytes =>
        dsimp only [Option.elim]
        cases heap_store (bytes ++ [0]) (value_len + 1) 0 <;> rfl
    · cases hex_dump tvb (offset + 1) value_len value_len 0 <;> rfl

theorem tvb_memcpy_length (tvb : Tvb) (offset length : Nat) (bytes : List UInt8)
    (h : tvb_memcpy tvb offset length = some bytes) : bytes.length = length := by
  unfold tvb_memcpy at h
  split at h
  · simp only [Option.some.injEq] at h
    rw [← h, List.length_take, List.length_drop]
    omega
  · exact absurd h (by simp)

theorem heap_store_past_end (block : List UInt8) (idx : Nat) (v : UInt8)
    (h : block.length ≤ idx) : heap_store block idx v = none := by
  unfold heap_store
  rw [if_neg (by omega)]

theorem heap_store_last_zero (l : List UInt8) :
    heap_store (l ++ [0]) l.length 0 = some (l ++ [0]) := by
  unfold heap_store
  rw [if_pos (by rw [List.length_append, List.length_singleton]; omega)]
  congr 1
  induction l with
  | nil => rfl
  | cons a l ih =>
    rw [List.cons_append, List.length_cons, List.set_cons_succ, ih]

/-- One pass of the value loop over a value with a descriptor of the String kind
and a length byte `n > 0`: the copy of the `n` bytes raises, or the store behind
the block is reached; no item is added and the pass has no result. -/
theorem value_loop_string (tvb : Tvb) (param_count : Nat) (pd_list : List ttci_stmt_pd_itm_t)
    (bytes_remaining fuel i param_idx offset n : Nat) (hf : Hf)
    (hi : i < bytes_remaining) (hidx : param_idx < param_count)
    (hhf : hf_prop_ref_list param_idx = some hf)
    (hlen : tvb_get_guint8 tvb offset = some n) (hn : 0 < n)
    (hstr : (pd_list.getD param_idx pd_itm_zero).param_props_unknown_2 &&& 0x10 ≠ 0) :
    value_loop tvb param_count pd_list bytes_remaining (fuel + 1) i param_idx offset
      = (tvb_memcpy tvb (offset + 1) n).elim Dis.raise (fun _ => Dis.undefined) := by
  rw [value_loop_step tvb param_count pd_list bytes_remaining fuel i param_idx offset n hf
    hi hidx hhf hlen, if_neg (by omega), if_pos hstr]
  cases hm : tvb_memcpy tvb (offset + 1) n with
  | none => rfl
  | some bytes =>
    have hl := tvb_memcpy_length tvb (offset + 1) n bytes hm
    dsimp only [Option.elim]
    rw [heap_store_past_end (bytes ++ [0]) (n + 1) 0
      (by rw [List.length_append, hl, List.length_singleton])]

/-- C11 (defect of the code): one pass of the value loop over a value whose
descriptor has bit 0x10 of `param_props.unknown_2` set, whose length byte is
`n > 0` and whose `n` bytes are in the buffer.  The `n` bytes are copied into the
block of `n + 1` bytes, and the store at index `n + 1` that follows lies behind
the last index `n` of the block: the pass ends there in undefined behaviour.  The
model has no String item, no text and no cursor for it, and nothing that would
run after the pass has a result.  The same store at index `n` is inside the
block and leaves its bytes as they are. -/
theorem string_value_store_past_block (tvb : Tvb) (param_count : Nat)
    (pd_list : List ttci_stmt_pd_itm_t) (bytes_remaining fuel i param_idx offset n : Nat)
    (hf : Hf)
    (hi : i < bytes_remaining) (hidx : param_idx < param_count)
    (hhf : hf_prop_ref_list param_idx = some hf)
    (hlen : tvb_get_guint8 tvb offset = some n) (hn : 0 < n)
    (hstr : (pd_list.getD param_idx pd_itm_zero).param_props_unknown_2 &&& 0x10 ≠ 0)
    (hav : offset + 1 + n ≤ tvb.length) :
    tvb_memcpy tvb (offset + 1) n = some ((tvb.drop (offset + 1)).take n)
      ∧ ((tvb.drop (offset + 1)).take n ++ [0]).length = n + 1
      ∧ heap_store ((tvb.drop (offset + 1)).take n ++ [0]) (n + 1) 0 = none
      ∧ value_loop tvb param_count pd_list bytes_remaining (fuel + 1) i param_idx offset
          = Dis.undefined
      ∧ (value_loop tvb param_count pd_list bytes_remaining (fuel + 1) i param_idx
          offset).items = []
      ∧ (∀ (before : Dis Unit) (after : Nat → Dis Nat),
          (Dis.andThen before (fun _ =>
            Dis.andThen
              (value_loop tvb param_count pd_list bytes_remaining (fuel + 1) i param_idx offset)
              after)).val = none)
      ∧ heap_store ((tvb.drop (offset + 1)).take n ++ [0]) n 0
          = some ((tvb.drop (offset + 1)).take n ++ [0]) := by
  have hvl : ((tvb.drop (offset + 1)).take n).length = n := by
    rw [List.length_take, List.length_drop]
    omega
  have hm : tvb_memcpy tvb (offset + 1) n = some ((tvb.drop (offset + 1)).take n) := by
    unfold tvb_memcpy
    rw [if_pos hav]
  have hv : value_loop tvb param_count pd_list bytes_remaining (fuel + 1) i param_idx offset
      = Dis.undefined := by
    rw [value_loop_string tvb param_count pd_list bytes_remaining fuel i param_idx offset n hf
      hi hidx hhf hlen hn hstr, hm]
    rfl
  refine ⟨hm, by rw [List.length_append, hvl, List.length_singleton],
    heap_store_past_end _ _ _ (by rw [List.length_append, hvl, List.length_singleton]),
    hv, by rw [hv]; rfl, ?_, ?_⟩
  · intro before after
    rw [hv]
    cases hb : before.val with
    | none => simp [Dis.andThen, hb]
    | some u => simp [Dis.andThen, hb, Dis.undefined]
  · have h := heap_store_last_zero ((tvb.drop (offset + 1)).take n)
    rw [hvl] at h
    exact h

/-- C11, witness: the value `03 41 42 43` of `params_sample` at offset 37 belongs
to a descriptor with the property byte 0x10.  Its three bytes are copied into a
block of four bytes, and the store at index 4 is behind the block.  The whole
function has added the parameter subtree by then and has no result. -/
theorem string_value_store_past_block_witness :
    (tvb_memcpy params_sample (37 + 1) 3 = some ((params_sample.drop (37 + 1)).take 3)
      ∧ ((params_sample.drop (37 + 1)).take 3 ++ [0]).length = 3 + 1
      ∧ heap_store ((params_sample.drop (37 + 1)).take 3 ++ [0]) (3 + 1) 0 = none
      ∧ value_loop params_sample 1 [⟨768, 1, 40, 1, 16, 0, 515, 26881, 7⟩, pd_itm_zero] 4
          (0 + 1) 0 0 37 = Dis.undefined
      ∧ (value_loop params_sample 1 [⟨768, 1, 40, 1, 16, 0, 515, 26881, 7⟩, pd_itm_zero] 4
          (0 + 1) 0 0 37).items = []
      ∧ (∀ (before : Dis Unit) (after : Nat → Dis Nat),
          (Dis.andThen before (fun _ =>
            Dis.andThen
              (value_loop params_sample 1 [⟨768, 1, 40, 1, 16, 0, 515, 26881, 7⟩, pd_itm_zero]
                4 (0 + 1) 0 0 37)
              after)).val = none)
      ∧ heap_store ((params_sample.drop (37 + 1)).take 3 ++ [0]) 3 0
          = some ((params_sample.drop (37 + 1)).take 3 ++ [0]))
      ∧ (params_sample.drop (37 + 1)).take 3 = [0x41, 0x42, 0x43]
      ∧ load_descriptors params_sample 1 1 0 21 (List.replicate 2 pd_itm_zero)
          = .loaded [⟨768, 1, 40, 1, 16, 0, 515, 26881, 7⟩, pd_itm_zero] 37
      ∧ dissect_tns_data_sql_params params_sample 0 params_sample_ttci
          = ⟨[⟨.subtree, 37, 4, none, some (.subtree "TTC/TTI SQL Parameters")⟩], none⟩ :=
  ⟨string_value_store_past_block params_sample 1
      [⟨768, 1, 40, 1, 16, 0, 515, 26881, 7⟩, pd_itm_zero]
      4 0 0 0 37 3 (.hf_tns_data_ttic_stmt_sql_p 1) (by decide) (by decide) (by decide)
      (by decide) (by decide) (by decide) (by decide),
    by decide, by decide, by decide⟩

/-- C12: when the length byte under the cursor of the value loop is 0, the loop
ends there without an item, whatever its counters are and whatever follows the
zero byte: nothing is emitted for this value or a later one, and the items
emitted before it are the whole output. -/
theorem zero_length_value_stops (tvb : Tvb) (param_count : Nat)
    (pd_list : List ttci_stmt_pd_itm_t) (bytes_remaining fuel i param_idx offset : Nat)
    (hlen : tvb_get_guint8 tvb offset = some 0) :
    (value_loop tvb param_count pd_list bytes_remaining fuel i param_idx offset = Dis.ret offset
        ∨ value_loop tvb param_count pd_list bytes_remaining fuel i param_idx offset
            = Dis.ret (offset + 1))
      ∧ (value_loop tvb param_count pd_list bytes_remaining fuel i param_idx offset).items = []
      ∧ ∀ before : Dis Unit,
          (Dis.andThen before (fun _ =>
            value_loop tvb param_count pd_list bytes_remaining fuel i param_idx offset)).items
            = before.items := by
  have h : value_loop tvb param_count pd_list bytes_remaining fuel i param_idx offset
        = Dis.ret offset
      ∨ value_loop tvb param_count pd_list bytes_remaining fuel i param_idx offset
        = Dis.ret (offset + 1) := by
    cases fuel with
    | zero => exact Or.inl rfl
    | succ fuel =>
      by_cases hc : i < bytes_remaining ∧ param_idx < param_count
          ∧ (hf_prop_ref_list param_idx).isSome = true
      · obtain ⟨hi, hidx, hsome⟩ := hc
        obtain ⟨hf, hhf⟩ := Option.isSome_iff_exists.mp hsome
        right
        rw [value_loop_step tvb param_count pd_list bytes_remaining fuel i param_idx offset 0 hf
          hi hidx hhf hlen, if_pos rfl]
      · left
        rw [value_loop, if_neg hc]
  have hitems : (value_loop tvb param_count pd_list bytes_remaining fuel i param_idx
      offset).items = [] := by
    rcases h with h | h <;> rw [h] <;> rfl
  refine ⟨h, hitems, ?_⟩
  intro before
  cases hb : before.val with
  | none => simp [Dis.andThen, hb]
  | some u => simp [Dis.andThen, hb, hitems]

/-- C12, witness: in `params_sample_zero` the second length byte (offset 53) is 0;
the loop reaches it after the first value and ends, and the whole block yields
the first value only although a third value `01 43` follows. -/
theorem zero_length_value_stops_witness :
    ((value_loop params_sample_zero 2
          [⟨768, 1, 40, 1, 0, 0, 515, 26881, 1⟩, ⟨768, 1, 40, 1, 0, 0, 515, 26881, 7⟩,
            pd_itm_zero] 6 1 2 1 53 = Dis.ret 53
        ∨ value_loop params_sample_zero 2
          [⟨768, 1, 40, 1, 0, 0, 515, 26881, 1⟩, ⟨768, 1, 40, 1, 0, 0, 515, 26881, 7⟩,
            pd_itm_zero] 6 1 2 1 53 = Dis.ret (53 + 1))
      ∧ (value_loop params_sample_zero 2
          [⟨768, 1, 40, 1, 0, 0, 515, 26881, 1⟩, ⟨768, 1, 40, 1, 0, 0, 515, 26881, 7⟩,
            pd_itm_zero] 6 1 2 1 53).items = []
      ∧ ∀ before : Dis Unit,
          (Dis.andThen before (fun _ => value_loop params_sample_zero 2
            [⟨768, 1, 40, 1, 0, 0, 515, 26881, 1⟩, ⟨768, 1, 40, 1, 0, 0, 515, 26881, 7⟩,
              pd_itm_zero] 6 1 2 1 53)).items = before.items)
      ∧ dissect_tns_data_sql_params params_sample_zero 0 params_sample_zero_ttci
          = ⟨[⟨.subtree, 50, 6, none, some (.subtree "TTC/TTI SQL Parameters")⟩,
              ⟨.hf_tns_data_ttic_stmt_sql_p 1, 50, 3, none,
                some (.param_number 1 [0x41, 0x42])⟩],
            some 54⟩ :=
  ⟨zero_length_value_stops params_sample_zero 2
      [⟨768, 1, 40, 1, 0, 0, 515, 26881, 1⟩, ⟨768, 1, 40, 1, 0, 0, 515, 26881, 7⟩,
        pd_itm_zero] 6 1 2 1 53 (by decide),
    by decide⟩

/-! ## The Data message: `dissect_tns_data` -/

theorem data_subtree_of_lt (tvb : Tvb) (offset : Nat) (text : String)
    (h : offset < tvb.length) :
    proto_tree_add_subtree tvb offset text
      = ⟨[⟨.subtree, offset, tvb.length - offset, none, some (.subtree text)⟩], some ()⟩ := by
  unfold proto_tree_add_subtree
  rw [if_pos (Or.inr h)]

theorem andThen_mk {α β : Type} (its : List Item) (a : α) (f : α → Dis β) :
    Dis.andThen ⟨its, some a⟩ f = ⟨its ++ (f a).items, (f a).val⟩ := rfl

theorem ret_andThen {α β : Type} (a : α) (f : α → Dis β) :
    Dis.andThen (Dis.ret a) f = f a := by
  simp only [Dis.ret, andThen_mk, List.nil_append]

theorem dissect_tns_data_without_id (tvb : Tvb) (offset : Nat) (is_request : Bool)
    (flag : Nat) (hfl : tvb_get_ntohs tvb offset = some flag)
    (hlt : offset < tvb.length)
    (h : ¬ (tvb_reported_length_remaining tvb (offset + 2) > 0
      ∧ get_data_func_id tvb (offset + 2) ≠ SQLNET_SNS
      ∧ get_data_func_id tvb (offset + 2) ∈ tns_data_funcs)) :
    dissect_tns_data tvb offset is_request
      = Dis.andThen
          ⟨[⟨.subtree, offset, tvb.length - offset, none, some (.subtree "Data")⟩,
            ⟨.hf_tns_data_flag, offset, 2, some flag, none⟩], some ()⟩
          (fun _ => Dis.andThen
            (data_switch tvb (offset + 2) is_request (get_data_func_id tvb (offset + 2)))
            (fun r => r.elim (Dis.ret none)
              (fun o => if o ≤ tvb.length then Dis.ret (some o) else Dis.raise))) := by
  have hstep : (if tvb_reported_length_remaining tvb (offset + 2) > 0 then
        if get_data_func_id tvb (offset + 2) ≠ SQLNET_SNS
            ∧ get_data_func_id tvb (offset + 2) ∈ tns_data_funcs then
          Dis.andThen (proto_tree_add_uint .hf_tns_data_id (offset + 2) 1
            (tvb_get_guint8 tvb (offset + 2))) (fun _ => Dis.ret (offset + 2 + 1))
        else Dis.ret (offset + 2)
      else Dis.ret (offset + 2)) = Dis.ret (offset + 2) := by
    by_cases h1 : tvb_reported_length_remaining tvb (offset + 2) > 0
    · rw [if_pos h1, if_neg (fun h2 => h ⟨h1, h2⟩)]
    · rw [if_neg h1]
  unfold dissect_tns_data
  simp only [dis_bind_eq, dis_pure_eq, data_subtree_of_lt tvb offset "Data" hlt, hfl,
    add_uint_some, hstep, andThen_mk, ret_andThen, List.append_assoc,
    List.singleton_append, List.cons_append, List.nil_append]
  congr <;> (funext r; cases r <;> rfl)

theorem get_data_func_id_first (tvb : Tvb) (offset : Nat)
    (hrem : tvb_reported_length_remaining tvb offset > 0)
    (hid : get_data_func_id tvb offset ≠ SQLNET_SNS) :
    tvb_get_guint8 tvb offset = some (get_data_func_id tvb offset) := by
  unfold tvb_reported_length_remaining at hrem
  obtain ⟨b, hb⟩ := tvb_get_guint8_of_lt tvb offset (by omega)
  have hrem2 : tvb_reported_length_remaining tvb offset > 0 := by
    unfold tvb_reported_length_remaining
    exact hrem
  unfold get_data_func_id at hid ⊢
  simp only [if_pos hrem2, hb, Option.getD_some] at hid ⊢
  split at hid
  · exact absurd rfl hid
  · rename_i hc
    rw [if_neg hc]

theorem dissect_tns_data_with_id (tvb : Tvb) (offset : Nat) (is_request : Bool)
    (flag : Nat) (hfl : tvb_get_ntohs tvb offset = some flag)
    (hlt : offset < tvb.length)
    (h : tvb_reported_length_remaining tvb (offset + 2) > 0
      ∧ get_data_func_id tvb (offset + 2) ≠ SQLNET_SNS
      ∧ get_data_func_id tvb (offset + 2) ∈ tns_data_funcs) :
    dissect_tns_data tvb offset is_request
      = Dis.andThen
          ⟨[⟨.subtree, offset, tvb.length - offset, none, some (.subtree "Data")⟩,
            ⟨.hf_tns_data_flag, offset, 2, some flag, none⟩,
            ⟨.hf_tns_data_id, offset + 2, 1, some (get_data_func_id tvb (offset + 2)), none⟩],
            some ()⟩
          (fun _ => Dis.andThen
            (data_switch tvb (offset + 3) is_request (get_data_func_id tvb (offset + 2)))
            (fun r => r.elim (Dis.ret none)
              (fun o => if o ≤ tvb.length then Dis.ret (some o) else Dis.raise))) := by
  have hb := get_data_func_id_first tvb (offset + 2) h.1 h.2.1
  unfold dissect_tns_data
  simp only [dis_bind_eq, dis_pure_eq, data_subtree_of_lt tvb offset "Data" hlt, hfl,
    add_uint_some, if_pos h.1, if_pos h.2, hb, andThen_mk, ret_andThen, ret_items, ret_val,
    List.append_assoc, List.singleton_append, List.cons_append, List.nil_append]
  have e : offset + 2 + 1 = offset + 3 := rfl
  rw [e]
  congr <;> (funext r; cases r <;> rfl)

theorem data_switch_other (tvb : Tvb) (offset : Nat) (is_request : Bool) (id : Nat)
    (h : id ∉ tns_data_funcs) :
    data_switch tvb offset is_request id = Dis.ret (some offset) := by
  have h1 : id ≠ SQLNET_SET_PROTOCOL := fun e => h (by rw [e]; decide)
  have h3 : id ≠ SQLNET_USER_OCI_FUNC := fun e => h (by rw [e]; decide)
  have h8 : id ≠ SQLNET_RETURN_OPI_PARAM := fun e => h (by rw [e]; decide)
  have h17 : id ≠ SQLNET_PIGGYBACK_FUNC := fun e => h (by rw [e]; decide)
  have hs : id ≠ SQLNET_SNS := fun e => h (by rw [e]; decide)
  unfold data_switch
  rw [if_neg h1, if_neg h3, if_neg h8, if_neg h17, if_neg hs]
  rfl

theorem recognized_ids (id : Nat) :
    (id ≠ SQLNET_SNS ∧ id ∈ tns_data_funcs) ↔ ((1 ≤ id ∧ id ≤ 19) ∨ id = 32 ∨ id = 68) := by
  simp only [tns_data_funcs, SQLNET_SNS, List.mem_cons, List.mem_singleton, List.mem_nil_iff,
    or_false]
  constructor
  · rintro ⟨h, h1⟩
    omega
  · intro h
    omega

/-- C17: let the 2-byte flag word be in the buffer at `offset`, and let `id` be
the data-function id found behind it.  If at least one byte remains behind the
flag word, `id` is not the SNS sentinel and `id` is listed in `tns_data_funcs`
(that is `id` is 1..19, 32 or 68), the id byte is added as an item and the
`switch` runs from `offset + 3`; in every other case no id item is added and the
`switch` runs from `offset + 2`.  For an id that is not listed the whole output
is the Data subtree and the flag item, and the remainder handed on starts at
`offset + 2`. -/
theorem id_byte_consumed_iff_recognized (tvb : Tvb) (offset : Nat) (is_request : Bool)
    (hflags : offset + 2 ≤ tvb.length) :
    ((tvb_reported_length_remaining tvb (offset + 2) > 0
        ∧ get_data_func_id tvb (offset + 2) ≠ SQLNET_SNS
        ∧ get_data_func_id tvb (offset + 2) ∈ tns_data_funcs) →
      dissect_tns_data tvb offset is_request
        = Dis.andThen
            ⟨[⟨.subtree, offset, tvb.length - offset, none, some (.subtree "Data")⟩,
              ⟨.hf_tns_data_flag, offset, 2, tvb_get_ntohs tvb offset, none⟩,
              ⟨.hf_tns_data_id, offset + 2, 1, some (get_data_func_id tvb (offset + 2)), none⟩],
              some ()⟩
            (fun _ => Dis.andThen
              (data_switch tvb (offset + 3) is_request (get_data_func_id tvb (offset + 2)))
              (fun r => r.elim (Dis.ret none)
                (fun o => if o ≤ tvb.length then Dis.ret (some o) else Dis.raise))))
      ∧ (¬ (tvb_reported_length_remaining tvb (offset + 2) > 0
          ∧ get_data_func_id tvb (offset + 2) ≠ SQLNET_SNS
          ∧ get_data_func_id tvb (offset + 2) ∈ tns_data_funcs) →
        dissect_tns_data tvb offset is_request
          = Dis.andThen
              ⟨[⟨.subtree, offset, tvb.length - offset, none, some (.subtree "Data")⟩,
                ⟨.hf_tns_data_flag, offset, 2, tvb_get_ntohs tvb offset, none⟩], some ()⟩
              (fun _ => Dis.andThen
                (data_switch tvb (offset + 2) is_request (get_data_func_id tvb (offset + 2)))
                (fun r => r.elim (Dis.ret none)
                  (fun o => if o ≤ tvb.length then Dis.ret (some o) else Dis.raise))))
      ∧ (get_data_func_id tvb (offset + 2) ∉ tns_data_funcs →
        dissect_tns_data tvb offset is_request
          = ⟨[⟨.subtree, offset, tvb.length - offset, none, some (.subtree "Data")⟩,
              ⟨.hf_tns_data_flag, offset, 2, tvb_get_ntohs tvb offset, none⟩],
            some (some (offset + 2))⟩)
      ∧ ((get_data_func_id tvb (offset + 2) ≠ SQLNET_SNS
            ∧ get_data_func_id tvb (offset + 2) ∈ tns_data_funcs)
          ↔ ((1 ≤ get_data_func_id tvb (offset + 2) ∧ get_data_func_id tvb (offset + 2) ≤ 19)
            ∨ get_data_func_id tvb (offset + 2) = 32
            ∨ get_data_func_id tvb (offset + 2) = 68)) := by
  obtain ⟨flag, hfl⟩ := tvb_get_ntohs_of_le tvb offset hflags
  have hlt : offset < tvb.length := by omega
  rw [hfl]
  refine ⟨dissect_tns_data_with_id tvb offset is_request flag hfl hlt,
    dissect_tns_data_without_id tvb offset is_request flag hfl hlt, ?_,
    recognized_ids _⟩
  intro hid
  rw [dissect_tns_data_without_id tvb offset is_request flag hfl hlt (fun h => hid h.2.2),
    data_switch_other tvb (offset + 2) is_request _ hid]
  simp only [andThen_mk, ret_andThen, Option.elim, if_pos hflags, ret_items, ret_val,
    List.append_nil]

/-- Witness for C17: the Data payload `00 00 63 01 02`, whose id byte 0x63 is not
listed; the output is the Data subtree and the flag item, and the remainder
starts at offset 2. -/
theorem id_byte_consumed_iff_recognized_witness :
    (((tvb_reported_length_remaining [0x00, 0x00, 0x63, 0x01, 0x02] (0 + 2) > 0
        ∧ get_data_func_id [0x00, 0x00, 0x63, 0x01, 0x02] (0 + 2) ≠ SQLNET_SNS
        ∧ get_data_func_id [0x00, 0x00, 0x63, 0x01, 0x02] (0 + 2) ∈ tns_data_funcs) →
      dissect_tns_data [0x00, 0x00, 0x63, 0x01, 0x02] 0 true
        = Dis.andThen
            ⟨[⟨.subtree, 0, ([0x00, 0x00, 0x63, 0x01, 0x02] : Tvb).length - 0, none,
                some (.subtree "Data")⟩,
              ⟨.hf_tns_data_flag, 0, 2, tvb_get_ntohs [0x00, 0x00, 0x63, 0x01, 0x02] 0, none⟩,
              ⟨.hf_tns_data_id, 0 + 2, 1,
                some (get_data_func_id [0x00, 0x00, 0x63, 0x01, 0x02] (0 + 2)), none⟩],
              some ()⟩
            (fun _ => Dis.andThen
              (data_switch [0x00, 0x00, 0x63, 0x01, 0x02] (0 + 3) true
                (get_data_func_id [0x00, 0x00, 0x63, 0x01, 0x02] (0 + 2)))
              (fun r => r.elim (Dis.ret none)
                (fun o => if o ≤ ([0x00, 0x00, 0x63, 0x01, 0x02] : Tvb).length
                  then Dis.ret (some o) else Dis.raise))))
      ∧ (¬ (tvb_reported_length_remaining [0x00, 0x00, 0x63, 0x01, 0x02] (0 + 2) > 0
          ∧ get_data_func_id [0x00, 0x00, 0x63, 0x01, 0x02] (0 + 2) ≠ SQLNET_SNS
          ∧ get_data_func_id [0x00, 0x00, 0x63, 0x01, 0x02] (0 + 2) ∈ tns_data_funcs) →
        dissect_tns_data [0x00, 0x00, 0x63, 0x01, 0x02] 0 true
          = Dis.andThen
              ⟨[⟨.subtree, 0, ([0x00, 0x00, 0x63, 0x01, 0x02] : Tvb).length - 0, none,
                  some (.subtree "Data")⟩,
                ⟨.hf_tns_data_flag, 0, 2, tvb_get_ntohs [0x00, 0x00, 0x63, 0x01, 0x02] 0,
                  none⟩], some ()⟩
              (fun _ => Dis.andThen
                (data_switch [0x00, 0x00, 0x63, 0x01, 0x02] (0 + 2) true
                  (get_data_func_id [0x00, 0x00, 0x63, 0x01, 0x02] (0 + 2)))
                (fun r => r.elim (Dis.ret none)
                  (fun o => if o ≤ ([0x00, 0x00, 0x63, 0x01, 0x02] : Tvb).length
                    then Dis.ret (some o) else Dis.raise))))
      ∧ (get_data_func_id [0x00, 0x00, 0x63, 0x01, 0x02] (0 + 2) ∉ tns_data_funcs →
        dissect_tns_data [0x00, 0x00, 0x63, 0x01, 0x02] 0 true
          = ⟨[⟨.subtree, 0, ([0x00, 0x00, 0x63, 0x01, 0x02] : Tvb).length - 0, none,
                some (.subtree "Data")⟩,
              ⟨.hf_tns_data_flag, 0, 2, tvb_get_ntohs [0x00, 0x00, 0x63, 0x01, 0x02] 0, none⟩],
            some (some (0 + 2))⟩)
      ∧ ((get_data_func_id [0x00, 0x00, 0x63, 0x01, 0x02] (0 + 2) ≠ SQLNET_SNS
            ∧ get_data_func_id [0x00, 0x00, 0x63, 0x01, 0x02] (0 + 2) ∈ tns_data_funcs)
          ↔ ((1 ≤ get_data_func_id [0x00, 0x00, 0x63, 0x01, 0x02] (0 + 2)
                ∧ get_data_func_id [0x00, 0x00, 0x63, 0x01, 0x02] (0 + 2) ≤ 19)
            ∨ get_data_func_id [0x00, 0x00, 0x63, 0x01, 0x02] (0 + 2) = 32
            ∨ get_data_func_id [0x00, 0x00, 0x63, 0x01, 0x02] (0 + 2) = 68)))
      ∧ get_data_func_id [0x00, 0x00, 0x63, 0x01, 0x02] 2 = 0x63
      ∧ dissect_tns_data [0x00, 0x00, 0x63, 0x01, 0x02] 0 true
          = ⟨[⟨.subtree, 0, 5, none, some (.subtree "Data")⟩,
              ⟨.hf_tns_data_flag, 0, 2, some 0, none⟩], some (some 2)⟩
      ∧ dissect_tns_data [0x00, 0x00, 0x02, 0x01, 0x02] 0 true
          = ⟨[⟨.subtree, 0, 5, none, some (.subtree "Data")⟩,
              ⟨.hf_tns_data_flag, 0, 2, some 0, none⟩,
              ⟨.hf_tns_data_id, 2, 1, some 2, none⟩], some (some 3)⟩ :=
  ⟨id_byte_consumed_iff_recognized [0x00, 0x00, 0x63, 0x01, 0x02] 0 true (by decide),
    by decide, by decide, by decide⟩

/-! ## Return OPI Parameter without a known shape -/

theorem get_data_func_id_of_byte (tvb : Tvb) (offset b : Nat)
    (hb : tvb_get_guint8 tvb offset = some b) (hde : b ≠ 0xDE) :
    get_data_func_id tvb offset = b := by
  unfold get_data_func_id
  simp only [hb, Option.getD_some]
  have hz : (if tvb_reported_length_remaining tvb offset > 0 then b else 0) ≠ 0xDE := by
    split
    · exact hde
    · decide
  have hc : ¬ ((tvb_bytes_exist tvb offset 4
      && (if tvb_reported_length_remaining tvb offset > 0 then b else 0) == 0xDE
      && tvb_get_guint24 tvb (offset + 1) == some 0xADBEEF) = true) := by
    simp only [Bool.and_eq_true, beq_iff_eq, not_and]
    intro h1
    exact absurd h1.2 hz
  rw [if_neg hc]
  have hlt : offset < tvb.length := by
    simp only [tvb_get_guint8, Option.map_eq_some', List.get?_eq_getElem?] at hb
    obtain ⟨x, hx, _⟩ := hb
    exact (List.getElem?_eq_some_iff.mp hx).1
  rw [if_pos (by unfold tvb_reported_length_remaining; omega)]

theorem opi_detect_none (tvb : Tvb) (offset : Nat)
    (hno : tvb.length < offset + 11
      ∨ (tvb_get_ntohl tvb (offset + 2) ≠ some 0x4f726163
        ∧ tvb_get_ntohl tvb (offset + 3) ≠ some 0x4f726163
        ∧ ∀ p ∈ [0x0000000c41555448, 0x0c0c415554485f53, 0x0000001341555448,
            0x1313415554485f56], tvb_get_ntoh64 tvb (offset + 3) ≠ some p)) :
    opi_detect tvb offset = (0, 0) := by
  unfold opi_detect
  rcases hno with hshort | ⟨h1, h2, h3⟩
  · have hb : ¬ (tvb_bytes_exist tvb offset 11 = true) := by
      unfold tvb_bytes_exist
      simp only [decide_eq_true_eq]
      omega
    rw [if_neg hb]
  · rw [if_neg h1, if_neg h2, if_neg (h3 _ (by simp)), if_neg (h3 _ (by simp)),
      if_neg (h3 _ (by simp)), if_neg (h3 _ (by simp))]
    simp only [ite_self]

/-- C18: a Data payload whose id byte is 8 (Return OPI Parameter), in which fewer
than 11 bytes follow the id byte or none of the six probes matches, yields the
Data subtree, the flag item and the id item only, and the remainder handed on
starts right behind the id byte. -/
theorem opi_unmatched_passthrough (tvb : Tvb) (offset : Nat) (is_request : Bool)
    (hid : tvb_get_guint8 tvb (offset + 2) = some SQLNET_RETURN_OPI_PARAM)
    (hno : tvb.length < offset + 3 + 11
      ∨ (tvb_get_ntohl tvb (offset + 3 + 2) ≠ some 0x4f726163
        ∧ tvb_get_ntohl tvb (offset + 3 + 3) ≠ some 0x4f726163
        ∧ ∀ p ∈ [0x0000000c41555448, 0x0c0c415554485f53, 0x0000001341555448,
            0x1313415554485f56], tvb_get_ntoh64 tvb (offset + 3 + 3) ≠ some p)) :
    dissect_tns_data tvb offset is_request
      = ⟨[⟨.subtree, offset, tvb.length - offset, none, some (.subtree "Data")⟩,
          ⟨.hf_tns_data_flag, offset, 2, tvb_get_ntohs tvb offset, none⟩,
          ⟨.hf_tns_data_id, offset + 2, 1, some SQLNET_RETURN_OPI_PARAM, none⟩],
        some (some (offset + 3))⟩ := by
  have hlt : offset + 2 < tvb.length := by
    simp only [tvb_get_guint8, Option.map_eq_some', List.get?_eq_getElem?] at hid
    obtain ⟨x, hx, _⟩ := hid
    exact (List.getElem?_eq_some_iff.mp hx).1
  obtain ⟨flag, hfl⟩ := tvb_get_ntohs_of_le tvb offset (by omega)
  have hfid : get_data_func_id tvb (offset + 2) = SQLNET_RETURN_OPI_PARAM :=
    get_data_func_id_of_byte tvb (offset + 2) _ hid (by decide)
  have hrec : tvb_reported_length_remaining tvb (offset + 2) > 0
      ∧ get_data_func_id tvb (offset + 2) ≠ SQLNET_SNS
      ∧ get_data_func_id tvb (offset + 2) ∈ tns_data_funcs := by
    rw [hfid]
    refine ⟨?_, by decide, by decide⟩
    unfold tvb_reported_length_remaining
    omega
  have hsw : data_switch tvb (offset + 3) is_request SQLNET_RETURN_OPI_PARAM
      = Dis.ret (some (offset + 3)) := by
    unfold data_switch
    rw [if_neg (by decide), if_neg (by decide), if_pos rfl, opi_detect_none tvb (offset + 3) hno]
    rfl
  have hle : offset + 3 ≤ tvb.length := by omega
  rw [dissect_tns_data_with_id tvb offset is_request flag hfl (by omega) hrec, hfid, hsw, hfl]
  simp only [andThen_mk, ret_andThen, Option.elim, if_pos hle, ret_items, ret_val,
    List.append_nil]

/-- Witness for C18: the payload `00 00 08 01 02 03` has three bytes behind the id
byte; the payload of 14 bytes has eleven, none of the probes matching. -/
theorem opi_unmatched_passthrough_witness :
    dissect_tns_data [0x00, 0x00, 0x08, 0x01, 0x02, 0x03] 0 false
        = ⟨[⟨.subtree, 0, ([0x00, 0x00, 0x08, 0x01, 0x02, 0x03] : Tvb).length - 0, none,
              some (.subtree "Data")⟩,
            ⟨.hf_tns_data_flag, 0, 2, tvb_get_ntohs [0x00, 0x00, 0x08, 0x01, 0x02, 0x03] 0,
              none⟩,
            ⟨.hf_tns_data_id, 0 + 2, 1, some SQLNET_RETURN_OPI_PARAM, none⟩],
          some (some (0 + 3))⟩
      ∧ dissect_tns_data [0x00, 0x00, 0x08, 1, 2, 3, 4, 5, 6, 7, 8, 9, 10, 11] 0 false
        = ⟨[⟨.subtree, 0, 14, none, some (.subtree "Data")⟩,
            ⟨.hf_tns_data_flag, 0, 2, some 0, none⟩,
            ⟨.hf_tns_data_id, 2, 1, some 8, none⟩],
          some (some 3)⟩ :=
  ⟨opi_unmatched_passthrough [0x00, 0x00, 0x08, 0x01, 0x02, 0x03] 0 false (by decide)
      (Or.inl (by decide)),
    by decide⟩

/-! ## Set Protocol -/

theorem drop_add_of_append (tvb : Tvb) (o : Nat) (a b : List UInt8)
    (h : tvb.drop o = a ++ b) : tvb.drop (o + a.length) = b := by
  rw [← List.drop_drop, h, List.drop_left]

theorem length_of_drop_eq (tvb : Tvb) (o : Nat) (l : List UInt8) (h : tvb.drop o = l) :
    tvb.length - o = l.length := by
  rw [← h, List.length_drop]

theorem head_of_drop (tvb : Tvb) (o : Nat) (a : UInt8) (t : List UInt8)
    (h : tvb.drop o = a :: t) :
    tvb_get_guint8 tvb o = some a.toNat ∧ tvb.drop (o + 1) = t := by
  constructor
  · have := tvb_get_guint8_drop tvb o 0
    rw [Nat.add_zero, h] at this
    rw [this]
    rfl
  · exact drop_add_of_append tvb o [a] t h

theorem setp_versions_list (tvb : Tvb) (hf : Hf) :
    ∀ (vs : List UInt8) (offset fuel : Nat) (tail : List UInt8),
      tvb.drop offset = vs ++ 0 :: tail → (∀ v ∈ vs, v ≠ 0) → vs.length < fuel →
      setp_versions tvb hf fuel offset
        = ⟨(vs.enumFrom offset).map (fun p => ⟨hf, p.1, 1, some p.2.toNat, none⟩),
            some (offset + vs.length)⟩ := by
  intro vs
  induction vs with
  | nil =>
    intro offset fuel tail hd _ hfuel
    obtain ⟨hget, _⟩ := head_of_drop tvb offset 0 tail hd
    have e0 : (0 : UInt8).toNat = 0 := rfl
    rw [e0] at hget
    cases fuel with
    | zero => exact absurd hfuel (Nat.lt_irrefl _)
    | succ fuel =>
      rw [setp_versions, hget]
      rfl
  | cons a vs ih =>
    intro offset fuel tail hd hnz hfuel
    obtain ⟨hget, hrest⟩ := head_of_drop tvb offset a (vs ++ 0 :: tail) hd
    have ha : a.toNat ≠ 0 := by
      intro h0
      exact hnz a (List.mem_cons_self a vs) (UInt8.ext h0)
    cases fuel with
    | zero => exact absurd hfuel (Nat.not_lt_zero _)
    | succ fuel =>
      have hrec := ih (offset + 1) fuel tail hrest
        (fun v hv => hnz v (List.mem_cons_of_mem a hv))
        (by simp only [List.length_cons] at hfuel; omega)
      rw [setp_versions, hget]
      simp only [if_neg ha, add_uint_some, andThen_mk, hrec, List.enumFrom_cons, List.map_cons,
        List.singleton_append, List.length_cons]
      congr 2
      omega

theorem tvb_strsize_of_drop (tvb : Tvb) (o : Nat) (s rest : List UInt8)
    (h : tvb.drop o = s ++ 0 :: rest) (hs : ∀ b ∈ s, b ≠ 0) :
    tvb_strsize tvb o = some (s.length + 1) := by
  have hlen := length_of_drop_eq tvb o _ h
  simp only [List.length_append, List.length_cons] at hlen
  have hstr : strlen (tvb.drop o) = s.length := by
    unfold strlen
    rw [h, c_string_append_zero s rest hs]
  unfold tvb_strsize
  rw [if_pos (by omega), hstr, if_pos (by rw [h]; simp)]

/-- C13 (as the code has it): a Set Protocol request at `offset` with flag bytes
`f0 f1`, the id byte 01, the non-zero version bytes `vs`, a zero byte, and a
string `s` of non-zero bytes followed by a zero byte yields, in this order, the
Data subtree, the flag item, the id item, the subtree "Accepted Versions", one
version item per byte of `vs` (none for the terminator) and the client platform
item, which starts right behind the terminator and covers `s` and its zero
byte.  The function returns without handing on a remainder. -/
theorem setp_request_versions (tvb : Tvb) (offset : Nat) (f0 f1 : UInt8)
    (vs s rest : List UInt8)
    (hdrop : tvb.drop offset = f0 :: f1 :: 0x01 :: (vs ++ 0 :: (s ++ 0 :: rest)))
    (hvs : ∀ v ∈ vs, v ≠ 0) (hs : ∀ b ∈ s, b ≠ 0) :
    dissect_tns_data tvb offset true
        = ⟨[⟨.subtree, offset, tvb.length - offset, none, some (.subtree "Data")⟩,
            ⟨.hf_tns_data_flag, offset, 2, tvb_get_ntohs tvb offset, none⟩,
            ⟨.hf_tns_data_id, offset + 2, 1, some SQLNET_SET_PROTOCOL, none⟩,
            ⟨.subtree, offset + 3, tvb.length - (offset + 3), none,
              some (.subtree "Accepted Versions")⟩]
          ++ (vs.enumFrom (offset + 3)).map
              (fun p => ⟨.hf_tns_data_setp_acc_version, p.1, 1, some p.2.toNat, none⟩)
          ++ [⟨.hf_tns_data_setp_cli_plat, offset + 3 + vs.length + 1, s.length + 1, none,
                none⟩],
          some none⟩
      ∧ tvb_get_guint8 tvb (offset + 3 + vs.length) = some 0
      ∧ (tvb.drop (offset + 3 + vs.length + 1)).take s.length = s := by
  have hlen := length_of_drop_eq tvb offset _ hdrop
  simp only [List.length_append, List.length_cons] at hlen
  have hd2 : tvb.drop (offset + 2) = 0x01 :: (vs ++ 0 :: (s ++ 0 :: rest)) :=
    drop_add_of_append tvb offset [f0, f1] _ hdrop
  have hd3 : tvb.drop (offset + 3) = vs ++ 0 :: (s ++ 0 :: rest) :=
    drop_add_of_append tvb offset [f0, f1, 0x01] _ hdrop
  have hdz : tvb.drop (offset + 3 + vs.length) = 0 :: (s ++ 0 :: rest) :=
    drop_add_of_append tvb (offset + 3) vs _ hd3
  have hds : tvb.drop (offset + 3 + vs.length + 1) = s ++ 0 :: rest :=
    (head_of_drop tvb _ 0 _ hdz).2
  have hzero : tvb_get_guint8 tvb (offset + 3 + vs.length) = some 0 :=
    (head_of_drop tvb _ 0 _ hdz).1
  refine ⟨?_, hzero, ?_⟩
  · obtain ⟨flag, hfl⟩ := tvb_get_ntohs_of_le tvb offset (by omega)
    have hb : tvb_get_guint8 tvb (offset + 2) = some SQLNET_SET_PROTOCOL :=
      (head_of_drop tvb _ 0x01 _ hd2).1
    have hfid : get_data_func_id tvb (offset + 2) = SQLNET_SET_PROTOCOL :=
      get_data_func_id_of_byte tvb (offset + 2) _ hb (by decide)
    have hrec : tvb_reported_length_remaining tvb (offset + 2) > 0
        ∧ get_data_func_id tvb (offset + 2) ≠ SQLNET_SNS
        ∧ get_data_func_id tvb (offset + 2) ∈ tns_data_funcs := by
      rw [hfid]
      refine ⟨?_, by decide, by decide⟩
      unfold tvb_reported_length_remaining
      omega
    have hvers := setp_versions_list tvb .hf_tns_data_setp_acc_version vs (offset + 3)
      (tvb_reported_length_remaining tvb (offset + 3) + 1) (s ++ 0 :: rest) hd3 hvs
      (by unfold tvb_reported_length_remaining; omega)
    have hstr := tvb_strsize_of_drop tvb (offset + 3 + vs.length + 1) s rest hds hs
    have hsw : data_switch tvb (offset + 3) true SQLNET_SET_PROTOCOL
        = ⟨⟨.subtree, offset + 3, tvb.length - (offset + 3), none,
              some (.subtree "Accepted Versions")⟩
            :: ((vs.enumFrom (offset + 3)).map
              (fun p => ⟨.hf_tns_data_setp_acc_version, p.1, 1, some p.2.toNat, none⟩)
            ++ [⟨.hf_tns_data_setp_cli_plat, offset + 3 + vs.length + 1, s.length + 1, none,
                  none⟩]),
          some none⟩ := by
      unfold data_switch
      rw [if_pos rfl, if_pos rfl]
      simp only [dis_bind_eq, dis_pure_eq,
        data_subtree_of_lt tvb (offset + 3) "Accepted Versions" (by omega), hvers,
        proto_tree_add_stringz, hstr, andThen_mk, ret_items, ret_val, List.append_nil,
        List.singleton_append]
    rw [dissect_tns_data_with_id tvb offset true flag hfl (by omega) hrec, hfid, hsw, hfl]
    simp only [andThen_mk, Option.elim, ret_items, ret_val, List.append_nil, List.cons_append,
      List.nil_append, List.append_assoc]
  · rw [hds, List.take_left]

/-- C13, witness: `setp_sample`, the request `01 02 03 00 "linux" 00` behind the
flag word and the id byte, yields the versions 1, 2, 3 and the platform item over
`linux` and its zero byte. -/
theorem setp_request_versions_witness :
    dissect_tns_data setp_sample 0 true
        = ⟨[⟨.subtree, 0, 13, none, some (.subtree "Data")⟩,
            ⟨.hf_tns_data_flag, 0, 2, some 0, none⟩,
            ⟨.hf_tns_data_id, 2, 1, some 1, none⟩,
            ⟨.subtree, 3, 10, none, some (.subtree "Accepted Versions")⟩,
            ⟨.hf_tns_data_setp_acc_version, 3, 1, some 1, none⟩,
            ⟨.hf_tns_data_setp_acc_version, 4, 1, some 2, none⟩,
            ⟨.hf_tns_data_setp_acc_version, 5, 1, some 3, none⟩,
            ⟨.hf_tns_data_setp_cli_plat, 7, 6, none, none⟩],
          some none⟩
      ∧ tvb_get_guint8 setp_sample 6 = some 0
      ∧ (setp_sample.drop 7).take 5 = [0x6c, 0x69, 0x6e, 0x75, 0x78] :=
  setp_request_versions setp_sample 0 0x00 0x00 [0x01, 0x02, 0x03]
    [0x6c, 0x69, 0x6e, 0x75, 0x78] [] rfl (by decide) (by decide)

/-- C13, counterexample: the request `01 02 03 00 "linux"` with nothing behind the
last letter (here behind the flag word `00 00` and the id byte `01`).  The three
version items are emitted, but no client platform item: the string has no
terminating zero byte in the buffer and reading it raises the bounds
exception. -/
theorem setp_platform_unterminated_counterexample :
    dissect_tns_data [0x00, 0x00, 0x01, 0x01, 0x02, 0x03, 0x00, 0x6c, 0x69, 0x6e, 0x75, 0x78]
        0 true
      = ⟨[⟨.subtree, 0, 12, none, some (.subtree "Data")⟩,
          ⟨.hf_tns_data_flag, 0, 2, some 0, none⟩,
          ⟨.hf_tns_data_id, 2, 1, some 1, none⟩,
          ⟨.subtree, 3, 9, none, some (.subtree "Accepted Versions")⟩,
          ⟨.hf_tns_data_setp_acc_version, 3, 1, some 1, none⟩,
          ⟨.hf_tns_data_setp_acc_version, 4, 1, some 2, none⟩,
          ⟨.hf_tns_data_setp_acc_version, 5, 1, some 3, none⟩],
        none⟩ := by
  decide

/-! ## Framing -/

theorem tcp_dissect_pdus_short_length (tvb : Tvb) (fixed_len : Nat) (get_pdu_len : PduLenFn)
    (fuel offset plen : Nat)
    (hcap : fixed_len ≤ tvb_reported_length_remaining tvb offset)
    (hlen : get_pdu_len.call tvb offset = some plen) (h0 : 0 < plen) (hlt : plen < fixed_len) :
    tcp_dissect_pdus tvb fixed_len get_pdu_len (fuel + 1) offset
      = ⟨[], .bounds_error offset⟩ := by
  rw [tcp_dissect_pdus, if_pos (by omega)]
  simp only [if_neg (Nat.not_lt.mpr hcap), hlen, if_neg (Nat.pos_iff_ne_zero.mp h0), if_pos hlt]

theorem tcp_dissect_pdus_lengths (tvb : Tvb) (fixed_len : Nat) (get_pdu_len : PduLenFn) :
    ∀ (fuel offset : Nat), ∀ pdu ∈ (tcp_dissect_pdus tvb fixed_len get_pdu_len fuel offset).pdus,
      fixed_len ≤ pdu.length := by
  intro fuel
  induction fuel with
  | zero =>
    intro offset pdu hp
    simp [tcp_dissect_pdus] at hp
  | succ fuel ih =>
    intro offset pdu hp
    rw [tcp_dissect_pdus] at hp
    split at hp
    · dsimp only at hp
      split at hp
      · simp at hp
      · split at hp
        · simp at hp
        · rename_i plen hcall
          split at hp
          · simp at hp
          · split at hp
            · simp at hp
            · split at hp
              · simp at hp
              · rename_i hfix hcap
                simp only [List.mem_cons] at hp
                rcases hp with rfl | hp
                · rw [List.length_take, List.length_drop]
                  unfold tvb_reported_length_remaining at hcap
                  omega
                · exact ih _ pdu hp
    · simp at hp

theorem dissect_tns_fixed_len (tvb : Tvb) (fixed_len : Nat) (get_pdu_len : PduLenFn)
    (ret : Nat) (h : dissect_tns tvb = .framed fixed_len get_pdu_len ret) :
    (fixed_len = 2 ∨ fixed_len = 4) ∧ 4 ≤ tvb.length := by
  cases hck : tvb_get_ntohs tvb 2 with
  | none =>
    simp only [dissect_tns, hck] at h
    split_ifs at h
  | some chksum =>
    have hlen : 4 ≤ tvb.length := by
      by_contra hc
      have h3 : tvb_get_guint8 tvb (2 + 1) = none := by
        simp only [tvb_get_guint8, Option.map_eq_none', List.get?_eq_getElem?]
        exact List.getElem?_eq_none (by omega)
      unfold tvb_get_ntohs at hck
      rw [h3] at hck
      cases h2 : tvb_get_guint8 tvb 2 <;> rw [h2] at hck <;> exact absurd hck (by simp)
    simp only [dissect_tns, hck] at h
    split_ifs at h <;> simp only [TnsOutcome.framed.injEq] at h <;> exact ⟨by omega, hlen⟩

theorem tcp_dissect_pdus_zero_length (tvb : Tvb) (fixed_len : Nat) (get_pdu_len : PduLenFn)
    (fuel offset : Nat) (hpos : offset < tvb.length)
    (hcap : offset + fixed_len ≤ tvb.length)
    (hcall : get_pdu_len.call tvb offset = some 0) :
    tcp_dissect_pdus tvb fixed_len get_pdu_len (fuel + 1) offset
      = ⟨[], .need_more offset none⟩ := by
  have hrem : tvb_reported_length_remaining tvb offset = tvb.length - offset := rfl
  rw [tcp_dissect_pdus, if_pos (by omega)]
  simp only [hcall]
  rw [if_neg (by omega), if_pos trivial]

/-- C19 (as the code has it): when `dissect_tns` frames a stream, the length it
hands to `tcp_dissect_pdus` as `fixed_len` is the width of the length field, 2 or
4, not the size of the header.  A declared length that is not 0 and is smaller
than this width stops the framing with a bounds error, at the start of the
stream and at any later packet, and nothing is handed to `dissect_tns_pdu` from
there on.  A declared length of 0 stops the framing as well, at the start of the
stream and at any later packet: it asks for one more segment at the offset of
that packet and hands nothing to `dissect_tns_pdu` from there on.  Every packet
that is handed to `dissect_tns_pdu` has at least `fixed_len` bytes. -/
theorem declared_length_below_width_rejected (tvb : Tvb) (fixed_len : Nat)
    (get_pdu_len : PduLenFn) (ret : Nat)
    (hfr : dissect_tns tvb = .framed fixed_len get_pdu_len ret) :
    (fixed_len = 2 ∨ fixed_len = 4)
      ∧ (∀ plen, get_pdu_len.call tvb 0 = some plen → 0 < plen → plen < fixed_len →
          dissect_tns_pdus tvb = ⟨[], .bounds_error 0⟩)
      ∧ (∀ fuel offset plen, fixed_len ≤ tvb_reported_length_remaining tvb offset →
          get_pdu_len.call tvb offset = some plen → 0 < plen → plen < fixed_len →
          tcp_dissect_pdus tvb fixed_len get_pdu_len (fuel + 1) offset
            = ⟨[], .bounds_error offset⟩)
      ∧ (get_pdu_len.call tvb 0 = some 0 → dissect_tns_pdus tvb = ⟨[], .need_more 0 none⟩)
      ∧ (∀ fuel offset, fixed_len ≤ tvb_reported_length_remaining tvb offset →
          get_pdu_len.call tvb offset = some 0 →
          tcp_dissect_pdus tvb fixed_len get_pdu_len (fuel + 1) offset
            = ⟨[], .need_more offset none⟩)
      ∧ ∀ pdu ∈ (dissect_tns_pdus tvb).pdus, fixed_len ≤ pdu.length := by
  obtain ⟨hfl, hlen⟩ := dissect_tns_fixed_len tvb fixed_len get_pdu_len ret hfr
  have hpd : dissect_tns_pdus tvb
      = tcp_dissect_pdus tvb fixed_len get_pdu_len (tvb.length + 1) 0 := by
    unfold dissect_tns_pdus
    rw [hfr]
  refine ⟨hfl, ?_, ?_, ?_, ?_, ?_⟩
  · intro plen hcall h0 hlt
    rw [hpd]
    exact tcp_dissect_pdus_short_length tvb fixed_len get_pdu_len tvb.length 0 plen
      (by unfold tvb_reported_length_remaining; omega) hcall h0 hlt
  · intro fuel offset plen hcap hcall h0 hlt
    exact tcp_dissect_pdus_short_length tvb fixed_len get_pdu_len fuel offset plen hcap hcall
      h0 hlt
  · intro hcall
    rw [hpd]
    exact tcp_dissect_pdus_zero_length tvb fixed_len get_pdu_len tvb.length 0 (by omega)
      (by omega) hcall
  · intro fuel offset hcap hcall
    unfold tvb_reported_length_remaining at hcap
    exact tcp_dissect_pdus_zero_length tvb fixed_len get_pdu_len fuel offset (by omega)
      (by omega) hcall
  · rw [hpd]
    exact tcp_dissect_pdus_lengths tvb fixed_len get_pdu_len _ _

/-- C19, witness: the stream `00 01 00 00 06` declares the length 1; it is framed
with the 2-byte length field and stopped with a bounds error.  The stream
`pdu_sample_zero_length` declares the length 0; the framing asks for one more
segment at offset 0 and no packet is handed on. -/
theorem declared_length_below_width_rejected_witness :
    ((2 = 2 ∨ 2 = 4)
      ∧ (∀ plen, PduLenFn.get_tns_pdu_len.call [0x00, 0x01, 0x00, 0x00, 0x06] 0 = some plen →
          0 < plen → plen < 2 →
          dissect_tns_pdus [0x00, 0x01, 0x00, 0x00, 0x06] = ⟨[], .bounds_error 0⟩)
      ∧ (∀ fuel offset plen,
          2 ≤ tvb_reported_length_remaining [0x00, 0x01, 0x00, 0x00, 0x06] offset →
          PduLenFn.get_tns_pdu_len.call [0x00, 0x01, 0x00, 0x00, 0x06] offset = some plen →
          0 < plen → plen < 2 →
          tcp_dissect_pdus [0x00, 0x01, 0x00, 0x00, 0x06] 2 .get_tns_pdu_len (fuel + 1) offset
            = ⟨[], .bounds_error offset⟩)
      ∧ (PduLenFn.get_tns_pdu_len.call [0x00, 0x01, 0x00, 0x00, 0x06] 0 = some 0 →
          dissect_tns_pdus [0x00, 0x01, 0x00, 0x00, 0x06] = ⟨[], .need_more 0 none⟩)
      ∧ (∀ fuel offset,
          2 ≤ tvb_reported_length_remaining [0x00, 0x01, 0x00, 0x00, 0x06] offset →
          PduLenFn.get_tns_pdu_len.call [0x00, 0x01, 0x00, 0x00, 0x06] offset = some 0 →
          tcp_dissect_pdus [0x00, 0x01, 0x00, 0x00, 0x06] 2 .get_tns_pdu_len (fuel + 1) offset
            = ⟨[], .need_more offset none⟩)
      ∧ ∀ pdu ∈ (dissect_tns_pdus [0x00, 0x01, 0x00, 0x00, 0x06]).pdus, 2 ≤ pdu.length)
      ∧ PduLenFn.get_tns_pdu_len.call [0x00, 0x01, 0x00, 0x00, 0x06] 0 = some 1
      ∧ dissect_tns_pdus [0x00, 0x01, 0x00, 0x00, 0x06] = ⟨[], .bounds_error 0⟩
      ∧ dissect_tns pdu_sample_zero_length = .framed 2 .get_tns_pdu_len 10
      ∧ PduLenFn.get_tns_pdu_len.call pdu_sample_zero_length 0 = some 0
      ∧ dissect_tns_pdus pdu_sample_zero_length = ⟨[], .need_more 0 none⟩
      ∧ (dissect_tns_pdus pdu_sample_zero_length).pdus = [] :=
  ⟨declared_length_below_width_rejected [0x00, 0x01, 0x00, 0x00, 0x06] 2 .get_tns_pdu_len 5
      (by decide),
    by decide, by decide, by decide, by decide,
    (declared_length_below_width_rejected pdu_sample_zero_length 2 .get_tns_pdu_len 10
      (by decide)).2.2.2.1 (by decide),
    by decide⟩

/-- C19, counterexample: the stream `00 05 00 00 06` declares the length 5, less
than the 8 bytes of the header.  It is framed as one packet and handed to
`dissect_tns_pdu`, which adds the length, checksum and type items before the
read of the rest of the header raises the bounds exception. -/
theorem declared_length_below_header_counterexample :
    dissect_tns [0x00, 0x05, 0x00, 0x00, 0x06] = .framed 2 .get_tns_pdu_len 5
      ∧ PduLenFn.get_tns_pdu_len.call [0x00, 0x05, 0x00, 0x00, 0x06] 0 = some 5
      ∧ dissect_tns_pdus [0x00, 0x05, 0x00, 0x00, 0x06]
          = ⟨[[0x00, 0x05, 0x00, 0x00, 0x06]], .done⟩
      ∧ dissect_tns_pdu [0x00, 0x05, 0x00, 0x00, 0x06] true
          = ⟨[⟨.proto_tns, 0, 5, none, none⟩,
              ⟨.hf_tns_request, 0, 0, none, none⟩,
              ⟨.hf_tns_length, 0, 2, some 5, none⟩,
              ⟨.hf_tns_packet_checksum, 2, 2, some 0, none⟩,
              ⟨.hf_tns_packet_type, 4, 1, some 6, none⟩], none⟩ := by
  decide

/-! ## Fragments shorter than four bytes -/

/-- C14: on a buffer of fewer than four bytes, such as a first fragment that ends
inside the checksum field, `dissect_tns` does not ask for more data: the read
`tvb_get_ntohs(tvb, 2)` raises the bounds exception before `tcp_dissect_pdus` is
called, and no packet is framed. -/
theorem short_first_fragment_raises (tvb : Tvb) (h : tvb.length < 4) :
    dissect_tns tvb = .bounds_error ∧ dissect_tns_pdus tvb = ⟨[], .raised 2⟩ := by
  have hb : tvb_bytes_exist tvb 4 1 = false := by
    unfold tvb_bytes_exist
    simp only [decide_eq_false_iff_not]
    omega
  have h3 : tvb_get_guint8 tvb (2 + 1) = none := by
    simp only [tvb_get_guint8, Option.map_eq_none', List.get?_eq_getElem?]
    exact List.getElem?_eq_none (by omega)
  have hck : tvb_get_ntohs tvb 2 = none := by
    unfold tvb_get_ntohs
    rw [h3]
    cases tvb_get_guint8 tvb 2 <;> rfl
  have hd : dissect_tns tvb = .bounds_error := by
    simp only [dissect_tns, hb, hck]
    rfl
  refine ⟨hd, ?_⟩
  unfold dissect_tns_pdus
  rw [hd]

/-- C14, witness: the packet `00 0A 00 00 06 00 00 00 00 00` fed whole is framed
as one packet; its first three bytes fed alone raise the exception, and the seven
bytes left are then declined as not TNS. -/
theorem short_first_fragment_raises_witness :
    (dissect_tns [0x00, 0x0a, 0x00] = .bounds_error
      ∧ dissect_tns_pdus [0x00, 0x0a, 0x00] = ⟨[], .raised 2⟩)
      ∧ dissect_tns_pdus [0x00, 0x0a, 0x00, 0x00, 0x06, 0x00, 0x00, 0x00, 0x00, 0x00]
          = ⟨[[0x00, 0x0a, 0x00, 0x00, 0x06, 0x00, 0x00, 0x00, 0x00, 0x00]], .done⟩
      ∧ dissect_tns_pdus [0x00, 0x0a, 0x00, 0x00]
          = ⟨[], .need_more 0 (some 6)⟩
      ∧ dissect_tns [0x00, 0x06, 0x00, 0x00, 0x00, 0x00, 0x00] = .not_tns :=
  ⟨short_first_fragment_raises [0x00, 0x0a, 0x00] (by decide), by decide, by decide,
    by decide⟩

/-! ## The statement header behind `stmt_byte1` -/

theorem read_some_andThen {α β : Type} (a : α) (f : α → Dis β) :
    Dis.andThen (Dis.read (some a)) f = f a := by
  simp only [Dis.read, andThen_mk, List.nil_append]

theorem sql_header_rest_split (tvb : Tvb) (q : Nat) (pttci : ttci_packet_t) :
    sql_header_rest tvb q pttci
      = Dis.andThen (Dis.read (tvb_get_guint8 tvb q)) (fun stmt_byte2 =>
          Dis.andThen (Dis.read (tvb_get_guint8 tvb (q + 1))) (fun stmt_byte3 =>
            Dis.andThen (Dis.read (tvb_get_ntohs tvb (q + 1 + 1))) (fun stmt_sign1 =>
              Dis.andThen (Dis.read (tvb_get_guint8 tvb (q + 1 + 1 + 2))) (fun stmt_sign2 =>
                Dis.andThen
                  (sql_header_sign tvb (q + 1 + 1 + 2 + 1)
                    { pttci with stmt_byte2 := stmt_byte2, stmt_byte3 := stmt_byte3,
                                 stmt_sign1 := stmt_sign1, stmt_sign2 := stmt_sign2 })
                  (fun r => sql_header_tail tvb r.2 r.1))))) := by
  unfold sql_header_rest sql_header_sign sql_header_tail
  rfl

theorem sql_header_sign_select (tvb : Tvb) (p : Nat) (pttci : ttci_packet_t)
    (d u4 u5 : Nat) (hs : pttci.stmt_sign1 = 0 ∧ pttci.stmt_sign2 = 0x04)
    (hd : tvb_get_guint8 tvb p = some d) (h4 : tvb_get_guint8 tvb (p + 1) = some u4)
    (h5 : tvb_get_ntohs tvb (p + 1 + 1) = some u5) :
    sql_header_sign tvb p pttci
      = ⟨[⟨.hf_tns_data_ttic_data_direction, p, 1, some d, none⟩],
          some ({ pttci with data_direction := d, unknown_4 := u4, unknown_5 := u5 }, p + 4)⟩ := by
  unfold sql_header_sign
  rw [if_pos hs]
  simp only [dis_bind_eq, dis_pure_eq, hd, h4, h5, add_uint_some, andThen_mk, read_some_andThen,
    ret_items, ret_val, List.append_nil]

theorem sql_header_sign_dml (tvb : Tvb) (p : Nat) (pttci : ttci_packet_t)
    (d u4 u5 : Nat) (hs : pttci.stmt_sign1 = 0 ∧ pttci.stmt_sign2 = 0)
    (hd : tvb_get_guint8 tvb (p + 2) = some d) (h4 : tvb_get_guint8 tvb (p + 2 + 1) = some u4)
    (h5 : tvb_get_ntohs tvb (p + 2 + 1 + 1) = some u5) :
    sql_header_sign tvb p pttci
      = ⟨[⟨.hf_tns_data_ttic_data_direction, p + 2, 1, some d, none⟩],
          some ({ pttci with data_direction := d, unknown_4 := u4, unknown_5 := u5 }, p + 6)⟩ := by
  unfold sql_header_sign
  have hn : ¬ (pttci.stmt_sign1 = 0 ∧ pttci.stmt_sign2 = 0x04) := by
    intro h
    rw [hs.2] at h
    exact absurd h.2 (by decide)
  rw [if_neg hn, if_pos hs]
  simp only [dis_bind_eq, dis_pure_eq, hd, h4, h5, add_uint_some, andThen_mk, read_some_andThen,
    ret_items, ret_val, List.append_nil]

theorem sql_header_sign_other (tvb : Tvb) (p : Nat) (pttci : ttci_packet_t)
    (hs : ¬ (pttci.stmt_sign1 = 0 ∧ (pttci.stmt_sign2 = 0x04 ∨ pttci.stmt_sign2 = 0))) :
    sql_header_sign tvb p pttci = ⟨[], some (pttci, p)⟩ := by
  unfold sql_header_sign
  rw [if_neg (fun h => hs ⟨h.1, Or.inl h.2⟩), if_neg (fun h => hs ⟨h.1, Or.inr h.2⟩)]
  rfl

/-- The end of the header, evaluated: statement flags other than 0x0A. -/
theorem sql_header_tail_plain (tvb : Tvb) (o : Nat) (pttci : ttci_packet_t)
    (b4 fl pc u6 u7 : Nat) (hb4 : tvb_get_guint8 tvb o = some b4)
    (hfl : tvb_get_guint8 tvb (o + 1) = some fl) (hpc : tvb_get_guint8 tvb (o + 1 + 1) = some pc)
    (hu6 : tvb_get_ntohs tvb (o + 1 + 1 + 1) = some u6)
    (hu7 : tvb_get_ntohs tvb (o + 1 + 1 + 1 + 2) = some u7) (hne : fl ≠ 0x0a) :
    sql_header_tail tvb o pttci
      = ⟨[⟨.hf_tns_data_ttic_param_count, o + 1 + 1, 1, some pc, none⟩],
          some (o + 7, { pttci with stmt_byte4 := b4, stmt_flags := fl, param_count := pc,
                                     unknown_6 := u6, unknown_7 := u7 })⟩ := by
  unfold sql_header_tail
  simp only [dis_bind_eq, dis_pure_eq, hb4, hfl, hpc, hu6, hu7, if_neg hne, add_uint_some,
    andThen_mk, read_some_andThen, ret_andThen, ret_items, ret_val, List.append_nil]

/-- The end of the header, evaluated: statement flags 0x0A. -/
theorem sql_header_tail_select (tvb : Tvb) (o : Nat) (pttci : ttci_packet_t)
    (b4 pc u6 u7 s1 s2 pc2 : Nat) (hb4 : tvb_get_guint8 tvb o = some b4)
    (hfl : tvb_get_guint8 tvb (o + 1) = some 0x0a)
    (hpc : tvb_get_guint8 tvb (o + 1 + 1) = some pc)
    (hu6 : tvb_get_ntohs tvb (o + 1 + 1 + 1) = some u6)
    (hu7 : tvb_get_ntohs tvb (o + 1 + 1 + 1 + 2) = some u7)
    (hs1 : tvb_get_guint8 tvb (o + 1 + 1 + 1 + 2 + 2) = some s1)
    (hs2 : tvb_get_guint8 tvb (o + 1 + 1 + 1 + 2 + 2 + 1) = some s2)
    (hpc2 : tvb_get_guint8 tvb (o + 1 + 1 + 1 + 2 + 2 + 1 + 1) = some pc2) :
    sql_header_tail tvb o pttci
      = ⟨[⟨.hf_tns_data_ttic_param_count, o + 1 + 8, 1, some pc2, none⟩],
          some (o + 10, { pttci with stmt_byte4 := b4, stmt_flags := 0x0a, param_count := pc2,
                                      unknown_6 := u6, unknown_7 := u7, stmt_sel_unk1 := s1,
                                      stmt_sel_unk2 := s2 })⟩ := by
  unfold sql_header_tail
  simp only [dis_bind_eq, dis_pure_eq, hb4, hfl, hpc, hu6, hu7, hs1, hs2, hpc2, if_true,
    add_uint_some, andThen_mk, read_some_andThen, ret_andThen, ret_items, ret_val,
    List.append_nil]

theorem sql_header_tail_keeps (tvb : Tvb) (o : Nat) (pttci : ttci_packet_t)
    (o1 : Nat) (p1 : ttci_packet_t) (h : (sql_header_tail tvb o pttci).val = some (o1, p1)) :
    p1.data_direction = pttci.data_direction := by
  simp only [sql_header_tail, dis_bind_eq, dis_pure_eq, andThen_val, read_val, add_uint_val,
    ret_val, Option.bind_eq_some] at h
  obtain ⟨b4, hb4, fl, hfl, pc, hpc, u6, hu6, u7, hu7, y, hy, z, hz, h⟩ := h
  have hy1 : y.1.data_direction = pttci.data_direction := by
    split at hy
    · simp only [andThen_val, read_val, ret_val, Option.bind_eq_some, Option.some.injEq] at hy
      obtain ⟨_, _, _, _, _, _, rfl⟩ := hy
      rfl
    · simp only [ret_val, Option.some.injEq] at hy
      subst hy
      rfl
  simp only [Option.some.injEq, Prod.mk.injEq] at h
  obtain ⟨_, rfl⟩ := h
  exact hy1

/-- C21: let `stmt_byte2`, `stmt_byte3`, `stmt_sign1` (`s1`) and `stmt_sign2` (`s2`)
be read at `q`, `q + 1`, `q + 2` and `q + 4`, so that `p = q + 5` is the offset
right after `stmt_sign2`.  The header goes on with the block on the two sign
fields and then with the read of `stmt_byte4`.  For `s1 = 0`, `s2 = 0x04` the
block takes the data direction from `p`, the two unknown fields from `p + 1` and
`p + 2`, and ends at `p + 4`.  For `s1 = 0`, `s2 = 0` it takes them from `p + 2`,
`p + 3`, `p + 4` and ends at `p + 6`.  For every other pair it reads nothing,
adds no item and ends at `p`; the data direction of the context is then the one
on entry, and when that is 0 the statement part returns at once. -/
theorem sign_block_direction (tvb : Tvb) (q : Nat) (pttci : ttci_packet_t)
    (b2 b3 s1 s2 : Nat)
    (h2 : tvb_get_guint8 tvb q = some b2) (h3 : tvb_get_guint8 tvb (q + 1) = some b3)
    (hs1 : tvb_get_ntohs tvb (q + 2) = some s1) (hs2 : tvb_get_guint8 tvb (q + 4) = some s2) :
    sql_header_rest tvb q pttci
        = Dis.andThen
            (sql_header_sign tvb (q + 5)
              { pttci with stmt_byte2 := b2, stmt_byte3 := b3, stmt_sign1 := s1,
                           stmt_sign2 := s2 })
            (fun r => sql_header_tail tvb r.2 r.1)
      ∧ (s1 = 0 ∧ s2 = 0x04 → ∀ d u4 u5, tvb_get_guint8 tvb (q + 5) = some d →
          tvb_get_guint8 tvb (q + 5 + 1) = some u4 → tvb_get_ntohs tvb (q + 5 + 2) = some u5 →
          sql_header_sign tvb (q + 5)
              { pttci with stmt_byte2 := b2, stmt_byte3 := b3, stmt_sign1 := s1,
                           stmt_sign2 := s2 }
            = ⟨[⟨.hf_tns_data_ttic_data_direction, q + 5, 1, some d, none⟩],
                some ({ pttci with stmt_byte2 := b2, stmt_byte3 := b3, stmt_sign1 := s1,
                                   stmt_sign2 := s2, data_direction := d, unknown_4 := u4,
                                   unknown_5 := u5 }, q + 5 + 4)⟩)
      ∧ (s1 = 0 ∧ s2 = 0 → ∀ d u4 u5, tvb_get_guint8 tvb (q + 5 + 2) = some d →
          tvb_get_guint8 tvb (q + 5 + 3) = some u4 → tvb_get_ntohs tvb (q + 5 + 4) = some u5 →
          sql_header_sign tvb (q + 5)
              { pttci with stmt_byte2 := b2, stmt_byte3 := b3, stmt_sign1 := s1,
                           stmt_sign2 := s2 }
            = ⟨[⟨.hf_tns_data_ttic_data_direction, q + 5 + 2, 1, some d, none⟩],
                some ({ pttci with stmt_byte2 := b2, stmt_byte3 := b3, stmt_sign1 := s1,
                                   stmt_sign2 := s2, data_direction := d, unknown_4 := u4,
                                   unknown_5 := u5 }, q + 5 + 6)⟩)
      ∧ (¬ (s1 = 0 ∧ (s2 = 0x04 ∨ s2 = 0)) →
          sql_header_sign tvb (q + 5)
              { pttci with stmt_byte2 := b2, stmt_byte3 := b3, stmt_sign1 := s1,
                           stmt_sign2 := s2 }
            = ⟨[], some ({ pttci with stmt_byte2 := b2, stmt_byte3 := b3, stmt_sign1 := s1,
                                      stmt_sign2 := s2 }, q + 5)⟩
          ∧ ∀ o1 p1, (sql_header_rest tvb q pttci).val = some (o1, p1) →
              p1.data_direction = pttci.data_direction
                ∧ (pttci.data_direction = 0 → sql_statement tvb o1 p1 = Dis.ret (.ret o1))) := by
  have hsplit : sql_header_rest tvb q pttci
      = Dis.andThen
          (sql_header_sign tvb (q + 5)
            { pttci with stmt_byte2 := b2, stmt_byte3 := b3, stmt_sign1 := s1,
                         stmt_sign2 := s2 })
          (fun r => sql_header_tail tvb r.2 r.1) := by
    rw [sql_header_rest_split, h2, h3, hs1, hs2]
    simp only [read_some_andThen]
  refine ⟨hsplit, ?_, ?_, ?_⟩
  · intro hs d u4 u5 hd h4 h5
    exact sql_header_sign_select tvb (q + 5) _ d u4 u5 hs hd h4 h5
  · intro hs d u4 u5 hd h4 h5
    exact sql_header_sign_dml tvb (q + 5) _ d u4 u5 hs hd h4 h5
  · intro hs
    have hother := sql_header_sign_other tvb (q + 5)
      { pttci with stmt_byte2 := b2, stmt_byte3 := b3, stmt_sign1 := s1, stmt_sign2 := s2 } hs
    refine ⟨hother, ?_⟩
    intro o1 p1 hv
    rw [hsplit, hother, andThen_mk] at hv
    have hk := sql_header_tail_keeps tvb (q + 5) _ o1 p1 hv
    refine ⟨hk, ?_⟩
    intro h0
    have hd0 : p1.data_direction = 0 := by rw [hk]; exact h0
    exact sql_statement_invalid tvb o1 p1 (by rw [hd0]; decide) (by rw [hd0]; decide)

/-- Witness for C21 on `sql_sample_dml`: `stmt_byte2` is at offset 5, the sign
fields are 0 and 0, and the data direction 0xFF is taken from offset 12, two
bytes behind the offset 10 that follows `stmt_sign2`; the block ends at 16. -/
theorem sign_block_direction_witness :
    (tvb_get_guint8 sql_sample_dml 5 = some 1 ∧ tvb_get_guint8 sql_sample_dml (5 + 1) = some 13
        ∧ tvb_get_ntohs sql_sample_dml (5 + 2) = some 0
        ∧ tvb_get_guint8 sql_sample_dml (5 + 4) = some 0)
      ∧ sql_header_sign sql_sample_dml 10
            { ttci_packet_zero with stmt_byte2 := 1, stmt_byte3 := 13, stmt_sign1 := 0,
                                    stmt_sign2 := 0 }
          = ⟨[⟨.hf_tns_data_ttic_data_direction, 12, 1, some 255, none⟩],
              some ({ ttci_packet_zero with stmt_byte2 := 1, stmt_byte3 := 13, stmt_sign1 := 0,
                                            stmt_sign2 := 0, data_direction := 255,
                                            unknown_4 := 17, unknown_5 := 8755 }, 16)⟩ :=
  ⟨⟨by decide, by decide, by decide, by decide⟩,
    (sign_block_direction sql_sample_dml 5 ttci_packet_zero 1 13 0 0 (by decide) (by decide)
      (by decide) (by decide)).2.2.1 ⟨rfl, rfl⟩ 255 17 8755 (by decide) (by decide)
      (by decide)⟩

/-- C22: let `stmt_byte4` be read at `o`, so that `f = o + 1` is the offset of
`stmt_flags`, and let the two 16-bit fields behind the byte at `f + 1` be in the
buffer.  When `stmt_flags` is not 0x0A, the parameter count is the byte at
`f + 1`, the parameter-count item sits on that byte and the header ends at
`f + 6`.  When `stmt_flags` is 0x0A, the two bytes at `f + 6` and `f + 7` are
stored, the parameter count is the byte at `f + 8`, whatever the byte at `f + 1`
is, the item sits at `f + 8` and the header ends at `f + 9`. -/
theorem param_count_anchor (tvb : Tvb) (o : Nat) (pttci : ttci_packet_t)
    (b4 fl pc u6 u7 : Nat) (hb4 : tvb_get_guint8 tvb o = some b4)
    (hfl : tvb_get_guint8 tvb (o + 1) = some fl)
    (hpc : tvb_get_guint8 tvb (o + 1 + 1) = some pc)
    (hu6 : tvb_get_ntohs tvb (o + 1 + 2) = some u6)
    (hu7 : tvb_get_ntohs tvb (o + 1 + 4) = some u7) :
    (fl ≠ 0x0a →
        sql_header_tail tvb o pttci
          = ⟨[⟨.hf_tns_data_ttic_param_count, o + 1 + 1, 1, some pc, none⟩],
              some (o + 1 + 6, { pttci with stmt_byte4 := b4, stmt_flags := fl,
                                            param_count := pc, unknown_6 := u6,
                                            unknown_7 := u7 })⟩)
      ∧ (fl = 0x0a → ∀ su1 su2 pc2, tvb_get_guint8 tvb (o + 1 + 6) = some su1 →
          tvb_get_guint8 tvb (o + 1 + 7) = some su2 →
          tvb_get_guint8 tvb (o + 1 + 8) = some pc2 →
          sql_header_tail tvb o pttci
            = ⟨[⟨.hf_tns_data_ttic_param_count, o + 1 + 8, 1, some pc2, none⟩],
                some (o + 1 + 9, { pttci with stmt_byte4 := b4, stmt_flags := fl,
                                              param_count := pc2, unknown_6 := u6,
                                              unknown_7 := u7, stmt_sel_unk1 := su1,
                                              stmt_sel_unk2 := su2 })⟩) := by
  constructor
  · intro hne
    exact sql_header_tail_plain tvb o pttci b4 fl pc u6 u7 hb4 hfl hpc hu6 hu7 hne
  · intro he su1 su2 pc2 h1 h2 h3
    subst he
    exact sql_header_tail_select tvb o pttci b4 pc u6 u7 su1 su2 pc2 hb4 hfl hpc hu6 hu7 h1 h2 h3

/-- Witness for C22 on `sql_sample_select`: `stmt_byte4` is at offset 14, the
flags 0x0A at 15, the byte 05 at 16 is dropped, and the parameter count 2 is
taken from offset 23, where the item sits; the header ends at 24. -/
theorem param_count_anchor_witness :
    (tvb_get_guint8 sql_sample_select 14 = some 1
        ∧ tvb_get_guint8 sql_sample_select (14 + 1) = some 10
        ∧ tvb_get_guint8 sql_sample_select (14 + 1 + 1) = some 5
        ∧ tvb_get_ntohs sql_sample_select (14 + 1 + 2) = some 32767
        ∧ tvb_get_ntohs sql_sample_select (14 + 1 + 4) = some 65535)
      ∧ sql_header_tail sql_sample_select 14 ttci_packet_zero
          = ⟨[⟨.hf_tns_data_ttic_param_count, 23, 1, some 2, none⟩],
              some (24, { ttci_packet_zero with stmt_byte4 := 1, stmt_flags := 10,
                                                param_count := 2, unknown_6 := 32767,
                                                unknown_7 := 65535, stmt_sel_unk1 := 1,
                                                stmt_sel_unk2 := 1 })⟩ :=
  ⟨⟨by decide, by decide, by decide, by decide, by decide⟩,
    (param_count_anchor sql_sample_select 14 ttci_packet_zero 1 10 5 32767 65535 (by decide)
      (by decide) (by decide) (by decide) (by decide)).2 rfl 1 1 2 (by decide) (by decide)
      (by decide)⟩

/-! ## Parameter descriptors -/

theorem read_descriptor_invalid (tvb : Tvb) (bo m1 m2 fl : Nat)
    (h1 : tvb_get_ntohs tvb bo = some m1) (h2 : tvb_get_ntohs tvb (bo + 2) = some m2)
    (h3 : tvb_get_guint8 tvb (bo + 2 + 2) = some fl) (hboth : m1 ≠ 0x0300 ∧ m2 ≠ 0x0001) :
    read_descriptor tvb bo = some none := by
  simp only [read_descriptor, h1, h2, h3, Option.bind_eq_bind, Option.some_bind, if_pos hboth,
    Option.pure_def]

theorem read_descriptor_short (tvb : Tvb) (bo m1 m2 fl u1 u2 u3 k1 k2 k3 : Nat)
    (h1 : tvb_get_ntohs tvb bo = some m1) (h2 : tvb_get_ntohs tvb (bo + 2) = some m2)
    (h3 : tvb_get_guint8 tvb (bo + 2 + 2) = some fl) (hok : ¬ (m1 ≠ 0x0300 ∧ m2 ≠ 0x0001))
    (hshort : fl = 0x16 ∨ fl = 0x07)
    (hu1 : tvb_get_ntohs tvb (bo + 5) = some u1) (hu2 : tvb_get_guint8 tvb (bo + 7) = some u2)
    (hu3 : tvb_get_guint8 tvb (bo + 8) = some u3) (hk1 : tvb_get_ntohs tvb (bo + 9) = some k1)
    (hk2 : tvb_get_ntohs tvb (bo + 11) = some k2)
    (hk3 : tvb_get_ntohs tvb (bo + 13) = some k3) :
    read_descriptor tvb bo = some (some (⟨m1, m2, fl, u1, u2, u3, k1, k2, k3⟩, bo + 15)) := by
  simp only [read_descriptor, h1, h2, h3, Option.bind_eq_bind, Option.some_bind, if_neg hok,
    if_pos hshort, Option.pure_def, hu1, hu2, hu3, hk1, hk2, hk3]

theorem read_descriptor_long (tvb : Tvb) (bo m1 m2 fl u1 u2 u3 k1 k2 k3 : Nat)
    (h1 : tvb_get_ntohs tvb bo = some m1) (h2 : tvb_get_ntohs tvb (bo + 2) = some m2)
    (h3 : tvb_get_guint8 tvb (bo + 2 + 2) = some fl) (hok : ¬ (m1 ≠ 0x0300 ∧ m2 ≠ 0x0001))
    (hshort : ¬ (fl = 0x16 ∨ fl = 0x07)) (hwide : ¬ (fl = 0x01 ∧ m2 = 0x0109))
    (hu1 : tvb_get_ntohs tvb (bo + 5) = some u1) (hu2 : tvb_get_guint8 tvb (bo + 7) = some u2)
    (hu3 : tvb_get_ntohs tvb (bo + 8) = some u3) (hk1 : tvb_get_ntohs tvb (bo + 10) = some k1)
    (hk2 : tvb_get_ntohs tvb (bo + 12) = some k2)
    (hk3 : tvb_get_ntohs tvb (bo + 14) = some k3) :
    read_descriptor tvb bo = some (some (⟨m1, m2, fl, u1, u2, u3, k1, k2, k3⟩, bo + 16)) := by
  simp only [read_descriptor, h1, h2, h3, Option.bind_eq_bind, Option.some_bind, if_neg hok,
    if_neg hshort, if_neg hwide, Option.pure_def, hu1, hu2, hu3, hk1, hk2, hk3]

theorem read_descriptor_wide (tvb : Tvb) (bo m1 m2 fl u1 u2 u3 k1 k2 k3 k4 : Nat)
    (h1 : tvb_get_ntohs tvb bo = some m1) (h2 : tvb_get_ntohs tvb (bo + 2) = some m2)
    (h3 : tvb_get_guint8 tvb (bo + 2 + 2) = some fl) (hok : ¬ (m1 ≠ 0x0300 ∧ m2 ≠ 0x0001))
    (hwide : fl = 0x01 ∧ m2 = 0x0109)
    (hu1 : tvb_get_ntohs tvb (bo + 5) = some u1) (hu2 : tvb_get_guint8 tvb (bo + 7) = some u2)
    (hu3 : tvb_get_ntohs tvb (bo + 8) = some u3) (hk1 : tvb_get_ntohs tvb (bo + 10) = some k1)
    (hk2 : tvb_get_ntohs tvb (bo + 12) = some k2)
    (hk3 : tvb_get_ntohs tvb (bo + 14) = some k3)
    (hk4 : tvb_get_ntohs tvb (bo + 16) = some k4) :
    read_descriptor tvb bo = some (some (⟨m1, m2, fl, u1, u2, u3, k1, k2, k4⟩, bo + 18)) := by
  have hshort : ¬ (fl = 0x16 ∨ fl = 0x07) := by
    rw [hwide.1]
    decide
  simp only [read_descriptor, h1, h2, h3, Option.bind_eq_bind, Option.some_bind, if_neg hok,
    if_neg hshort, if_pos hwide, Option.pure_def, hu1, hu2, hu3, hk1, hk2, hk3, hk4]

/-! ## Classification of bind values -/

theorem hex_dump_eq (tvb : Tvb) (offset n : Nat) (hav : offset + n ≤ tvb.length)
    (hn : n ≤ 256) :
    ∀ (fuel j : Nat), j ≤ n → n ≤ j + fuel →
      hex_dump tvb offset n fuel j = some ((tvb.drop (offset + j)).take (n - j)) := by
  intro fuel
  induction fuel with
  | zero =>
    intro j hj hf
    have : n - j = 0 := by omega
    rw [hex_dump, this, List.take_zero]
  | succ fuel ih =>
    intro j hj hf
    rw [hex_dump]
    by_cases hlt : j < n
    · have hc : j < n ∧ j < 1024 / 4 := ⟨hlt, by omega⟩
      rw [if_pos hc]
      have hidx : offset + j < tvb.length := by omega
      have hget : tvb.get? (offset + j) = some (tvb.get ⟨offset + j, hidx⟩) := by
        simp [List.get?_eq_getElem?, List.getElem?_eq_getElem hidx]
      rw [hget]
      dsimp only
      rw [ih (j + 1) (by omega) (by omega)]
      have hd : tvb.drop (offset + j)
          = tvb.get ⟨offset + j, hidx⟩ :: tvb.drop (offset + j + 1) :=
        List.drop_eq_getElem_cons hidx
      have hk : n - j = (n - (j + 1)) + 1 := by omega
      rw [hd, hk, List.take_succ_cons]
      rfl
    · have hc : ¬ (j < n ∧ j < 1024 / 4) := fun h => hlt h.1
      rw [if_neg hc]
      have : n - j = 0 := by omega
      rw [this, List.take_zero]

/-- One pass of the value loop over a value of `n > 0` bytes that are in the
buffer and whose descriptor is not of the String kind, with the item and its
label written out. -/
theorem value_loop_value (tvb : Tvb) (param_count : Nat) (pd_list : List ttci_stmt_pd_itm_t)
    (bytes_remaining fuel i param_idx offset n : Nat) (hf : Hf)
    (hi : i < bytes_remaining) (hidx : param_idx < param_count)
    (hhf : hf_prop_ref_list param_idx = some hf)
    (hlen : tvb_get_guint8 tvb offset = some n) (hn : 0 < n)
    (hav : offset + 1 + n ≤ tvb.length)
    (hnum : ¬ (pd_list.getD param_idx pd_itm_zero).param_props_unknown_2 &&& 0x10 ≠ 0) :
    value_loop tvb param_count pd_list bytes_remaining (fuel + 1) i param_idx offset
      = Dis.andThen
          ⟨[⟨hf, offset, n + 1, none,
              some (if (pd_list.getD param_idx pd_itm_zero).param_props_unknown_1 = 0x0b00
                    ∧ (pd_list.getD param_idx pd_itm_zero).param_props_unknown_2 &&& 0x0004 ≠ 0
                  then .param_datetime (param_idx + 1) ((tvb.drop (offset + 1)).take n)
                  else .param_number (param_idx + 1) ((tvb.drop (offset + 1)).take n))⟩],
            some ()⟩
          (fun _ => value_loop tvb param_count pd_list bytes_remaining fuel (i + n)
            (param_idx + 1) (offset + 1 + n)) := by
  have hn256 : n < 256 := tvb_get_guint8_lt tvb offset n hlen
  rw [value_loop_step tvb param_count pd_list bytes_remaining fuel i param_idx offset n hf
    hi hidx hhf hlen, if_neg (by omega), if_neg hnum]
  have hh := hex_dump_eq tvb (offset + 1) n hav (by omega) n 0 (by omega) (by omega)
  rw [Nat.add_zero, Nat.sub_zero] at hh
  rw [hh]
  have hfit : offset + (n + 1) ≤ tvb.length := by omega
  simp only [Option.elim, proto_tree_add_item_text, Nat.add_sub_cancel, if_pos hfit]

/-- One pass of the value loop over a value of `n > 0` bytes that are in the
buffer and whose descriptor is of the String kind: the store behind the block
is reached. -/
theorem value_loop_string_store (tvb : Tvb) (param_count : Nat)
    (pd_list : List ttci_stmt_pd_itm_t) (bytes_remaining fuel i param_idx offset n : Nat)
    (hf : Hf)
    (hi : i < bytes_remaining) (hidx : param_idx < param_count)
    (hhf : hf_prop_ref_list param_idx = some hf)
    (hlen : tvb_get_guint8 tvb offset = some n) (hn : 0 < n)
    (hav : offset + 1 + n ≤ tvb.length)
    (hstr : (pd_list.getD param_idx pd_itm_zero).param_props_unknown_2 &&& 0x10 ≠ 0) :
    tvb_memcpy tvb (offset + 1) n = some ((tvb.drop (offset + 1)).take n)
      ∧ heap_store ((tvb.drop (offset + 1)).take n ++ [0]) (n + 1) 0 = none
      ∧ value_loop tvb param_count pd_list bytes_remaining (fuel + 1) i param_idx offset
          = Dis.undefined := by
  have hvl : ((tvb.drop (offset + 1)).take n).length = n := by
    rw [List.length_take, List.length_drop]
    omega
  have hm : tvb_memcpy tvb (offset + 1) n = some ((tvb.drop (offset + 1)).take n) := by
    unfold tvb_memcpy
    rw [if_pos hav]
  refine ⟨hm,
    heap_store_past_end _ _ _ (by rw [List.length_append, hvl, List.length_singleton]), ?_⟩
  rw [value_loop_string tvb param_count pd_list bytes_remaining fuel i param_idx offset n hf
    hi hidx hhf hlen hn hstr, hm]
  rfl

theorem load_descriptors_done (tvb : Tvb) (param_count fuel j bo : Nat)
    (pd : List ttci_stmt_pd_itm_t) (hj : param_count ≤ j) :
    load_descriptors tvb param_count fuel j bo pd = .loaded pd bo := by
  cases fuel with
  | zero => rfl
  | succ fuel =>
    rw [load_descriptors, if_neg (by omega)]

theorem load_descriptors_pass (tvb : Tvb) (param_count fuel j bo : Nat)
    (pd : List ttci_stmt_pd_itm_t) (hj : j < param_count) (d : ttci_stmt_pd_itm_t) (bo' : Nat)
    (hread : read_descriptor tvb bo = some (some (d, bo'))) :
    load_descriptors tvb param_count (fuel + 1) j bo pd
      = if d.param_marker_2 = 0x6901 ∧ d.param_marker_3 = 0x0007 then
          .loaded (pd.set j d) bo'
        else load_descriptors tvb param_count fuel (j + 1) bo' (pd.set j d) := by
  simp only [load_descriptors, hj, if_true, hread]

theorem load_descriptors_invalid (tvb : Tvb) (param_count fuel j bo : Nat)
    (pd : List ttci_stmt_pd_itm_t) (hj : j < param_count)
    (hread : read_descriptor tvb bo = some none) :
    load_descriptors tvb param_count (fuel + 1) j bo pd = .invalid := by
  simp only [load_descriptors, hj, if_true, hread]

theorem load_descriptors_raise (tvb : Tvb) (param_count fuel j bo : Nat)
    (pd : List ttci_stmt_pd_itm_t) (hj : j < param_count)
    (hread : read_descriptor tvb bo = none) :
    load_descriptors tvb param_count (fuel + 1) j bo pd = .bounds_error := by
  simp only [load_descriptors, hj, if_true, hread]

theorem load_descriptors_fuel (tvb : Tvb) (param_count : Nat) :
    ∀ (fuel fuel' j bo : Nat) (pd : List ttci_stmt_pd_itm_t),
      param_count ≤ j + fuel → param_count ≤ j + fuel' →
      load_descriptors tvb param_count fuel j bo pd
        = load_descriptors tvb param_count fuel' j bo pd := by
  intro fuel
  induction fuel with
  | zero =>
    intro fuel' j bo pd h1 _
    rw [load_descriptors_done tvb param_count 0 j bo pd (by omega),
      load_descriptors_done tvb param_count fuel' j bo pd (by omega)]
  | succ fuel ih =>
    intro fuel' j bo pd h1 h2
    by_cases hj : j < param_count
    · cases fuel' with
      | zero => omega
      | succ fuel' =>
        cases hread : read_descriptor tvb bo with
        | none =>
          rw [load_descriptors_raise tvb param_count fuel j bo pd hj hread,
            load_descriptors_raise tvb param_count fuel' j bo pd hj hread]
        | some r =>
          cases r with
          | none =>
            rw [load_descriptors_invalid tvb param_count fuel j bo pd hj hread,
              load_descriptors_invalid tvb param_count fuel' j bo pd hj hread]
          | some x =>
            obtain ⟨d, bo'⟩ := x
            rw [load_descriptors_pass tvb param_count fuel j bo pd hj d bo' hread,
              load_descriptors_pass tvb param_count fuel' j bo pd hj d bo' hread,
              ih fuel' (j + 1) bo' (pd.set j d) (by omega) (by omega)]
    · rw [load_descriptors_done tvb param_count (fuel + 1) j bo pd (by omega),
        load_descriptors_done tvb param_count fuel' j bo pd (by omega)]

theorem load_descriptors_slots (tvb : Tvb) (param_count : Nat) :
    ∀ (fuel j bo : Nat) (pd pd' : List ttci_stmt_pd_itm_t) (bo' : Nat),
      load_descriptors tvb param_count fuel j bo pd = .loaded pd' bo' →
      pd'.length = pd.length
        ∧ ∀ i, i < j ∨ param_count ≤ i → pd'.getD i pd_itm_zero = pd.getD i pd_itm_zero := by
  intro fuel
  induction fuel with
  | zero =>
    intro j bo pd pd' bo' h
    simp only [load_descriptors, PdLoad.loaded.injEq] at h
    obtain ⟨rfl, _⟩ := h
    exact ⟨rfl, fun _ _ => rfl⟩
  | succ fuel ih =>
    intro j bo pd pd' bo' h
    by_cases hj : j < param_count
    · cases hread : read_descriptor tvb bo with
      | none =>
        rw [load_descriptors_raise tvb param_count fuel j bo pd hj hread] at h
        exact absurd h (by simp)
      | some r =>
        cases r with
        | none =>
          rw [load_descriptors_invalid tvb param_count fuel j bo pd hj hread] at h
          exact absurd h (by simp)
        | some x =>
          obtain ⟨d, bo1⟩ := x
          rw [load_descriptors_pass tvb param_count fuel j bo pd hj d bo1 hread] at h
          have hset : ∀ i, i < j ∨ param_count ≤ i →
              (pd.set j d).getD i pd_itm_zero = pd.getD i pd_itm_zero := by
            intro i hi
            have hne : j ≠ i := by omega
            simp only [List.getD_eq_getElem?_getD, List.getElem?_set_ne hne]
          split at h
          · simp only [PdLoad.loaded.injEq] at h
            obtain ⟨rfl, _⟩ := h
            exact ⟨List.length_set _ _ _, hset⟩
          · obtain ⟨hl, hs⟩ := ih (j + 1) bo1 (pd.set j d) pd' bo' h
            refine ⟨by rw [hl, List.length_set], ?_⟩
            intro i hi
            rw [hs i (by omega), hset i hi]
    · rw [load_descriptors_done tvb param_count (fuel + 1) j bo pd (by omega)] at h
      simp only [PdLoad.loaded.injEq] at h
      obtain ⟨rfl, _⟩ := h
      exact ⟨rfl, fun _ _ => rfl⟩

theorem params_from_descriptors_loaded (tvb : Tvb) (offset : Nat) (pttci : ttci_packet_t)
    (bo0 : Nat) (pd' : List ttci_stmt_pd_itm_t) (bo' : Nat)
    (h : load_descriptors tvb pttci.param_count pttci.param_count 0 bo0
      (List.replicate (pttci.param_count + 1) pd_itm_zero) = .loaded pd' bo') :
    params_from_descriptors tvb offset pttci bo0
      = if tvb_reported_length_remaining tvb bo' = 0 then Dis.ret bo'
        else Dis.andThen (proto_tree_add_subtree tvb bo' "TTC/TTI SQL Parameters")
          (fun _ => value_loop tvb pttci.param_count pd' (tvb_reported_length_remaining tvb bo')
            pttci.param_count 0 0 bo') := by
  unfold params_from_descriptors
  rw [h]

theorem params_from_descriptors_invalid (tvb : Tvb) (offset : Nat) (pttci : ttci_packet_t)
    (bo0 : Nat)
    (h : load_descriptors tvb pttci.param_count pttci.param_count 0 bo0
      (List.replicate (pttci.param_count + 1) pd_itm_zero) = .invalid) :
    params_from_descriptors tvb offset pttci bo0 = Dis.ret offset := by
  unfold params_from_descriptors
  rw [h]

theorem read_descriptor_some_none (tvb : Tvb) (bo m1 m2 fl : Nat)
    (h1 : tvb_get_ntohs tvb bo = some m1) (h2 : tvb_get_ntohs tvb (bo + 2) = some m2)
    (h3 : tvb_get_guint8 tvb (bo + 4) = some fl)
    (h : read_descriptor tvb bo = some none) : m1 ≠ 0x0300 ∧ m2 ≠ 0x0001 := by
  by_contra hok
  simp only [read_descriptor, h1, h2, h3, Option.bind_eq_bind, Option.some_bind, if_neg hok,
    Option.pure_def] at h
  split at h
  · simp only [Option.bind_eq_some] at h
    obtain ⟨_, _, _, _, _, _, _, _, _, _, _, _, h⟩ := h
    exact absurd h (by simp)
  · simp only [Option.bind_eq_some] at h
    obtain ⟨_, _, _, _, _, _, _, _, _, _, _, _, h⟩ := h
    split at h
    · simp only [Option.bind_eq_some] at h
      obtain ⟨_, _, h⟩ := h
      exact absurd h (by simp)
    · exact absurd h (by simp)

/-- C23 (as the code has it): for a descriptor read by the descriptor loop at
`bo` (pass `j < param_count`) with the magic fields `m1`, `m2` and the flag byte
`fl`.  When `m1` is not 0x0300 and `m2` is not 0x0001, the loop is left as
invalid; the function then returns the offset it was called with and has added
no item.  A descriptor with the magic fields (0x0300, 0x0001) is never what the
loop is left as invalid for.  Neither is the descriptor with the magic fields
(0x0300, 0x0109) and the flag byte 0x01: it is read as the descriptor of 18
bytes, stored in slot `j`, and the loop goes on behind it. -/
theorem descriptor_magic_both_differ (tvb : Tvb) (param_count fuel j bo : Nat)
    (pd : List ttci_stmt_pd_itm_t) (m1 m2 fl : Nat) (hj : j < param_count)
    (h1 : tvb_get_ntohs tvb bo = some m1) (h2 : tvb_get_ntohs tvb (bo + 2) = some m2)
    (h3 : tvb_get_guint8 tvb (bo + 4) = some fl) :
    ((m1 ≠ 0x0300 ∧ m2 ≠ 0x0001) →
        read_descriptor tvb bo = some none
          ∧ load_descriptors tvb param_count (fuel + 1) j bo pd = .invalid)
      ∧ (∀ offset (pttci : ttci_packet_t) bo0,
          load_descriptors tvb pttci.param_count pttci.param_count 0 bo0
              (List.replicate (pttci.param_count + 1) pd_itm_zero) = .invalid →
          params_from_descriptors tvb offset pttci bo0 = ⟨[], some offset⟩)
      ∧ ((m1 = 0x0300 ∧ m2 = 0x0001) → read_descriptor tvb bo ≠ some none)
      ∧ ((m1 = 0x0300 ∧ m2 = 0x0109 ∧ fl = 0x01) → bo + 18 ≤ tvb.length →
          ∃ u1 u2 u3 k1 k2 k3,
            read_descriptor tvb bo
                = some (some (⟨0x0300, 0x0109, 0x01, u1, u2, u3, k1, k2, k3⟩, bo + 18))
              ∧ load_descriptors tvb param_count (fuel + 1) j bo pd
                = if k2 = 0x6901 ∧ k3 = 0x0007 then
                    .loaded (pd.set j ⟨0x0300, 0x0109, 0x01, u1, u2, u3, k1, k2, k3⟩) (bo + 18)
                  else load_descriptors tvb param_count fuel (j + 1) (bo + 18)
                    (pd.set j ⟨0x0300, 0x0109, 0x01, u1, u2, u3, k1, k2, k3⟩)) := by
  refine ⟨?_, ?_, ?_, ?_⟩
  · intro hboth
    have hr := read_descriptor_invalid tvb bo m1 m2 fl h1 h2 h3 hboth
    exact ⟨hr, load_descriptors_invalid tvb param_count fuel j bo pd hj hr⟩
  · intro offset pttci bo0 h
    exact params_from_descriptors_invalid tvb offset pttci bo0 h
  · intro hs hr
    exact (read_descriptor_some_none tvb bo m1 m2 fl h1 h2 h3 hr).1 hs.1
  · intro hw hlen
    obtain ⟨rfl, rfl, rfl⟩ := hw
    obtain ⟨u1, hu1⟩ := tvb_get_ntohs_of_le tvb (bo + 5) (by omega)
    obtain ⟨u2, hu2⟩ := tvb_get_guint8_of_lt tvb (bo + 7) (by omega)
    obtain ⟨u3, hu3⟩ := tvb_get_ntohs_of_le tvb (bo + 8) (by omega)
    obtain ⟨k1, hk1⟩ := tvb_get_ntohs_of_le tvb (bo + 10) (by omega)
    obtain ⟨k2, hk2⟩ := tvb_get_ntohs_of_le tvb (bo + 12) (by omega)
    obtain ⟨k3, hk3⟩ := tvb_get_ntohs_of_le tvb (bo + 14) (by omega)
    obtain ⟨k4, hk4⟩ := tvb_get_ntohs_of_le tvb (bo + 16) (by omega)
    have hr := read_descriptor_wide tvb bo 0x0300 0x0109 0x01 u1 u2 u3 k1 k2 k3 k4 h1 h2 h3
      (by decide) ⟨rfl, rfl⟩ hu1 hu2 hu3 hk1 hk2 hk3 hk4
    exact ⟨u1, u2, u3, k1, k2, k4, hr,
      load_descriptors_pass tvb param_count fuel j bo pd hj _ _ hr⟩

/-- C24: let the descriptor at `bo` have the magic fields `m1`, `m2` and the flag
byte `fl` and pass the magic test.  With flag 0x16 or 0x07 it is read from 15
bytes (16-bit, 8-bit, 8-bit properties at `bo + 5`, `bo + 7`, `bo + 8`, markers at
`bo + 9`, `bo + 11`, `bo + 13`); with flag 0x01 and `m2 = 0x0109` from 18 bytes
(properties at `bo + 5`, `bo + 7`, `bo + 8`, markers at `bo + 10`, `bo + 12` and,
read again, `bo + 16`); in every other case from 16 bytes (markers at `bo + 10`,
`bo + 12`, `bo + 14`).  The cursor after it is `bo` plus that size. -/
theorem descriptor_sizes (tvb : Tvb) (bo m1 m2 fl : Nat)
    (h1 : tvb_get_ntohs tvb bo = some m1) (h2 : tvb_get_ntohs tvb (bo + 2) = some m2)
    (h3 : tvb_get_guint8 tvb (bo + 4) = some fl) (hok : ¬ (m1 ≠ 0x0300 ∧ m2 ≠ 0x0001)) :
    ((fl = 0x16 ∨ fl = 0x07) → bo + 15 ≤ tvb.length →
        ∃ u1 u2 u3 k1 k2 k3,
          read_descriptor tvb bo
              = some (some (⟨m1, m2, fl, u1, u2, u3, k1, k2, k3⟩, bo + 15))
            ∧ tvb_get_ntohs tvb (bo + 5) = some u1 ∧ tvb_get_guint8 tvb (bo + 7) = some u2
            ∧ tvb_get_guint8 tvb (bo + 8) = some u3 ∧ tvb_get_ntohs tvb (bo + 9) = some k1
            ∧ tvb_get_ntohs tvb (bo + 11) = some k2 ∧ tvb_get_ntohs tvb (bo + 13) = some k3)
      ∧ ((fl = 0x01 ∧ m2 = 0x0109) → bo + 18 ≤ tvb.length →
        ∃ u1 u2 u3 k1 k2 k3,
          read_descriptor tvb bo
              = some (some (⟨m1, m2, fl, u1, u2, u3, k1, k2, k3⟩, bo + 18))
            ∧ tvb_get_ntohs tvb (bo + 5) = some u1 ∧ tvb_get_guint8 tvb (bo + 7) = some u2
            ∧ tvb_get_ntohs tvb (bo + 8) = some u3 ∧ tvb_get_ntohs tvb (bo + 10) = some k1
            ∧ tvb_get_ntohs tvb (bo + 12) = some k2 ∧ tvb_get_ntohs tvb (bo + 16) = some k3)
      ∧ (¬ (fl = 0x16 ∨ fl = 0x07) → ¬ (fl = 0x01 ∧ m2 = 0x0109) → bo + 16 ≤ tvb.length →
        ∃ u1 u2 u3 k1 k2 k3,
          read_descriptor tvb bo
              = some (some (⟨m1, m2, fl, u1, u2, u3, k1, k2, k3⟩, bo + 16))
            ∧ tvb_get_ntohs tvb (bo + 5) = some u1 ∧ tvb_get_guint8 tvb (bo + 7) = some u2
            ∧ tvb_get_ntohs tvb (bo + 8) = some u3 ∧ tvb_get_ntohs tvb (bo + 10) = some k1
            ∧ tvb_get_ntohs tvb (bo + 12) = some k2 ∧ tvb_get_ntohs tvb (bo + 14) = some k3) := by
  refine ⟨?_, ?_, ?_⟩
  · intro hshort hlen
    obtain ⟨u1, hu1⟩ := tvb_get_ntohs_of_le tvb (bo + 5) (by omega)
    obtain ⟨u2, hu2⟩ := tvb_get_guint8_of_lt tvb (bo + 7) (by omega)
    obtain ⟨u3, hu3⟩ := tvb_get_guint8_of_lt tvb (bo + 8) (by omega)
    obtain ⟨k1, hk1⟩ := tvb_get_ntohs_of_le tvb (bo + 9) (by omega)
    obtain ⟨k2, hk2⟩ := tvb_get_ntohs_of_le tvb (bo + 11) (by omega)
    obtain ⟨k3, hk3⟩ := tvb_get_ntohs_of_le tvb (bo + 13) (by omega)
    exact ⟨u1, u2, u3, k1, k2, k3,
      read_descriptor_short tvb bo m1 m2 fl u1 u2 u3 k1 k2 k3 h1 h2 h3 hok hshort hu1 hu2 hu3
        hk1 hk2 hk3, hu1, hu2, hu3, hk1, hk2, hk3⟩
  · intro hwide hlen
    obtain ⟨u1, hu1⟩ := tvb_get_ntohs_of_le tvb (bo + 5) (by omega)
    obtain ⟨u2, hu2⟩ := tvb_get_guint8_of_lt tvb (bo + 7) (by omega)
    obtain ⟨u3, hu3⟩ := tvb_get_ntohs_of_le tvb (bo + 8) (by omega)
    obtain ⟨k1, hk1⟩ := tvb_get_ntohs_of_le tvb (bo + 10) (by omega)
    obtain ⟨k2, hk2⟩ := tvb_get_ntohs_of_le tvb (bo + 12) (by omega)
    obtain ⟨k3, hk3⟩ := tvb_get_ntohs_of_le tvb (bo + 14) (by omega)
    obtain ⟨k4, hk4⟩ := tvb_get_ntohs_of_le tvb (bo + 16) (by omega)
    exact ⟨u1, u2, u3, k1, k2, k4,
      read_descriptor_wide tvb bo m1 m2 fl u1 u2 u3 k1 k2 k3 k4 h1 h2 h3 hok hwide hu1 hu2 hu3
        hk1 hk2 hk3 hk4, hu1, hu2, hu3, hk1, hk2, hk4⟩
  · intro hshort hwide hlen
    obtain ⟨u1, hu1⟩ := tvb_get_ntohs_of_le tvb (bo + 5) (by omega)
    obtain ⟨u2, hu2⟩ := tvb_get_guint8_of_lt tvb (bo + 7) (by omega)
    obtain ⟨u3, hu3⟩ := tvb_get_ntohs_of_le tvb (bo + 8) (by omega)
    obtain ⟨k1, hk1⟩ := tvb_get_ntohs_of_le tvb (bo + 10) (by omega)
    obtain ⟨k2, hk2⟩ := tvb_get_ntohs_of_le tvb (bo + 12) (by omega)
    obtain ⟨k3, hk3⟩ := tvb_get_ntohs_of_le tvb (bo + 14) (by omega)
    exact ⟨u1, u2, u3, k1, k2, k3,
      read_descriptor_long tvb bo m1 m2 fl u1 u2 u3 k1 k2 k3 h1 h2 h3 hok hshort hwide hu1 hu2
        hu3 hk1 hk2 hk3, hu1, hu2, hu3, hk1, hk2, hk3⟩

/-- C25: the descriptor loop at pass `j` with the cursor `bo`.  It reads no
descriptor once `j` has reached the parameter count.  Otherwise, when the
descriptor read at `bo` carries the marker fields (0x6901, 0x0007), the loop is
left at once with the cursor right behind this descriptor, however many passes
remain; when it does not, the loop goes on with pass `j + 1`.  The number of
passes allowed is never what stops the loop, and only the slots `j` up to the
parameter count of the descriptor list are written.  The value list is then
read from the cursor the loop ended with. -/
theorem descriptor_loop_stops_at_marker (tvb : Tvb) (param_count fuel j bo : Nat)
    (pd : List ttci_stmt_pd_itm_t) :
    (param_count ≤ j → load_descriptors tvb param_count fuel j bo pd = .loaded pd bo)
      ∧ (j < param_count → ∀ d bo', read_descriptor tvb bo = some (some (d, bo')) →
          ((d.param_marker_2 = 0x6901 ∧ d.param_marker_3 = 0x0007) →
            load_descriptors tvb param_count (fuel + 1) j bo pd = .loaded (pd.set j d) bo')
          ∧ (¬ (d.param_marker_2 = 0x6901 ∧ d.param_marker_3 = 0x0007) →
            load_descriptors tvb param_count (fuel + 1) j bo pd
              = load_descriptors tvb param_count fuel (j + 1) bo' (pd.set j d)))
      ∧ (∀ fuel', param_count ≤ j + fuel → param_count ≤ j + fuel' →
          load_descriptors tvb param_count fuel j bo pd
            = load_descriptors tvb param_count fuel' j bo pd)
      ∧ (∀ pd' bo', load_descriptors tvb param_count fuel j bo pd = .loaded pd' bo' →
          pd'.length = pd.length
            ∧ ∀ i, i < j ∨ param_count ≤ i →
                pd'.getD i pd_itm_zero = pd.getD i pd_itm_zero)
      ∧ ∀ offset (pttci : ttci_packet_t) bo0 pd' bo',
          load_descriptors tvb pttci.param_count pttci.param_count 0 bo0
              (List.replicate (pttci.param_count + 1) pd_itm_zero) = .loaded pd' bo' →
          params_from_descriptors tvb offset pttci bo0
            = if tvb_reported_length_remaining tvb bo' = 0 then Dis.ret bo'
              else Dis.andThen (proto_tree_add_subtree tvb bo' "TTC/TTI SQL Parameters")
                (fun _ => value_loop tvb pttci.param_count pd'
                  (tvb_reported_length_remaining tvb bo') pttci.param_count 0 0 bo') := by
  refine ⟨load_descriptors_done tvb param_count fuel j bo pd, ?_, ?_, ?_, ?_⟩
  · intro hj d bo' hread
    have hp := load_descriptors_pass tvb param_count fuel j bo pd hj d bo' hread
    exact ⟨fun hs => by rw [hp, if_pos hs], fun hs => by rw [hp, if_neg hs]⟩
  · intro fuel' h1 h2
    exact load_descriptors_fuel tvb param_count fuel fuel' j bo pd h1 h2
  · intro pd' bo' h
    exact load_descriptors_slots tvb param_count fuel j bo pd pd' bo' h
  · intro offset pttci bo0 pd' bo' h
    exact params_from_descriptors_loaded tvb offset pttci bo0 pd' bo' h

theorem getD_set_ne (pd : List ttci_stmt_pd_itm_t) (j k : Nat) (d : ttci_stmt_pd_itm_t)
    (h : j ≠ k) : (pd.set j d).getD k pd_itm_zero = pd.getD k pd_itm_zero := by
  simp only [List.getD_eq_getElem?_getD, List.getElem?_set_ne h]

theorem getD_set_self (pd : List ttci_stmt_pd_itm_t) (j : Nat) (d : ttci_stmt_pd_itm_t) :
    (pd.set j d).getD j pd_itm_zero = d
      ∨ (pd.set j d).getD j pd_itm_zero = pd.getD j pd_itm_zero := by
  by_cases hlt : j < pd.length
  · left
    simp only [List.getD_eq_getElem?_getD, List.getElem?_set_self hlt, Option.getD_some]
  · right
    rw [List.set_eq_of_length_le (by omega)]

/-- In the descriptor list the descriptor loop has loaded, starting from slots
that are zero from the pass index on, every slot behind a slot that holds the
marker fields (0x6901, 0x0007) is still zero. -/
theorem load_descriptors_behind_marker (tvb : Tvb) (param_count : Nat) :
    ∀ (fuel j bo : Nat) (pd pd' : List ttci_stmt_pd_itm_t) (bo' : Nat),
      load_descriptors tvb param_count fuel j bo pd = .loaded pd' bo' →
      (∀ k, j ≤ k → pd.getD k pd_itm_zero = pd_itm_zero) →
      (∀ i, i < j → ¬ ((pd.getD i pd_itm_zero).param_marker_2 = 0x6901
          ∧ (pd.getD i pd_itm_zero).param_marker_3 = 0x0007)) →
      ∀ m, ((pd'.getD m pd_itm_zero).param_marker_2 = 0x6901
          ∧ (pd'.getD m pd_itm_zero).param_marker_3 = 0x0007) →
        ∀ k, m < k → pd'.getD k pd_itm_zero = pd_itm_zero := by
  have hzero : ¬ (pd_itm_zero.param_marker_2 = 0x6901
      ∧ pd_itm_zero.param_marker_3 = 0x0007) := by
    decide
  have hbase : ∀ (j : Nat) (pd : List ttci_stmt_pd_itm_t),
      (∀ k, j ≤ k → pd.getD k pd_itm_zero = pd_itm_zero) →
      (∀ i, i < j → ¬ ((pd.getD i pd_itm_zero).param_marker_2 = 0x6901
          ∧ (pd.getD i pd_itm_zero).param_marker_3 = 0x0007)) →
      ∀ m, ((pd.getD m pd_itm_zero).param_marker_2 = 0x6901
          ∧ (pd.getD m pd_itm_zero).param_marker_3 = 0x0007) →
        ∀ k, m < k → pd.getD k pd_itm_zero = pd_itm_zero := by
    intro j pd hz hnm m hm k _
    by_cases hlt : m < j
    · exact absurd hm (hnm m hlt)
    · rw [hz m (by omega)] at hm
      exact absurd hm hzero
  intro fuel
  induction fuel with
  | zero =>
    intro j bo pd pd' bo' h hz hnm
    simp only [load_descriptors, PdLoad.loaded.injEq] at h
    obtain ⟨rfl, _⟩ := h
    exact hbase j pd hz hnm
  | succ fuel ih =>
    intro j bo pd pd' bo' h hz hnm
    by_cases hj : j < param_count
    · cases hread : read_descriptor tvb bo with
      | none =>
        rw [load_descriptors_raise tvb param_count fuel j bo pd hj hread] at h
        exact absurd h (by simp)
      | some r =>
        cases r with
        | none =>
          rw [load_descriptors_invalid tvb param_count fuel j bo pd hj hread] at h
          exact absurd h (by simp)
        | some x =>
          obtain ⟨d, bo1⟩ := x
          rw [load_descriptors_pass tvb param_count fuel j bo pd hj d bo1 hread] at h
          by_cases hs : d.param_marker_2 = 0x6901 ∧ d.param_marker_3 = 0x0007
          · rw [if_pos hs] at h
            simp only [PdLoad.loaded.injEq] at h
            obtain ⟨rfl, _⟩ := h
            intro m hm k hk
            by_cases hmj : m = j
            · rw [getD_set_ne pd j k d (by omega)]
              exact hz k (by omega)
            · rw [getD_set_ne pd j m d (fun e => hmj e.symm)] at hm
              by_cases hlt : m < j
              · exact absurd hm (hnm m hlt)
              · rw [hz m (by omega)] at hm
                exact absurd hm hzero
          · rw [if_neg hs] at h
            refine ih (j + 1) bo1 (pd.set j d) pd' bo' h ?_ ?_
            · intro k hk
              rw [getD_set_ne pd j k d (by omega)]
              exact hz k (by omega)
            · intro i hi
              by_cases hij : i = j
              · rw [hij]
                rcases getD_set_self pd j d with e | e
                · rw [e]
                  exact hs
                · rw [e, hz j (Nat.le_refl j)]
                  exact hzero
              · rw [getD_set_ne pd j i d (fun e => hij e.symm)]
                exact hnm i (by omega)
    · rw [load_descriptors_done tvb param_count (fuel + 1) j bo pd (by omega)] at h
      simp only [PdLoad.loaded.injEq] at h
      obtain ⟨rfl, _⟩ := h
      exact hbase j pd hz hnm

theorem getD_replicate_zero (n k : Nat) :
    (List.replicate n pd_itm_zero).getD k pd_itm_zero = pd_itm_zero := by
  rw [List.getD_eq_getElem?_getD]
  by_cases h : k < n
  · rw [List.getElem?_eq_getElem (by rw [List.length_replicate]; exact h),
      List.getElem_replicate]
    rfl
  · rw [List.getElem?_eq_none (by rw [List.length_replicate]; omega)]
    rfl

/-- C26 (as the code has it): the descriptor with the marker fields
(0x6901, 0x0007), read in pass `j` of the descriptor loop, is stored in slot `j`
of the descriptor list like every other descriptor, and the loop ends with the
cursor behind it: no descriptor behind it is read and no slot behind `j` is
written.  The pass of the value loop with the index `j` then takes the kind of
its value from this descriptor: Date/Time or Number by its property fields, with
one item over the length byte and the `n` bytes; with bit 0x10 of its property
byte set the String branch is taken, which ends in the store behind its block
(undefined behaviour, no item).  In the list loaded by the descriptor loop of the
function, every slot behind the slot with the marker fields is zero, and the
pass of the value loop with such an index labels its value Number. -/
theorem marker_descriptor_labels_value (tvb : Tvb) (param_count fuel j bo : Nat)
    (pd : List ttci_stmt_pd_itm_t) (d : ttci_stmt_pd_itm_t) (bo' : Nat)
    (hj : j < param_count) (hslot : j < pd.length)
    (hread : read_descriptor tvb bo = some (some (d, bo')))
    (hmark : d.param_marker_2 = 0x6901 ∧ d.param_marker_3 = 0x0007) :
    load_descriptors tvb param_count (fuel + 1) j bo pd = .loaded (pd.set j d) bo'
      ∧ (pd.set j d).getD j pd_itm_zero = d
      ∧ (∀ k, j < k → (pd.set j d).getD k pd_itm_zero = pd.getD k pd_itm_zero)
      ∧ (¬ d.param_props_unknown_2 &&& 0x10 ≠ 0 →
          ∀ bytes_remaining fuel' i offset n hf, i < bytes_remaining →
          hf_prop_ref_list j = some hf → tvb_get_guint8 tvb offset = some n → 0 < n →
          offset + 1 + n ≤ tvb.length →
          value_loop tvb param_count (pd.set j d) bytes_remaining (fuel' + 1) i j offset
            = Dis.andThen
                ⟨[⟨hf, offset, n + 1, none,
                    some (if d.param_props_unknown_1 = 0x0b00
                          ∧ d.param_props_unknown_2 &&& 0x0004 ≠ 0
                        then .param_datetime (j + 1) ((tvb.drop (offset + 1)).take n)
                        else .param_number (j + 1) ((tvb.drop (offset + 1)).take n))⟩],
                  some ()⟩
                (fun _ => value_loop tvb param_count (pd.set j d) bytes_remaining fuel'
                  (i + n) (j + 1) (offset + 1 + n)))
      ∧ (d.param_props_unknown_2 &&& 0x10 ≠ 0 →
          ∀ bytes_remaining fuel' i offset n hf, i < bytes_remaining →
          hf_prop_ref_list j = some hf → tvb_get_guint8 tvb offset = some n → 0 < n →
          offset + 1 + n ≤ tvb.length →
          heap_store ((tvb.drop (offset + 1)).take n ++ [0]) (n + 1) 0 = none
            ∧ value_loop tvb param_count (pd.set j d) bytes_remaining (fuel' + 1) i j offset
                = Dis.undefined)
      ∧ ∀ (pc : Nat) (bo0 : Nat) (pd' : List ttci_stmt_pd_itm_t) (bo1 : Nat),
          load_descriptors tvb pc pc 0 bo0 (List.replicate (pc + 1) pd_itm_zero)
              = .loaded pd' bo1 →
          ∀ m, (pd'.getD m pd_itm_zero).param_marker_2 = 0x6901
              ∧ (pd'.getD m pd_itm_zero).param_marker_3 = 0x0007 →
          ∀ k, m < k →
            pd'.getD k pd_itm_zero = pd_itm_zero
              ∧ ∀ bytes_remaining fuel' i offset n hf, i < bytes_remaining → k < pc →
                  hf_prop_ref_list k = some hf → tvb_get_guint8 tvb offset = some n → 0 < n →
                  offset + 1 + n ≤ tvb.length →
                  value_loop tvb pc pd' bytes_remaining (fuel' + 1) i k offset
                    = Dis.andThen
                        ⟨[⟨hf, offset, n + 1, none,
                            some (.param_number (k + 1) ((tvb.drop (offset + 1)).take n))⟩],
                          some ()⟩
                        (fun _ => value_loop tvb pc pd' bytes_remaining fuel'
                          (i + n) (k + 1) (offset + 1 + n)) := by
  have hget : (pd.set j d).getD j pd_itm_zero = d := by
    simp only [List.getD_eq_getElem?_getD, List.getElem?_set_self hslot, Option.getD_some]
  refine ⟨?_, hget, ?_, ?_, ?_, ?_⟩
  · rw [load_descriptors_pass tvb param_count fuel j bo pd hj d bo' hread, if_pos hmark]
  · intro k hk
    exact getD_set_ne pd j k d (by omega)
  · intro hnum bytes_remaining fuel' i offset n hf hi hhf hlen hn hav
    have h := value_loop_value tvb param_count (pd.set j d) bytes_remaining fuel' i j offset n hf
      hi hj hhf hlen hn hav (by rw [hget]; exact hnum)
    rw [hget] at h
    exact h
  · intro hstr bytes_remaining fuel' i offset n hf hi hhf hlen hn hav
    exact (value_loop_string_store tvb param_count (pd.set j d) bytes_remaining fuel' i j offset
      n hf hi hj hhf hlen hn hav (by rw [hget]; exact hstr)).2
  · intro pc bo0 pd' bo1 hload m hm k hk
    have hz : pd'.getD k pd_itm_zero = pd_itm_zero :=
      load_descriptors_behind_marker tvb pc pc 0 bo0 (List.replicate (pc + 1) pd_itm_zero) pd'
        bo1 hload (fun k _ => getD_replicate_zero (pc + 1) k)
        (fun i hi => absurd hi (Nat.not_lt_zero i)) m hm k hk
    refine ⟨hz, ?_⟩
    intro bytes_remaining fuel' i offset n hf hi hkc hhf hlen hn hav
    have h := value_loop_value tvb pc pd' bytes_remaining fuel' i k offset n hf
      hi hkc hhf hlen hn hav (by rw [hz]; decide)
    rw [hz, if_neg (by decide)] at h
    exact h

/-- C26, counterexample: `params_sample_datetime` and `params_sample_number` hold
one descriptor, the one with the marker fields `69 01` and `00 07`, and the same
value `03 41 42 43`; they differ in the property fields of that descriptor only
(`0B 00`, `04` and `00 01`, `00`).  The value is labelled Date/Time for the first
and Number for the second: it is classified with that descriptor. -/
theorem marker_descriptor_counterexample :
    load_descriptors params_sample_datetime 1 1 0 21 (List.replicate 2 pd_itm_zero)
        = .loaded [⟨768, 1, 40, 2816, 4, 0, 515, 26881, 7⟩, pd_itm_zero] 37
      ∧ load_descriptors params_sample_number 1 1 0 21 (List.replicate 2 pd_itm_zero)
        = .loaded [⟨768, 1, 40, 1, 0, 0, 515, 26881, 7⟩, pd_itm_zero] 37
      ∧ dissect_tns_data_sql_params params_sample_datetime 0 params_sample_ttci
        = ⟨[⟨.subtree, 37, 4, none, some (.subtree "TTC/TTI SQL Parameters")⟩,
            ⟨.hf_tns_data_ttic_stmt_sql_p 1, 37, 4, none,
              some (.param_datetime 1 [0x41, 0x42, 0x43])⟩], some 41⟩
      ∧ dissect_tns_data_sql_params params_sample_number 0 params_sample_ttci
        = ⟨[⟨.subtree, 37, 4, none, some (.subtree "TTC/TTI SQL Parameters")⟩,
            ⟨.hf_tns_data_ttic_stmt_sql_p 1, 37, 4, none,
              some (.param_number 1 [0x41, 0x42, 0x43])⟩], some 41⟩ := by
  decide

/-- C23, counterexample: the second descriptor of `params_sample_wide_number`
(offset 34) has the magic fields (0x0300, 0x0109), not (0x0300, 0x0001), and the
flag byte 0x01.  It is read as a descriptor of 18 bytes, and both values are
emitted. -/
theorem descriptor_magic_counterexample :
    tvb_get_ntohs params_sample_wide_number 34 = some 0x0300
      ∧ tvb_get_ntohs params_sample_wide_number 36 = some 0x0109
      ∧ tvb_get_guint8 params_sample_wide_number 38 = some 0x01
      ∧ read_descriptor params_sample_wide_number 34
          = some (some (⟨768, 265, 1, 1, 0, 0, 515, 26881, 7⟩, 52))
      ∧ dissect_tns_data_sql_params params_sample_wide_number 0 params_sample_zero_ttci
          = ⟨[⟨.subtree, 52, 5, none, some (.subtree "TTC/TTI SQL Parameters")⟩,
              ⟨.hf_tns_data_ttic_stmt_sql_p 1, 52, 3, none,
                some (.param_number 1 [0x41, 0x42])⟩,
              ⟨.hf_tns_data_ttic_stmt_sql_p 2, 55, 2, none, some (.param_number 2 [0x43])⟩],
            some 57⟩ := by
  decide

/-- C23, witness: the second descriptor of `params_sample_bad_magic` (offset 34)
has the magic fields (0x0400, 0x0002); the descriptor loop is left as invalid in
its second pass and the function returns its entry offset 0 without an item. -/
theorem descriptor_magic_both_differ_witness :
    (read_descriptor params_sample_bad_magic 34 = some none
        ∧ load_descriptors params_sample_bad_magic 2 (0 + 1) 1 34
            [⟨768, 1, 40, 1, 16, 0, 515, 26881, 1⟩, pd_itm_zero, pd_itm_zero] = .invalid)
      ∧ tvb_get_ntohs params_sample_bad_magic 34 = some 0x0400
      ∧ tvb_get_ntohs params_sample_bad_magic 36 = some 0x0002
      ∧ dissect_tns_data_sql_params params_sample_bad_magic 0 params_sample_zero_ttci
          = ⟨[], some 0⟩ :=
  ⟨(descriptor_magic_both_differ params_sample_bad_magic 2 0 1 34
      [⟨768, 1, 40, 1, 16, 0, 515, 26881, 1⟩, pd_itm_zero, pd_itm_zero] 0x0400 0x0002 0x28
      (by decide) (by decide) (by decide) (by decide)).1 ⟨by decide, by decide⟩,
    by decide, by decide, by decide⟩

/-- C24, witness: the descriptor of `params_sample_three` at offset 34 has the
flag 0x16 and takes 15 bytes; the one at offset 18 (flag 0x28) takes 16 bytes;
the one of `params_sample_wide` at offset 34 (flag 0x01, `magic_2` 0x0109) takes
18 bytes. -/
theorem descriptor_sizes_witness :
    (∃ u1 u2 u3 k1 k2 k3,
        read_descriptor params_sample_three 34
            = some (some (⟨0x0300, 0x0001, 0x16, u1, u2, u3, k1, k2, k3⟩, 34 + 15))
          ∧ tvb_get_ntohs params_sample_three (34 + 5) = some u1
          ∧ tvb_get_guint8 params_sample_three (34 + 7) = some u2
          ∧ tvb_get_guint8 params_sample_three (34 + 8) = some u3
          ∧ tvb_get_ntohs params_sample_three (34 + 9) = some k1
          ∧ tvb_get_ntohs params_sample_three (34 + 11) = some k2
          ∧ tvb_get_ntohs params_sample_three (34 + 13) = some k3)
      ∧ read_descriptor params_sample_three 34
          = some (some (⟨768, 1, 22, 0, 0, 0, 515, 26881, 12⟩, 49))
      ∧ read_descriptor params_sample_three 18
          = some (some (⟨768, 1, 40, 1, 16, 0, 515, 26881, 2⟩, 34))
      ∧ read_descriptor params_sample_wide 34
          = some (some (⟨768, 265, 1, 1, 16, 0, 515, 26881, 7⟩, 52)) :=
  ⟨(descriptor_sizes params_sample_three 34 0x0300 0x0001 0x16 (by decide) (by decide)
      (by decide) (by decide)).1 (Or.inl rfl) (by decide),
    by decide, by decide, by decide⟩

/-- C25, witness: with the parameter count 5 the descriptor loop over
`params_sample_three` is left in its third pass, at the descriptor with the
marker fields `69 01` and `00 07`, with the cursor 65 right behind it. -/
theorem descriptor_loop_stops_at_marker_witness :
    load_descriptors params_sample_three 5 (0 + 1) 2 49
        [⟨768, 1, 40, 1, 16, 0, 515, 26881, 2⟩, ⟨768, 1, 22, 0, 0, 0, 515, 26881, 12⟩,
          pd_itm_zero, pd_itm_zero, pd_itm_zero, pd_itm_zero]
        = .loaded
            ([⟨768, 1, 40, 1, 16, 0, 515, 26881, 2⟩, ⟨768, 1, 22, 0, 0, 0, 515, 26881, 12⟩,
              pd_itm_zero, pd_itm_zero, pd_itm_zero, pd_itm_zero].set 2
              ⟨768, 1, 40, 2816, 4, 0, 515, 26881, 7⟩) 65
      ∧ load_descriptors params_sample_three 5 5 0 18 (List.replicate 6 pd_itm_zero)
        = .loaded
            [⟨768, 1, 40, 1, 16, 0, 515, 26881, 2⟩, ⟨768, 1, 22, 0, 0, 0, 515, 26881, 12⟩,
              ⟨768, 1, 40, 2816, 4, 0, 515, 26881, 7⟩, pd_itm_zero, pd_itm_zero, pd_itm_zero]
            65 :=
  ⟨((descriptor_loop_stops_at_marker params_sample_three 5 0 2 49
        [⟨768, 1, 40, 1, 16, 0, 515, 26881, 2⟩, ⟨768, 1, 22, 0, 0, 0, 515, 26881, 12⟩,
          pd_itm_zero, pd_itm_zero, pd_itm_zero, pd_itm_zero]).2.1 (by decide)
        ⟨768, 1, 40, 2816, 4, 0, 515, 26881, 7⟩ 65 (by decide)).1 ⟨rfl, rfl⟩,
    by decide⟩

/-- C26, witness: the only descriptor of `params_sample_marker_first` carries the
marker fields and the properties `0B 00` and `04`; it is stored in slot 0, and
the first value `02 41 42` at offset 34 is labelled by it (Date/Time).  The
second value `01 43` at offset 37 has the index 1, behind the slot of the marker
descriptor: its slot is zero and the value is labelled Number. -/
theorem marker_descriptor_labels_value_witness :
    load_descriptors params_sample_marker_first 2 (1 + 1) 0 18 (List.replicate 3 pd_itm_zero)
        = .loaded
            ((List.replicate 3 pd_itm_zero).set 0 ⟨768, 1, 40, 2816, 4, 0, 515, 26881, 7⟩) 34
      ∧ ((List.replicate 3 pd_itm_zero).set 0 ⟨768, 1, 40, 2816, 4, 0, 515, 26881, 7⟩).getD 0
          pd_itm_zero = ⟨768, 1, 40, 2816, 4, 0, 515, 26881, 7⟩
      ∧ value_loop params_sample_marker_first 2
          ((List.replicate 3 pd_itm_zero).set 0 ⟨768, 1, 40, 2816, 4, 0, 515, 26881, 7⟩) 5
          (1 + 1) 0 0 34
        = Dis.andThen
            ⟨[⟨.hf_tns_data_ttic_stmt_sql_p 1, 34, 2 + 1, none,
                some (.param_datetime (0 + 1)
                  ((params_sample_marker_first.drop (34 + 1)).take 2))⟩],
              some ()⟩
            (fun _ => value_loop params_sample_marker_first 2
              ((List.replicate 3 pd_itm_zero).set 0 ⟨768, 1, 40, 2816, 4, 0, 515, 26881, 7⟩) 5 1
              (0 + 2) (0 + 1) (34 + 1 + 2))
      ∧ ([⟨768, 1, 40, 2816, 4, 0, 515, 26881, 7⟩, pd_itm_zero, pd_itm_zero].getD 1 pd_itm_zero
          = pd_itm_zero)
      ∧ value_loop params_sample_marker_first 2
          [⟨768, 1, 40, 2816, 4, 0, 515, 26881, 7⟩, pd_itm_zero, pd_itm_zero] 5 (0 + 1) 2 1 37
        = Dis.andThen
            ⟨[⟨.hf_tns_data_ttic_stmt_sql_p 2, 37, 1 + 1, none,
                some (.param_number (1 + 1)
                  ((params_sample_marker_first.drop (37 + 1)).take 1))⟩],
              some ()⟩
            (fun _ => value_loop params_sample_marker_first 2
              [⟨768, 1, 40, 2816, 4, 0, 515, 26881, 7⟩, pd_itm_zero, pd_itm_zero] 5 0
              (2 + 1) (1 + 1) (37 + 1 + 1))
      ∧ dissect_tns_data_sql_params params_sample_marker_first 0 params_sample_zero_ttci
        = ⟨[⟨.subtree, 34, 5, none, some (.subtree "TTC/TTI SQL Parameters")⟩,
            ⟨.hf_tns_data_ttic_stmt_sql_p 1, 34, 3, none,
              some (.param_datetime 1 [0x41, 0x42])⟩,
            ⟨.hf_tns_data_ttic_stmt_sql_p 2, 37, 2, none, some (.param_number 2 [0x43])⟩],
          some 39⟩ :=
  have h := marker_descriptor_labels_value params_sample_marker_first 2 1 0 18
    (List.replicate 3 pd_itm_zero) ⟨768, 1, 40, 2816, 4, 0, 515, 26881, 7⟩ 34 (by decide)
    (by decide) (by decide) ⟨rfl, rfl⟩
  have h6 := h.2.2.2.2.2 2 18
    [⟨768, 1, 40, 2816, 4, 0, 515, 26881, 7⟩, pd_itm_zero, pd_itm_zero] 34 (by decide) 0
    (by decide) 1 (by decide)
  ⟨h.1, h.2.1,
    h.2.2.2.1 (by decide) 5 1 0 34 2 (.hf_tns_data_ttic_stmt_sql_p 1) (by decide) rfl
      (by decide) (by decide) (by decide),
    h6.1,
    h6.2 5 0 2 37 1 (.hf_tns_data_ttic_stmt_sql_p 2) (by decide) (by decide) rfl (by decide)
      (by decide) (by decide),
    by decide⟩

/-! ## The tags of the bind values -/

theorem raise_andThen {α β : Type} (f : α → Dis β) :
    Dis.andThen (Dis.raise : Dis α) f = Dis.raise := rfl

theorem tvb_get_letohs_of_le (tvb : Tvb) (offset : Nat) (h : offset + 2 ≤ tvb.length) :
    ∃ v, tvb_get_letohs tvb offset = some v := by
  obtain ⟨a, ha⟩ := tvb_get_guint8_of_lt tvb offset (by omega)
  obtain ⟨b, hb⟩ := tvb_get_guint8_of_lt tvb (offset + 1) (by omega)
  exact ⟨b * 256 + a, by simp [tvb_get_letohs, ha, hb]⟩

theorem tvb_get_letohl_of_le (tvb : Tvb) (offset : Nat) (h : offset + 4 ≤ tvb.length) :
    ∃ v, tvb_get_letohl tvb offset = some v := by
  obtain ⟨a, ha⟩ := tvb_get_letohs_of_le tvb offset (by omega)
  obtain ⟨b, hb⟩ := tvb_get_letohs_of_le tvb (offset + 2) (by omega)
  exact ⟨b * 65536 + a, by simp [tvb_get_letohl, ha, hb]⟩

theorem add_item_of_le (tvb : Tvb) (hf : Hf) (start length : Nat)
    (h : start + length ≤ tvb.length) :
    proto_tree_add_item tvb hf start length = ⟨[⟨hf, start, length, none, none⟩], some ()⟩ := by
  unfold proto_tree_add_item
  rw [if_pos h]

theorem opi_version2_v1 (tvb : Tvb) (o L v : Nat) (hL : tvb_get_guint8 tvb (o + 1) = some L)
    (hv : tvb_get_ntohl tvb (o + L + 3) = some v) (hfit : o + L + 7 ≤ tvb.length) :
    opi_version2 tvb 1 o
      = ⟨[⟨.hf_tns_data_unused, o, 1, none, none⟩,
          ⟨.hf_tns_data_opi_version2_banner_len, o + 1, 1, some L, none⟩,
          ⟨.hf_tns_data_opi_version2_banner, o + 2, L, none, none⟩,
          ⟨.hf_tns_data_opi_version2_vsnum, o + L + 3, 4, some v, none⟩],
        some (o + L + 7)⟩ := by
  have e1 : o + 1 + 1 + L + 1 = o + L + 3 := by omega
  have e2 : o + L + 3 + 4 = o + L + 7 := by omega
  unfold opi_version2
  simp only [dis_bind_eq, dis_pure_eq, add_item_of_le tvb .hf_tns_data_unused o 1 (by omega),
    hL, add_uint_some, andThen_mk, read_some_andThen,
    add_item_of_le tvb .hf_tns_data_opi_version2_banner (o + 1 + 1) L (by omega), if_true, e1,
    hv, e2, ret_items, ret_val, List.append_nil, List.singleton_append, List.cons_append,
    List.nil_append]

theorem opi_version2_v2 (tvb : Tvb) (o L v : Nat) (hL : tvb_get_guint8 tvb (o + 2) = some L)
    (hv : tvb_get_letohl tvb (o + L + 3) = some v) (hfit : o + L + 7 ≤ tvb.length) :
    opi_version2 tvb 2 o
      = ⟨[⟨.hf_tns_data_unused, o, 2, none, none⟩,
          ⟨.hf_tns_data_opi_version2_banner_len, o + 2, 1, some L, none⟩,
          ⟨.hf_tns_data_opi_version2_banner, o + 3, L, none, none⟩,
          ⟨.hf_tns_data_opi_version2_vsnum, o + L + 3, 4, some v, none⟩],
        some (o + L + 7)⟩ := by
  have e1 : o + 2 + 1 + L + 0 = o + L + 3 := by omega
  have e2 : o + L + 3 + 4 = o + L + 7 := by omega
  have e3 : (2 : Nat) = 1 ↔ False := by decide
  unfold opi_version2
  simp only [dis_bind_eq, dis_pure_eq, add_item_of_le tvb .hf_tns_data_unused o 2 (by omega),
    hL, add_uint_some, andThen_mk, read_some_andThen,
    add_item_of_le tvb .hf_tns_data_opi_version2_banner (o + 2 + 1) L (by omega), e3, if_false,
    e1, hv, e2, ret_items, ret_val, List.append_nil, List.singleton_append, List.cons_append,
    List.nil_append]

theorem data_switch_opi (tvb : Tvb) (o : Nat) (is_request : Bool) (skip : Nat)
    (hdet : opi_detect tvb o = (OPI_VERSION2, skip)) :
    data_switch tvb o is_request SQLNET_RETURN_OPI_PARAM
      = Dis.andThen (opi_version2 tvb skip o) (fun offset => Dis.ret (some offset)) := by
  unfold data_switch
  rw [if_neg (by decide), if_neg (by decide), if_pos rfl, hdet]
  simp only [if_true, dis_bind_eq, dis_pure_eq]

/-- C29: a Return OPI Parameter payload that starts at `o`, right behind the id
byte, and has at least 11 bytes.  With `Orac` at `o + 2`: one unused byte at `o`,
the banner length `L` is the byte at `o + 1`, the banner is the `L` bytes at
`o + 2`, one byte is passed over, and the version is the 4 bytes at `o + L + 3`
read big-endian.  With `Orac` at `o + 3` and not at `o + 2`: two unused bytes at
`o`, `L` is the byte at `o + 2`, the banner is the `L` bytes at `o + 3`, and the
version is the 4 bytes at `o + L + 3` read little-endian.  In both cases the
remainder handed on starts at `o + L + 7`. -/
theorem opi_version_banner_layout (tvb : Tvb) (o : Nat) (is_request : Bool) (L : Nat)
    (hex : o + 11 ≤ tvb.length) (hfit : o + L + 7 ≤ tvb.length) :
    (tvb_get_ntohl tvb (o + 2) = some 0x4f726163 → tvb_get_guint8 tvb (o + 1) = some L →
        data_switch tvb o is_request SQLNET_RETURN_OPI_PARAM
          = ⟨[⟨.hf_tns_data_unused, o, 1, none, none⟩,
              ⟨.hf_tns_data_opi_version2_banner_len, o + 1, 1, some L, none⟩,
              ⟨.hf_tns_data_opi_version2_banner, o + 2, L, none, none⟩,
              ⟨.hf_tns_data_opi_version2_vsnum, o + L + 3, 4, tvb_get_ntohl tvb (o + L + 3),
                none⟩],
            some (some (o + L + 7))⟩)
      ∧ (tvb_get_ntohl tvb (o + 2) ≠ some 0x4f726163 →
        tvb_get_ntohl tvb (o + 3) = some 0x4f726163 → tvb_get_guint8 tvb (o + 2) = some L →
        data_switch tvb o is_request SQLNET_RETURN_OPI_PARAM
          = ⟨[⟨.hf_tns_data_unused, o, 2, none, none⟩,
              ⟨.hf_tns_data_opi_version2_banner_len, o + 2, 1, some L, none⟩,
              ⟨.hf_tns_data_opi_version2_banner, o + 3, L, none, none⟩,
              ⟨.hf_tns_data_opi_version2_vsnum, o + L + 3, 4, tvb_get_letohl tvb (o + L + 3),
                none⟩],
            some (some (o + L + 7))⟩) := by
  have hbe : tvb_bytes_exist tvb o 11 = true := by
    unfold tvb_bytes_exist
    simp only [decide_eq_true_eq]
    exact hex
  constructor
  · intro horac hL
    obtain ⟨v, hv⟩ := tvb_get_ntohl_of_le tvb (o + L + 3) (by omega)
    have hdet : opi_detect tvb o = (OPI_VERSION2, 1) := by
      unfold opi_detect
      rw [if_pos hbe, if_pos horac]
    rw [data_switch_opi tvb o is_request 1 hdet, opi_version2_v1 tvb o L v hL hv hfit, hv]
    rfl
  · intro hn horac hL
    obtain ⟨v, hv⟩ := tvb_get_letohl_of_le tvb (o + L + 3) (by omega)
    have hdet : opi_detect tvb o = (OPI_VERSION2, 2) := by
      unfold opi_detect
      rw [if_pos hbe, if_neg hn, if_pos horac]
    rw [data_switch_opi tvb o is_request 2 hdet, opi_version2_v2 tvb o L v hL hv hfit, hv]
    rfl

/-- Witness for C29: `opi_sample_v1` has `Orac` at offset 2 and the version bytes
`0B 02 00 01`, `opi_sample_v2` has `Orac` at offset 3 and the version bytes
`01 00 02 0B`; both yield the banner `Oracle` and the version 0x0B020001. -/
theorem opi_version_banner_layout_witness :
    data_switch opi_sample_v1 0 false SQLNET_RETURN_OPI_PARAM
        = ⟨[⟨.hf_tns_data_unused, 0, 1, none, none⟩,
            ⟨.hf_tns_data_opi_version2_banner_len, 1, 1, some 6, none⟩,
            ⟨.hf_tns_data_opi_version2_banner, 2, 6, none, none⟩,
            ⟨.hf_tns_data_opi_version2_vsnum, 9, 4, some 0x0b020001, none⟩],
          some (some 13)⟩
      ∧ data_switch opi_sample_v2 0 false SQLNET_RETURN_OPI_PARAM
        = ⟨[⟨.hf_tns_data_unused, 0, 2, none, none⟩,
            ⟨.hf_tns_data_opi_version2_banner_len, 2, 1, some 6, none⟩,
            ⟨.hf_tns_data_opi_version2_banner, 3, 6, none, none⟩,
            ⟨.hf_tns_data_opi_version2_vsnum, 9, 4, some 0x0b020001, none⟩],
          some (some 13)⟩
      ∧ (opi_sample_v1.drop 2).take 6 = [0x4f, 0x72, 0x61, 0x63, 0x6c, 0x65]
      ∧ (opi_sample_v2.drop 3).take 6 = [0x4f, 0x72, 0x61, 0x63, 0x6c, 0x65] :=
  ⟨(opi_version_banner_layout opi_sample_v1 0 false 6 (by decide) (by decide)).1 (by decide)
      (by decide),
    (opi_version_banner_layout opi_sample_v2 0 false 6 (by decide) (by decide)).2 (by decide)
      (by decide) (by decide),
    by decide, by decide⟩

/-! ## User OCI Functions -/

theorem andThen_assoc {α β γ : Type} (m : Dis α) (f : α → Dis β) (g : β → Dis γ) :
    Dis.andThen (Dis.andThen m f) g = Dis.andThen m (fun a => Dis.andThen (f a) g) := by
  obtain ⟨its, v⟩ := m
  cases v with
  | none => rfl
  | some a =>
    simp only [andThen_mk]
    cases hv : (f a).val with
    | none => simp [Dis.andThen, hv]
    | some b => simp [Dis.andThen, hv, List.append_assoc]

/-- C30: a User OCI Functions payload whose OCI call-id byte `c` is at `o`.  When
at least four bytes follow it, the packet number is the byte at `o + 1`, the
16-bit field is read big-endian at `o + 2` and the request type is the byte at
`o + 4`; for the request type 0x29 the SQL decoder is called at `o + 5` with
these three values in an otherwise zero context and its result is the offset
handed on, for every other request type nothing more is read and the remainder
handed on starts at `o + 5`.  When fewer than four bytes follow the call-id
byte, only its item is added, the SQL decoder is not called and the remainder
starts at `o + 1`. -/
theorem oci_request_dispatch (tvb : Tvb) (o : Nat) (is_request : Bool) (c : Nat)
    (hc : tvb_get_guint8 tvb o = some c) :
    (o + 5 ≤ tvb.length → ∀ pn u1 rt, tvb_get_guint8 tvb (o + 1) = some pn →
        tvb_get_ntohs tvb (o + 2) = some u1 → tvb_get_guint8 tvb (o + 4) = some rt →
        (rt = SQLNET_TTCI_REQ_SQLSTMT →
            data_switch tvb o is_request SQLNET_USER_OCI_FUNC
              = Dis.andThen
                  ⟨[⟨.hf_tns_data_oci_id, o, 1, some c, none⟩,
                    ⟨.hf_tns_data_ttic_pkt_number, o + 1, 1, some pn, none⟩,
                    ⟨.hf_tns_data_ttic_pkt_unknown_1, o + 2, 2, some u1, none⟩,
                    ⟨.hf_tns_data_ttic_req_type, o + 4, 1, some rt, none⟩], some ()⟩
                  (fun _ => Dis.andThen
                    (dissect_tns_data_sql tvb (o + 5)
                      { ttci_packet_zero with packet_number := pn, unknown_1 := u1,
                                              request_type := rt })
                    (fun offset => Dis.ret (some offset))))
          ∧ (rt ≠ SQLNET_TTCI_REQ_SQLSTMT →
            data_switch tvb o is_request SQLNET_USER_OCI_FUNC
              = ⟨[⟨.hf_tns_data_oci_id, o, 1, some c, none⟩,
                  ⟨.hf_tns_data_ttic_pkt_number, o + 1, 1, some pn, none⟩,
                  ⟨.hf_tns_data_ttic_pkt_unknown_1, o + 2, 2, some u1, none⟩,
                  ⟨.hf_tns_data_ttic_req_type, o + 4, 1, some rt, none⟩],
                some (some (o + 5))⟩))
      ∧ (tvb.length < o + 5 →
          data_switch tvb o is_request SQLNET_USER_OCI_FUNC
            = ⟨[⟨.hf_tns_data_oci_id, o, 1, some c, none⟩], some (some (o + 1))⟩) := by
  have hlt : o < tvb.length := by
    simp only [tvb_get_guint8, Option.map_eq_some', List.get?_eq_getElem?] at hc
    obtain ⟨x, hx, _⟩ := hc
    exact (List.getElem?_eq_some_iff.mp hx).1
  have hrem : tvb_reported_length_remaining tvb o > 0 := by
    unfold tvb_reported_length_remaining
    omega
  have hsw : data_switch tvb o is_request SQLNET_USER_OCI_FUNC
      = Dis.andThen (data_user_oci_func tvb o) (fun offset => Dis.ret (some offset)) := by
    unfold data_switch
    rw [if_neg (by decide), if_pos rfl]
    rfl
  constructor
  · intro hlen pn u1 rt hpn hu1 hrt
    have hrem3 : tvb_reported_length_remaining tvb (o + 1) > 3 := by
      unfold tvb_reported_length_remaining
      omega
    have e1 : o + 1 + 1 = o + 2 := rfl
    have e2 : o + 2 + 2 = o + 4 := rfl
    have e3 : o + 4 + 1 = o + 5 := rfl
    constructor
    · intro heq
      have hoci : data_user_oci_func tvb o
          = Dis.andThen
              ⟨[⟨.hf_tns_data_oci_id, o, 1, some c, none⟩,
                ⟨.hf_tns_data_ttic_pkt_number, o + 1, 1, some pn, none⟩,
                ⟨.hf_tns_data_ttic_pkt_unknown_1, o + 2, 2, some u1, none⟩,
                ⟨.hf_tns_data_ttic_req_type, o + 4, 1, some rt, none⟩], some ()⟩
              (fun _ => dissect_tns_data_sql tvb (o + 5)
                { ttci_packet_zero with packet_number := pn, unknown_1 := u1,
                                        request_type := rt }) := by
        unfold data_user_oci_func
        simp only [dis_bind_eq, dis_pure_eq, if_pos hrem, hc, add_uint_some, andThen_mk,
          ret_andThen, if_pos hrem3, hpn, e1, hu1, e2, hrt, e3, if_pos heq, ret_items, ret_val,
          List.append_nil, List.singleton_append, List.cons_append, List.nil_append,
          List.append_assoc]
      rw [hsw, hoci, andThen_assoc]
    · intro hne
      rw [hsw]
      unfold data_user_oci_func
      simp only [dis_bind_eq, dis_pure_eq, if_pos hrem, hc, add_uint_some, andThen_mk,
        ret_andThen, if_pos hrem3, hpn, e1, hu1, e2, hrt, e3, if_neg hne, ret_items, ret_val,
        List.append_nil, List.singleton_append, List.cons_append, List.nil_append,
        List.append_assoc]
  · intro hshort
    have hrem3 : ¬ tvb_reported_length_remaining tvb (o + 1) > 3 := by
      unfold tvb_reported_length_remaining
      omega
    have hz : ¬ (ttci_packet_zero.request_type = SQLNET_TTCI_REQ_SQLSTMT) := by decide
    rw [hsw]
    unfold data_user_oci_func
    simp only [dis_bind_eq, dis_pure_eq, if_pos hrem, hc, add_uint_some, andThen_mk,
      ret_andThen, if_neg hrem3, if_neg hz, ret_items, ret_val,
      List.append_nil, List.singleton_append, List.cons_append, List.nil_append,
      List.append_assoc]

/-- Witness for C30: `oci_sample_sql` carries the request type 0x29 and the SQL
decoder runs at offset 5, adding the statement item; the payload
`5E 01 00 00 0E AA` carries the request type 0x0E and the payload `5E 01 02` is
too short: for both the remainder handed on starts behind the bytes read. -/
theorem oci_request_dispatch_witness :
    data_switch oci_sample_sql 0 true SQLNET_USER_OCI_FUNC
        = Dis.andThen
            ⟨[⟨.hf_tns_data_oci_id, 0, 1, some 0x5e, none⟩,
              ⟨.hf_tns_data_ttic_pkt_number, 1, 1, some 1, none⟩,
              ⟨.hf_tns_data_ttic_pkt_unknown_1, 2, 2, some 0, none⟩,
              ⟨.hf_tns_data_ttic_req_type, 4, 1, some 0x29, none⟩], some ()⟩
            (fun _ => Dis.andThen
              (dissect_tns_data_sql oci_sample_sql (0 + 5)
                { ttci_packet_zero with packet_number := 1, unknown_1 := 0,
                                        request_type := 0x29 })
              (fun offset => Dis.ret (some offset)))
      ∧ data_switch oci_sample_sql 0 true SQLNET_USER_OCI_FUNC
        = ⟨[⟨.hf_tns_data_oci_id, 0, 1, some 0x5e, none⟩,
            ⟨.hf_tns_data_ttic_pkt_number, 1, 1, some 1, none⟩,
            ⟨.hf_tns_data_ttic_pkt_unknown_1, 2, 2, some 0, none⟩,
            ⟨.hf_tns_data_ttic_req_type, 4, 1, some 0x29, none⟩,
            ⟨.hf_tns_data_ttic_pkt_unknown_3, 7, 2, some 0, none⟩,
            ⟨.hf_tns_data_ttic_data_direction, 15, 1, some 0x7f, none⟩,
            ⟨.hf_tns_data_ttic_param_count, 21, 1, some 0, none⟩,
            ⟨.hf_tns_data_ttic_stmt_sql, 41, 18, none,
              some (.stmt [0x53, 0x45, 0x4c, 0x45, 0x43, 0x54, 0x20, 0x31, 0x20, 0x46, 0x52,
                0x4f, 0x4d, 0x20, 0x44, 0x55, 0x41, 0x4c])⟩],
          some (some 59)⟩
      ∧ data_switch [0x5e, 0x01, 0x00, 0x00, 0x0e, 0xaa] 0 true SQLNET_USER_OCI_FUNC
        = ⟨[⟨.hf_tns_data_oci_id, 0, 1, some 0x5e, none⟩,
            ⟨.hf_tns_data_ttic_pkt_number, 1, 1, some 1, none⟩,
            ⟨.hf_tns_data_ttic_pkt_unknown_1, 2, 2, some 0, none⟩,
            ⟨.hf_tns_data_ttic_req_type, 4, 1, some 0x0e, none⟩],
          some (some 5)⟩
      ∧ data_switch [0x5e, 0x01, 0x02] 0 true SQLNET_USER_OCI_FUNC
        = ⟨[⟨.hf_tns_data_oci_id, 0, 1, some 0x5e, none⟩], some (some 1)⟩ :=
  ⟨((oci_request_dispatch oci_sample_sql 0 true 0x5e (by decide)).1 (by decide) 1 0 0x29
      (by decide) (by decide) (by decide)).1 rfl,
    by decide, by decide, by decide⟩

/-! ## The version text: `vsnum_to_vstext_basecustom` -/

set_option maxRecDepth 100000 in
theorem fmt_d_value : ∀ n, n < 256 →
    (fmt_d n).foldl (fun acc c => acc * 10 + (c.toNat - 48)) 0 = n := by
  decide

set_option maxRecDepth 100000 in
theorem fmt_d_no_dot : ∀ n, n < 256 → '.' ∉ fmt_d n := by
  decide

theorem fmt_d_inj (a b : Nat) (ha : a < 256) (hb : b < 256) (h : fmt_d a = fmt_d b) : a = b := by
  have h1 := fmt_d_value a ha
  have h2 := fmt_d_value b hb
  rw [h] at h1
  exact h1.symm.trans h2

theorem dot_split (a c : List Char) (ha : '.' ∉ a) (hc : '.' ∉ c) :
    ∀ (b d : List Char), a ++ ('.' :: b) = c ++ ('.' :: d) → a = c ∧ b = d := by
  induction a generalizing c with
  | nil =>
    intro b d h
    cases c with
    | nil => simpa using h
    | cons y ys =>
      simp only [List.nil_append, List.cons_append, List.cons.injEq] at h
      exact absurd (by simp [← h.1]) hc
  | cons x xs ih =>
    intro b d h
    cases c with
    | nil =>
      simp only [List.nil_append, List.cons_append, List.cons.injEq] at h
      exact absurd (by simp [h.1]) ha
    | cons y ys =>
      simp only [List.cons_append, List.cons.injEq] at h
      have := ih ys (fun hm => ha (List.mem_cons_of_mem _ hm))
        (fun hm => hc (List.mem_cons_of_mem _ hm)) b d h.2
      exact ⟨by rw [h.1, this.1], this.2⟩

theorem vsnum_fields_div (v : Nat) :
    v >>> 24 = v / 16777216 ∧ (v >>> 20) &&& 0xf = v / 1048576 % 16
      ∧ (v >>> 12) &&& 0xf = v / 4096 % 16 ∧ (v >>> 8) &&& 0xf = v / 256 % 16
      ∧ v &&& 0xff = v % 256 := by
  have e4 : ∀ x : Nat, x &&& 0xf = x % 16 := fun x => Nat.and_pow_two_sub_one_eq_mod x 4
  have e8 : ∀ x : Nat, x &&& 0xff = x % 256 := fun x => Nat.and_pow_two_sub_one_eq_mod x 8
  refine ⟨?_, ?_, ?_, ?_, e8 v⟩
  · rw [Nat.shiftRight_eq_div_pow]
  · rw [e4, Nat.shiftRight_eq_div_pow]
  · rw [e4, Nat.shiftRight_eq_div_pow]
  · rw [e4, Nat.shiftRight_eq_div_pow]

theorem low_bits_iff (v w : Nat) :
    v % 65536 = w % 65536 ↔ ∀ i, i < 16 → v.testBit i = w.testBit i := by
  constructor
  · intro h i hi
    rw [show (65536 : Nat) = 2 ^ 16 from rfl] at h
    have := congrArg (fun x => Nat.testBit x i) h
    simp only [Nat.testBit_mod_two_pow, hi, decide_True, Bool.true_and] at this
    exact this
  · intro h
    apply Nat.eq_of_testBit_eq
    intro i
    rw [show (65536 : Nat) = 2 ^ 16 from rfl, Nat.testBit_mod_two_pow, Nat.testBit_mod_two_pow]
    by_cases hi : i < 16
    · simp [hi, h i hi]
    · simp [hi]

theorem high_bits_iff (v w : Nat) :
    v / 1048576 = w / 1048576 ↔ ∀ i, 20 ≤ i → v.testBit i = w.testBit i := by
  rw [show (1048576 : Nat) = 2 ^ 20 from rfl, ← Nat.shiftRight_eq_div_pow,
    ← Nat.shiftRight_eq_div_pow]
  constructor
  · intro h i hi
    have := congrArg (fun x => Nat.testBit x (i - 20)) h
    simp only [Nat.testBit_shiftRight] at this
    rwa [show 20 + (i - 20) = i by omega] at this
  · intro h
    apply Nat.eq_of_testBit_eq
    intro i
    rw [Nat.testBit_shiftRight, Nat.testBit_shiftRight]
    exact h _ (by omega)

theorem vstext_eq_iff_fields (v w : Nat) (hv : v < 2 ^ 32) (hw : w < 2 ^ 32) :
    vsnum_to_vstext_basecustom v = vsnum_to_vstext_basecustom w
      ↔ (v / 1048576 = w / 1048576 ∧ v % 65536 = w % 65536) := by
  obtain ⟨a1, a2, a3, a4, a5⟩ := vsnum_fields_div v
  obtain ⟨b1, b2, b3, b4, b5⟩ := vsnum_fields_div w
  simp only [vsnum_to_vstext_basecustom, a1, a2, a3, a4, a5, b1, b2, b3, b4, b5]
  constructor
  · intro h
    have h := congrArg String.data h
    have d : ∀ n, n < 256 → '.' ∉ fmt_d n := fmt_d_no_dot
    obtain ⟨e1, h⟩ := dot_split _ _ (d _ (by omega)) (d _ (by omega)) _ _ h
    obtain ⟨e2, h⟩ := dot_split _ _ (d _ (by omega)) (d _ (by omega)) _ _ h
    obtain ⟨e3, h⟩ := dot_split _ _ (d _ (by omega)) (d _ (by omega)) _ _ h
    obtain ⟨e4, e5⟩ := dot_split _ _ (d _ (by omega)) (d _ (by omega)) _ _ h
    have f1 := fmt_d_inj _ _ (by omega) (by omega) e1
    have f2 := fmt_d_inj _ _ (by omega) (by omega) e2
    have f3 := fmt_d_inj _ _ (by omega) (by omega) e3
    have f4 := fmt_d_inj _ _ (by omega) (by omega) e4
    have f5 := fmt_d_inj _ _ (by omega) (by omega) e5
    omega
  · intro ⟨h1, h2⟩
    have f1 : v / 16777216 = w / 16777216 := by omega
    have f2 : v / 1048576 % 16 = w / 1048576 % 16 := by omega
    have f3 : v / 4096 % 16 = w / 4096 % 16 := by omega
    have f4 : v / 256 % 16 = w / 256 % 16 := by omega
    have f5 : v % 256 = w % 256 := by omega
    rw [f1, f2, f3, f4, f5]

theorem vstext_intercalate (v : Nat) :
    vsnum_to_vstext_basecustom v
      = String.intercalate "." [Nat.repr (v >>> 24), Nat.repr ((v >>> 20) &&& 0xf),
          Nat.repr ((v >>> 12) &&& 0xf), Nat.repr ((v >>> 8) &&& 0xf),
          Nat.repr (v &&& 0xff)] := by
  simp [vsnum_to_vstext_basecustom, String.intercalate, String.intercalate.go, Nat.repr,
    List.asString, fmt_d, String.ext_iff]

/-- C39: for every 32-bit value `v` the text of `vsnum_to_vstext_basecustom` is the
decimal numbers `v >> 24`, `(v >> 20) & 0xF`, `(v >> 12) & 0xF`, `(v >> 8) & 0xF` and
`v & 0xFF` joined by dots; and two 32-bit values have the same text exactly when
they agree in every bit outside bits 16..19: values that differ only in bits
16..19 render the same, values that differ in any other bit render differently. -/
theorem vstext_ignores_bits_16_to_19 (v w : Nat) (hv : v < 2 ^ 32) (hw : w < 2 ^ 32) :
    vsnum_to_vstext_basecustom v
        = String.intercalate "." [Nat.repr (v >>> 24), Nat.repr ((v >>> 20) &&& 0xf),
            Nat.repr ((v >>> 12) &&& 0xf), Nat.repr ((v >>> 8) &&& 0xf),
            Nat.repr (v &&& 0xff)]
      ∧ (vsnum_to_vstext_basecustom v = vsnum_to_vstext_basecustom w
          ↔ ∀ i, i < 16 ∨ 20 ≤ i → v.testBit i = w.testBit i) := by
  refine ⟨vstext_intercalate v, ?_⟩
  rw [vstext_eq_iff_fields v w hv hw, low_bits_iff, high_bits_iff]
  constructor
  · rintro ⟨hh, hl⟩ i (hi | hi)
    · exact hl i hi
    · exact hh i hi
  · intro h
    exact ⟨fun i hi => h i (Or.inr hi), fun i hi => h i (Or.inl hi)⟩

/-- Witness for C39: the values 0x0B200100 and 0x0B2F0100 differ only in bits
16..19 and both render as `11.2.0.1.0`; 0x0B300100 differs from the first in bit
20 and renders as `11.3.0.1.0`. -/
theorem vstext_ignores_bits_16_to_19_witness :
    ((0x0B200100 : Nat) < 2 ^ 32 ∧ (0x0B2F0100 : Nat) < 2 ^ 32)
      ∧ (vsnum_to_vstext_basecustom 0x0B200100 = vsnum_to_vstext_basecustom 0x0B2F0100
          ↔ ∀ i, i < 16 ∨ 20 ≤ i → Nat.testBit 0x0B200100 i = Nat.testBit 0x0B2F0100 i)
      ∧ vsnum_to_vstext_basecustom 0x0B200100 = "11.2.0.1.0"
      ∧ vsnum_to_vstext_basecustom 0x0B2F0100 = "11.2.0.1.0"
      ∧ vsnum_to_vstext_basecustom 0x0B300100 = "11.3.0.1.0" :=
  ⟨⟨by decide, by decide⟩,
    (vstext_ignores_bits_16_to_19 0x0B200100 0x0B2F0100 (by decide) (by decide)).2,
    by decide, by decide, by decide⟩

/-! ## Marker and Attention packets -/

theorem dissect_tns_pdu_val (tvb : Tvb) (is_request : Bool) (h : 8 ≤ tvb.length) :
    ∃ type, tvb_get_guint8 tvb 4 = some type
      ∧ (dissect_tns_pdu tvb is_request).val = some (tns_pdu_switch type, 8) := by
  match tvb, h with
  | b0 :: b1 :: b2 :: b3 :: b4 :: b5 :: b6 :: b7 :: rest, _ =>
    refine ⟨b4.toNat, by simp [tvb_get_guint8], ?_⟩
    have h2 : tvb_get_ntohs (b0 :: b1 :: b2 :: b3 :: b4 :: b5 :: b6 :: b7 :: rest) (0 + 2)
        = some (b2.toNat * 256 + b3.toNat) := by simp [tvb_get_ntohs, tvb_get_guint8]
    simp only [dissect_tns_pdu, dis_bind_eq, dis_pure_eq, andThen_val, h2, read_val,
      proto_tree_add_item, Option.some_bind]
    by_cases hc : b2.toNat * 256 + b3.toNat = 0 ∨ b2.toNat * 256 + b3.toNat = 4
    · simp only [if_pos hc]
      simp [add_uint_val, tvb_get_ntohs, tvb_get_guint8]
    · simp only [if_neg hc]
      simp [add_uint_val, tvb_get_ntohs, tvb_get_guint8, tvb_get_ntohl]

/-- C38 fails on the code: for a packet with at least one body byte whose type
byte is 12 (Marker), `dissect_tns_pdu` calls `dissect_tns_marker` at offset 8 with
`is_attention = 0`, and that call labels its subtree `Attention`; for the type
byte 13 (Attention) the call is made with `is_attention = 1` and the subtree is
labelled `Marker`.  The two labels are exchanged. -/
theorem marker_labels_swapped (tvb : Tvb) (is_request : Bool) (type : Nat)
    (h : 8 < tvb.length) (hty : tvb_get_guint8 tvb 4 = some type) :
    (type = TNS_TYPE_MARKER →
        (dissect_tns_pdu tvb is_request).val = some (.dissect_tns_marker 0, 8)
          ∧ (dissect_tns_marker tvb 8 0).items.head?
              = some ⟨.subtree, 8, tvb.length - 8, none, some (.subtree "Attention")⟩)
      ∧ (type = TNS_TYPE_ATTENTION →
        (dissect_tns_pdu tvb is_request).val = some (.dissect_tns_marker 1, 8)
          ∧ (dissect_tns_marker tvb 8 1).items.head?
              = some ⟨.subtree, 8, tvb.length - 8, none, some (.subtree "Marker")⟩) := by
  obtain ⟨t, ht, hval⟩ := dissect_tns_pdu_val tvb is_request (Nat.le_of_lt h)
  rw [hty] at ht
  cases ht
  constructor
  · intro e
    subst e
    refine ⟨hval, ?_⟩
    simp only [dissect_tns_marker, dis_bind_eq, data_subtree_of_lt tvb 8 _ h, andThen_mk]
    rfl
  · intro e
    subst e
    refine ⟨hval, ?_⟩
    simp only [dissect_tns_marker, dis_bind_eq, data_subtree_of_lt tvb 8 _ h, andThen_mk]
    rfl

/-- Witness for C38: the Marker packet `marker_sample` is decoded under a subtree
labelled `Attention`, the Attention packet `attention_sample` under a subtree
labelled `Marker`. -/
theorem marker_labels_swapped_witness :
    ((dissect_tns_pdu marker_sample true).val = some (.dissect_tns_marker 0, 8)
        ∧ (dissect_tns_marker marker_sample 8 0).items.head?
            = some ⟨.subtree, 8, marker_sample.length - 8, none,
                some (.subtree "Attention")⟩)
      ∧ ((dissect_tns_pdu attention_sample true).val = some (.dissect_tns_marker 1, 8)
        ∧ (dissect_tns_marker attention_sample 8 1).items.head?
            = some ⟨.subtree, 8, attention_sample.length - 8, none,
                some (.subtree "Marker")⟩)
      ∧ dissect_tns_marker marker_sample 8 0
          = ⟨[⟨.subtree, 8, 3, none, some (.subtree "Attention")⟩,
              ⟨.hf_tns_marker_type, 8, 1, some 1, none⟩,
              ⟨.hf_tns_marker_data_byte, 9, 1, some 0, none⟩,
              ⟨.hf_tns_marker_data_byte, 10, 1, some 2, none⟩], some ()⟩
      ∧ dissect_tns_marker attention_sample 8 1
          = ⟨[⟨.subtree, 8, 3, none, some (.subtree "Marker")⟩,
              ⟨.hf_tns_marker_type, 8, 1, some 1, none⟩,
              ⟨.hf_tns_marker_data_byte, 9, 1, some 0, none⟩,
              ⟨.hf_tns_marker_data_byte, 10, 1, some 2, none⟩], some ()⟩ :=
  ⟨(marker_labels_swapped marker_sample true 12 (by decide) (by decide)).1 rfl,
    (marker_labels_swapped attention_sample true 13 (by decide) (by decide)).2 rfl,
    by decide, by decide⟩

/-! ## The version list of a Set Protocol message -/

theorem c_string_nonzero (l : List UInt8) : ∀ v ∈ c_string l, v ≠ 0 := by
  intro v hv
  have := List.mem_takeWhile_imp hv
  simpa using this

theorem c_string_split (l : List UInt8) :
    c_string l = l ∨ ∃ tail, l = c_string l ++ 0 :: tail := by
  induction l with
  | nil => exact Or.inl rfl
  | cons a l ih =>
    unfold c_string at ih ⊢
    by_cases ha : (a != 0) = true
    · simp only [List.takeWhile_cons, ha, if_true]
      rcases ih with h | ⟨tail, h⟩
      · exact Or.inl (by rw [h])
      · exact Or.inr ⟨tail, by rw [List.cons_append, ← h]⟩
    · simp only [List.takeWhile_cons, ha]
      have h0 : a = 0 := by simpa using ha
      exact Or.inr ⟨l, by rw [h0]; rfl⟩

theorem tvb_get_guint8_none (tvb : Tvb) (offset : Nat) (h : tvb.length ≤ offset) :
    tvb_get_guint8 tvb offset = none := by
  unfold tvb_get_guint8
  rw [List.get?_eq_none.mpr h]
  rfl

theorem setp_versions_open (tvb : Tvb) (hf : Hf) :
    ∀ (vs : List UInt8) (offset fuel : Nat),
      tvb.drop offset = vs → (∀ v ∈ vs, v ≠ 0) → vs.length < fuel →
      setp_versions tvb hf fuel offset
        = ⟨(vs.enumFrom offset).map (fun p => ⟨hf, p.1, 1, some p.2.toNat, none⟩),
            none⟩ := by
  intro vs
  induction vs with
  | nil =>
    intro offset fuel hd _ hfuel
    have hlen := length_of_drop_eq tvb offset _ hd
    have hget := tvb_get_guint8_none tvb offset (by simp only [List.length_nil] at hlen; omega)
    cases fuel with
    | zero => exact absurd hfuel (Nat.lt_irrefl _)
    | succ fuel =>
      rw [setp_versions, hget]
      rfl
  | cons a vs ih =>
    intro offset fuel hd hnz hfuel
    obtain ⟨hget, hrest⟩ := head_of_drop tvb offset a vs hd
    have ha : a.toNat ≠ 0 := by
      intro h0
      exact hnz a (List.mem_cons_self a vs) (UInt8.ext h0)
    cases fuel with
    | zero => exact absurd hfuel (Nat.not_lt_zero _)
    | succ fuel =>
      have hrec := ih (offset + 1) fuel hrest
        (fun v hv => hnz v (List.mem_cons_of_mem a hv))
        (by simp only [List.length_cons] at hfuel; omega)
      rw [setp_versions, hget]
      simp only [if_neg ha, add_uint_some, andThen_mk, hrec, List.enumFrom_cons, List.map_cons,
        List.singleton_append]

theorem setp_versions_closed (tvb : Tvb) (hf : Hf) (offset fuel : Nat)
    (hfuel : (c_string (tvb.drop offset)).length < fuel) :
    setp_versions tvb hf fuel offset
      = ⟨((c_string (tvb.drop offset)).enumFrom offset).map
            (fun p => ⟨hf, p.1, 1, some p.2.toNat, none⟩),
          if (c_string (tvb.drop offset)).length < tvb_reported_length_remaining tvb offset
          then some (offset + (c_string (tvb.drop offset)).length) else none⟩ := by
  have hrem : tvb_reported_length_remaining tvb offset = (tvb.drop offset).length := by
    simp [tvb_reported_length_remaining]
  rcases c_string_split (tvb.drop offset) with h | ⟨tail, h⟩
  · rw [setp_versions_open tvb hf _ offset fuel rfl
      (by rw [← h]; exact c_string_nonzero _) (by rw [← h]; exact hfuel)]
    rw [hrem, h, if_neg (Nat.lt_irrefl _)]
  · rw [setp_versions_list tvb hf _ offset fuel tail h (c_string_nonzero _) hfuel]
    have hl := congrArg List.length h
    simp only [List.length_append, List.length_cons] at hl
    rw [hrem, if_pos (by omega)]

/-- C37: the loop over the version bytes of a Set Protocol message, entered at
`offset` with more passes allowed than bytes remain (the model allows one more
than remain).  Write `s` for the bytes from `offset` up to, not including, the
first zero byte (or up to the end of the buffer).  The loop makes `s.length + 1`
passes, at most one more than bytes remain, whatever larger number is allowed;
it emits exactly one version item per byte of `s`, in order; when a zero byte
follows `s` it stops there with the cursor on that byte, otherwise its read at
the end of the buffer raises the bounds exception.  Both directions of
`dissect_tns_data` run this loop, the request with the accepted-version field,
the response with the version field. -/
theorem setp_versions_terminates (tvb : Tvb) (hf : Hf) (offset fuel : Nat)
    (hfuel : (c_string (tvb.drop offset)).length < fuel) :
    (c_string (tvb.drop offset)).length ≤ tvb_reported_length_remaining tvb offset
      ∧ setp_versions tvb hf fuel offset
          = setp_versions tvb hf (tvb_reported_length_remaining tvb offset + 1) offset
      ∧ (setp_versions tvb hf fuel offset).items
          = ((c_string (tvb.drop offset)).enumFrom offset).map
              (fun p => ⟨hf, p.1, 1, some p.2.toNat, none⟩)
      ∧ (setp_versions tvb hf fuel offset).items.length = (c_string (tvb.drop offset)).length
      ∧ ((c_string (tvb.drop offset)).length < tvb_reported_length_remaining tvb offset →
          (setp_versions tvb hf fuel offset).val
              = some (offset + (c_string (tvb.drop offset)).length)
            ∧ tvb_get_guint8 tvb (offset + (c_string (tvb.drop offset)).length) = some 0)
      ∧ (¬ (c_string (tvb.drop offset)).length < tvb_reported_length_remaining tvb offset →
          (setp_versions tvb hf fuel offset).val = none
            ∧ tvb_get_guint8 tvb (offset + (c_string (tvb.drop offset)).length) = none)
      ∧ data_switch tvb offset true SQLNET_SET_PROTOCOL
          = Dis.andThen (proto_tree_add_subtree tvb offset "Accepted Versions") (fun _ =>
              Dis.andThen (setp_versions tvb .hf_tns_data_setp_acc_version
                  (tvb_reported_length_remaining tvb offset + 1) offset) (fun o =>
                Dis.andThen (proto_tree_add_stringz tvb .hf_tns_data_setp_cli_plat (o + 1))
                  (fun _ => Dis.ret none)))
      ∧ data_switch tvb offset false SQLNET_SET_PROTOCOL
          = Dis.andThen (proto_tree_add_subtree tvb offset "Versions") (fun _ =>
              Dis.andThen (setp_versions tvb .hf_tns_data_setp_version
                  (tvb_reported_length_remaining tvb offset + 1) offset) (fun o =>
                Dis.andThen (proto_tree_add_stringz tvb .hf_tns_data_setp_banner (o + 1))
                  (fun len => Dis.ret (some (o + 1 + len))))) := by
  have hrem : tvb_reported_length_remaining tvb offset = (tvb.drop offset).length := by
    simp [tvb_reported_length_remaining]
  have hle : (c_string (tvb.drop offset)).length ≤ tvb_reported_length_remaining tvb offset := by
    rw [hrem]
    exact (List.takeWhile_sublist _).length_le
  have hcl := setp_versions_closed tvb hf offset fuel hfuel
  refine ⟨hle, ?_, ?_, ?_, ?_, ?_, rfl, rfl⟩
  · rw [hcl, setp_versions_closed tvb hf offset _ (by omega)]
  · rw [hcl]
  · rw [hcl]
    simp
  · intro hlt
    rw [hcl, if_pos hlt]
    refine ⟨rfl, ?_⟩
    rcases c_string_split (tvb.drop offset) with h | ⟨tail, h⟩
    · rw [hrem, h] at hlt
      exact absurd hlt (Nat.lt_irrefl _)
    · have hd := drop_add_of_append tvb offset _ _ h
      exact (head_of_drop tvb _ 0 tail hd).1
  · intro hge
    rw [hcl, if_neg hge]
    refine ⟨rfl, ?_⟩
    apply tvb_get_guint8_none
    simp only [tvb_reported_length_remaining] at hge hle
    omega

/-- Witness for C37: on `setp_sample` (versions `01 02 03`, then a zero byte) the
loop entered at offset 3 emits three items and stops at offset 6; on
`setp_sample_open`, which ends behind the versions, it emits the three items and
the read at offset 6, the end of the buffer, raises. -/
theorem setp_versions_terminates_witness :
    ((setp_versions setp_sample .hf_tns_data_setp_acc_version 11 3).items.length
          = (c_string (setp_sample.drop 3)).length
        ∧ (c_string (setp_sample.drop 3)).length ≤ tvb_reported_length_remaining setp_sample 3)
      ∧ setp_versions setp_sample .hf_tns_data_setp_acc_version 11 3
          = ⟨[⟨.hf_tns_data_setp_acc_version, 3, 1, some 1, none⟩,
              ⟨.hf_tns_data_setp_acc_version, 4, 1, some 2, none⟩,
              ⟨.hf_tns_data_setp_acc_version, 5, 1, some 3, none⟩], some 6⟩
      ∧ setp_versions setp_sample_open .hf_tns_data_setp_version 4 3
          = ⟨[⟨.hf_tns_data_setp_version, 3, 1, some 1, none⟩,
              ⟨.hf_tns_data_setp_version, 4, 1, some 2, none⟩,
              ⟨.hf_tns_data_setp_version, 5, 1, some 3, none⟩], none⟩
      ∧ tvb_get_guint8 setp_sample_open 6 = none :=
  ⟨⟨(setp_versions_terminates setp_sample .hf_tns_data_setp_acc_version 3 11
        (by decide)).2.2.2.1,
      (setp_versions_terminates setp_sample .hf_tns_data_setp_acc_version 3 11
        (by decide)).1⟩,
    by decide, by decide, by decide⟩

/-! ## Statements with a zero byte or without terminator -/

theorem sql_stmt_of_entry (tvb : Tvb) (offset : Nat) (pttci : ttci_packet_t)
    (o1 : Nat) (p1 : ttci_packet_t)
    (hentry : (if tvb_reported_length_remaining tvb offset > 19
        then (sql_header tvb offset pttci).val else some (offset, pttci)) = some (o1, p1)) :
    dissect_tns_data_sql_stmt tvb offset pttci
      = ⟨(if tvb_reported_length_remaining tvb offset > 19
            then (sql_header tvb offset pttci).items else [])
          ++ (sql_statement tvb o1 p1).items,
          (sql_statement tvb o1 p1).val⟩ := by
  unfold dissect_tns_data_sql_stmt
  by_cases hrem : tvb_reported_length_remaining tvb offset > 19
  · rw [if_pos hrem] at hentry
    simp only [if_pos hrem, Dis.andThen, hentry]
  · rw [if_neg hrem] at hentry
    simp only [Option.some.injEq, Prod.mk.injEq] at hentry
    obtain ⟨rfl, rfl⟩ := hentry
    simp only [if_neg hrem, List.nil_append]

theorem sql_of_statement_ret (tvb : Tvb) (offset : Nat) (pttci : ttci_packet_t)
    (o1 : Nat) (p1 : ttci_packet_t) (r : Nat)
    (hentry : (if tvb_reported_length_remaining tvb offset > 19
        then (sql_header tvb offset pttci).val else some (offset, pttci)) = some (o1, p1))
    (hst : sql_statement tvb o1 p1 = ⟨[], some (.ret r)⟩) :
    dissect_tns_data_sql_stmt tvb offset pttci
        = ⟨(if tvb_reported_length_remaining tvb offset > 19
            then (sql_header tvb offset pttci).items else []), some (.ret r)⟩
      ∧ dissect_tns_data_sql tvb offset pttci
        = ⟨(if tvb_reported_length_remaining tvb offset > 19
            then (sql_header tvb offset pttci).items else []), some r⟩
      ∧ (dissect_tns_data_sql tvb offset pttci).all_items
          (fun i => i.hf ≠ .hf_tns_data_ttic_stmt_sql ∧ i.hf ≠ .subtree
            ∧ ∀ n, i.hf ≠ .hf_tns_data_ttic_stmt_sql_p n) := by
  have h1 := sql_stmt_of_entry tvb offset pttci o1 p1 hentry
  rw [hst] at h1
  simp only [List.append_nil] at h1
  have h2 : dissect_tns_data_sql tvb offset pttci
      = ⟨(if tvb_reported_length_remaining tvb offset > 19
          then (sql_header tvb offset pttci).items else []), some r⟩ := by
    unfold dissect_tns_data_sql
    rw [h1, andThen_mk]
    simp only [ret_items, ret_val, List.append_nil]
  refine ⟨h1, h2, ?_⟩
  intro i hi
  rw [h2] at hi
  simp only at hi
  split at hi
  · exact sql_header_items_kinds tvb offset pttci i hi
  · simp at hi

theorem c_string_length_lt_of_zero (s t : List UInt8) (h : (0 : UInt8) ∈ s) :
    (c_string (s ++ t)).length < s.length := by
  induction s with
  | nil => simp at h
  | cons a s ih =>
    unfold c_string at ih ⊢
    by_cases ha : (a != 0) = true
    · have hs : (0 : UInt8) ∈ s := by
        rcases List.mem_cons.mp h with h0 | h0
        · rw [← h0] at ha
          exact absurd ha (by decide)
        · exact h0
      have := ih hs
      simp only [List.cons_append, List.takeWhile_cons, ha, if_true, List.length_cons]
      omega
    · simp only [List.cons_append, List.takeWhile_cons, ha]
      simp

theorem sql_statement_nul (tvb : Tvb) (o1 jmp : Nat) (p1 : ttci_packet_t) (s rest : List UInt8)
    (hj : (p1.data_direction = 0x7f ∧ jmp = 15) ∨ (p1.data_direction = 0xff ∧ jmp = 18))
    (hdrop : tvb.drop (o1 + jmp) = s ++ 0x01 :: 0x01 :: rest)
    (hzero : (0 : UInt8) ∈ s)
    (hfirst : ∀ j, j < s.length →
      ¬ ((s ++ 0x01 :: 0x01 :: rest).getD j 0 = 0x01
          ∧ (s ++ 0x01 :: 0x01 :: rest).getD (j + 1) 0 = 0x01)) :
    sql_statement tvb o1 p1 = ⟨[], some (.ret (o1 + jmp))⟩ := by
  have hlen : tvb.length - (o1 + jmp) = s.length + (rest.length + 2) := by
    have := congrArg List.length hdrop
    simpa using this
  have hjmp : (if p1.data_direction = 0x7f then some 15
      else if p1.data_direction = 0xff then some 18 else none) = some jmp := by
    rcases hj with ⟨h1, h2⟩ | ⟨h1, h2⟩
    · rw [if_pos h1, h2]
    · rw [if_neg (by rw [h1]; decide), if_pos h1, h2]
  have hcpy : tvb_memcpy tvb (o1 + jmp) (s.length + (rest.length + 2))
      = some (s ++ 0x01 :: 0x01 :: rest) := by
    unfold tvb_memcpy
    rw [if_pos (by omega), hdrop]
    congr 1
    apply List.take_of_length_le
    simp
  have hget (j : Nat) (hj : j < s.length + (rest.length + 2)) :
      (s ++ 0x01 :: 0x01 :: rest ++ [0]).getD j 0 = (s ++ 0x01 :: 0x01 :: rest).getD j 0 := by
    rw [List.getD_append]
    simpa using hj
  have hscan : stmt_end_scan (s ++ 0x01 :: 0x01 :: rest ++ [0]) (s.length + (rest.length + 2)) 0
      = some s.length := by
    apply stmt_end_scan_first
    · rw [hget _ (by omega), hget _ (by omega)]
      constructor
      · rw [List.getD_append_right _ _ _ _ (Nat.le_refl _)]
        simp
      · rw [List.getD_append_right _ _ _ _ (Nat.le_succ _)]
        simp
    · omega
    · omega
    · intro j _ hj2
      rw [hget _ (by omega), hget _ (by omega)]
      exact hfirst j hj2
  unfold sql_statement
  simp only [hjmp, tvb_reported_length_remaining, hlen]
  rw [if_neg (by omega), hcpy]
  simp only [hscan, Option.getD_some]
  have hset : (s ++ 0x01 :: 0x01 :: rest ++ [0]).set s.length 0
      = s ++ 0 :: (0x01 :: rest ++ [0]) := by
    rw [List.append_assoc, List.cons_append, set_length_append]
  rw [hset]
  have hstr : strlen (s ++ 0 :: (0x01 :: rest ++ [0])) < s.length := by
    unfold strlen
    exact c_string_length_lt_of_zero s _ hzero
  rw [if_pos (by omega)]
  rfl

/-- C32: let the statement header leave the cursor at `o1` with the data
direction 0x7F or 0xFF, so that the statement starts at `o1 + jmp` (`jmp` is 15
or 18), and let the bytes from there be `s`, the first pair `01 01`, and a rest,
where `s` contains a zero byte.  Then `dissect_tns_data_sql` leaves through the
length-mismatch return: it returns the statement start `o1 + jmp`, the parameter
scanner is not called, and its items are those of the header only; none is a
statement item, a parameter value item or the parameter subtree. -/
theorem stmt_with_zero_byte_aborts (tvb : Tvb) (offset : Nat) (pttci : ttci_packet_t)
    (o1 jmp : Nat) (p1 : ttci_packet_t) (s rest : List UInt8)
    (hentry : (if tvb_reported_length_remaining tvb offset > 19
        then (sql_header tvb offset pttci).val else some (offset, pttci)) = some (o1, p1))
    (hj : (p1.data_direction = 0x7f ∧ jmp = 15) ∨ (p1.data_direction = 0xff ∧ jmp = 18))
    (hdrop : tvb.drop (o1 + jmp) = s ++ 0x01 :: 0x01 :: rest)
    (hzero : (0 : UInt8) ∈ s)
    (hfirst : ∀ j, j < s.length →
      ¬ ((s ++ 0x01 :: 0x01 :: rest).getD j 0 = 0x01
          ∧ (s ++ 0x01 :: 0x01 :: rest).getD (j + 1) 0 = 0x01)) :
    strlen ((s ++ 0x01 :: 0x01 :: rest ++ [0]).set s.length 0) ≠ s.length
      ∧ dissect_tns_data_sql_stmt tvb offset pttci
        = ⟨(if tvb_reported_length_remaining tvb offset > 19
            then (sql_header tvb offset pttci).items else []), some (.ret (o1 + jmp))⟩
      ∧ dissect_tns_data_sql tvb offset pttci
        = ⟨(if tvb_reported_length_remaining tvb offset > 19
            then (sql_header tvb offset pttci).items else []), some (o1 + jmp)⟩
      ∧ (dissect_tns_data_sql tvb offset pttci).all_items
          (fun i => i.hf ≠ .hf_tns_data_ttic_stmt_sql ∧ i.hf ≠ .subtree
            ∧ ∀ n, i.hf ≠ .hf_tns_data_ttic_stmt_sql_p n) := by
  refine ⟨?_, sql_of_statement_ret tvb offset pttci o1 p1 (o1 + jmp) hentry
    (sql_statement_nul tvb o1 jmp p1 s rest hj hdrop hzero hfirst)⟩
  have hset : (s ++ 0x01 :: 0x01 :: rest ++ [0]).set s.length 0
      = s ++ 0 :: (0x01 :: rest ++ [0]) := by
    rw [List.append_assoc, List.cons_append, set_length_append]
  rw [hset]
  have := c_string_length_lt_of_zero s (0 :: (0x01 :: rest ++ [0])) hzero
  unfold strlen
  omega

/-- Witness for C32 on `sql_sample_stmt_nul`, whose statement bytes are
`SELECT`, a zero byte and `1 FROM DUAL` before the pair `01 01`: the header ends
at 21, the statement starts at 36, and 36 is returned with the header items only. -/
theorem stmt_with_zero_byte_aborts_witness :
    dissect_tns_data_sql_stmt sql_sample_stmt_nul 0 ttci_packet_zero
        = ⟨(if tvb_reported_length_remaining sql_sample_stmt_nul 0 > 19
            then (sql_header sql_sample_stmt_nul 0 ttci_packet_zero).items else []),
            some (.ret (21 + 15))⟩
      ∧ dissect_tns_data_sql sql_sample_stmt_nul 0 ttci_packet_zero
        = ⟨[⟨.hf_tns_data_ttic_pkt_unknown_3, 2, 2, some 0, none⟩,
            ⟨.hf_tns_data_ttic_data_direction, 10, 1, some 127, none⟩,
            ⟨.hf_tns_data_ttic_param_count, 16, 1, some 0, none⟩], some 36⟩ :=
  ⟨(stmt_with_zero_byte_aborts sql_sample_stmt_nul 0 ttci_packet_zero 21 15 sql_sample_ttci
      [0x53, 0x45, 0x4c, 0x45, 0x43, 0x54, 0x00, 0x31, 0x20, 0x46, 0x52, 0x4f, 0x4d, 0x20,
        0x44, 0x55, 0x41, 0x4c] [] (by decide) (by decide) (by decide) (by decide)
      (by decide)).2.1,
    by decide⟩

theorem stmt_end_scan_none (byte_buffer : List UInt8) :
    ∀ fuel i,
      (∀ j, i ≤ j → j < i + fuel →
        ¬ (byte_buffer.getD j 0 = 0x01 ∧ byte_buffer.getD (j + 1) 0 = 0x01)) →
      stmt_end_scan byte_buffer fuel i = none := by
  intro fuel
  induction fuel with
  | zero => intro i _; rfl
  | succ fuel ih =>
    intro i h
    rw [stmt_end_scan, if_neg (h i (Nat.le_refl _) (by omega))]
    exact ih (i + 1) (fun j h1 h2 => h j (by omega) (by omega))

theorem getD_append_zero (l : List UInt8) (j : Nat) : (l ++ [0]).getD j 0 = l.getD j 0 := by
  by_cases hj : j < l.length
  · rw [List.getD_append _ _ _ _ hj]
  · have hj' : l.length ≤ j := Nat.le_of_not_lt hj
    rw [List.getD_append_right _ _ _ _ hj', List.getD_eq_default l 0 hj']
    cases j - l.length <;> rfl

theorem sql_statement_no_terminator (tvb : Tvb) (o1 jmp : Nat) (p1 : ttci_packet_t) (b : UInt8)
    (s : List UInt8)
    (hj : (p1.data_direction = 0x7f ∧ jmp = 15) ∨ (p1.data_direction = 0xff ∧ jmp = 18))
    (hdrop : tvb.drop (o1 + jmp) = b :: s)
    (hnone : ∀ j, ¬ ((b :: s).getD j 0 = 0x01 ∧ (b :: s).getD (j + 1) 0 = 0x01)) :
    sql_statement tvb o1 p1
      = if b = 0 then
          ⟨[⟨.hf_tns_data_ttic_stmt_sql, o1 + jmp, 0, none, some (.stmt [])⟩],
            some (.params (o1 + jmp) p1)⟩
        else ⟨[], some (.ret (o1 + jmp))⟩ := by
  have hlen : tvb.length - (o1 + jmp) = s.length + 1 := by
    have := congrArg List.length hdrop
    simpa using this
  have hjmp : (if p1.data_direction = 0x7f then some 15
      else if p1.data_direction = 0xff then some 18 else none) = some jmp := by
    rcases hj with ⟨h1, h2⟩ | ⟨h1, h2⟩
    · rw [if_pos h1, h2]
    · rw [if_neg (by rw [h1]; decide), if_pos h1, h2]
  have hcpy : tvb_memcpy tvb (o1 + jmp) (s.length + 1) = some (b :: s) := by
    unfold tvb_memcpy
    rw [if_pos (by omega), hdrop]
    congr 1
    apply List.take_of_length_le
    simp
  have hscan : stmt_end_scan (b :: s ++ [0]) (s.length + 1) 0 = none := by
    apply stmt_end_scan_none
    intro j _ _
    rw [getD_append_zero, getD_append_zero]
    exact hnone j
  unfold sql_statement
  simp only [hjmp, tvb_reported_length_remaining, hlen]
  rw [if_neg (by omega), hcpy]
  simp only [hscan, Option.getD_none]
  by_cases hb : b = 0
  · have hstr : c_string (b :: s ++ [0]) = [] := by
      rw [hb]
      rfl
    unfold strlen
    rw [hstr, if_pos hb]
    simp only [List.length_nil, ne_eq, not_true_eq_false, if_false]
    unfold proto_tree_add_item_text
    rw [if_pos (by omega)]
    rfl
  · have hstr : strlen (b :: s ++ [0]) ≠ 0 := by
      unfold strlen c_string
      have hb1 : (b != 0) = true := by simpa using hb
      simp only [List.cons_append, List.takeWhile_cons, hb1, if_true, List.length_cons]
      omega
    rw [if_neg hb, if_pos (fun h => hstr h.symm)]
    rfl

/-- C36 fails on the code: let the statement header leave the cursor at `o1` with
the data direction 0x7F or 0xFF, so that the statement starts at `o1 + jmp`, let
at least one byte remain there, and let no two consecutive bytes `01 01` occur
from there to the end of the buffer.  When the first of these bytes is zero, an
empty statement item is emitted at the statement start and the parameter scanner
is called there.  Only when the first byte is not zero does the function leave
through the length-mismatch return, with no statement item and no scanner call. -/
theorem no_terminator_empty_statement (tvb : Tvb) (offset : Nat) (pttci : ttci_packet_t)
    (o1 jmp : Nat) (p1 : ttci_packet_t) (b : UInt8) (s : List UInt8)
    (hentry : (if tvb_reported_length_remaining tvb offset > 19
        then (sql_header tvb offset pttci).val else some (offset, pttci)) = some (o1, p1))
    (hj : (p1.data_direction = 0x7f ∧ jmp = 15) ∨ (p1.data_direction = 0xff ∧ jmp = 18))
    (hdrop : tvb.drop (o1 + jmp) = b :: s)
    (hnone : ∀ j, ¬ ((b :: s).getD j 0 = 0x01 ∧ (b :: s).getD (j + 1) 0 = 0x01)) :
    (b = 0 →
        dissect_tns_data_sql_stmt tvb offset pttci
          = ⟨(if tvb_reported_length_remaining tvb offset > 19
                then (sql_header tvb offset pttci).items else [])
              ++ [⟨.hf_tns_data_ttic_stmt_sql, o1 + jmp, 0, none, some (.stmt [])⟩],
              some (.params (o1 + jmp) p1)⟩)
      ∧ (b ≠ 0 →
        dissect_tns_data_sql_stmt tvb offset pttci
          = ⟨(if tvb_reported_length_remaining tvb offset > 19
                then (sql_header tvb offset pttci).items else []),
              some (.ret (o1 + jmp))⟩) := by
  have h1 := sql_stmt_of_entry tvb offset pttci o1 p1 hentry
  have h2 := sql_statement_no_terminator tvb o1 jmp p1 b s hj hdrop hnone
  constructor
  · intro hb
    rw [if_pos hb] at h2
    rw [h1, h2]
  · intro hb
    rw [if_neg hb] at h2
    rw [h1, h2]
    simp only [List.append_nil]

/-- Witness for C36 on `sql_sample_no_terminator`, whose bytes behind the 15
skipped ones are `00 53 45 4C 45 43 54`: an empty statement item is emitted at
offset 36 and the parameter scanner is called there.  On
`sql_sample_unterminated`, which has `SELECT 1` there, nothing is emitted and
36 is returned. -/
theorem no_terminator_empty_statement_witness :
    dissect_tns_data_sql_stmt sql_sample_no_terminator 0 ttci_packet_zero
        = ⟨(if tvb_reported_length_remaining sql_sample_no_terminator 0 > 19
              then (sql_header sql_sample_no_terminator 0 ttci_packet_zero).items else [])
            ++ [⟨.hf_tns_data_ttic_stmt_sql, 21 + 15, 0, none, some (.stmt [])⟩],
            some (.params (21 + 15) sql_sample_ttci)⟩
      ∧ dissect_tns_data_sql sql_sample_no_terminator 0 ttci_packet_zero
        = ⟨[⟨.hf_tns_data_ttic_pkt_unknown_3, 2, 2, some 0, none⟩,
            ⟨.hf_tns_data_ttic_data_direction, 10, 1, some 127, none⟩,
            ⟨.hf_tns_data_ttic_param_count, 16, 1, some 0, none⟩,
            ⟨.hf_tns_data_ttic_stmt_sql, 36, 0, none, some (.stmt [])⟩], some 36⟩
      ∧ dissect_tns_data_sql_stmt sql_sample_unterminated 0 ttci_packet_zero
        = ⟨[⟨.hf_tns_data_ttic_pkt_unknown_3, 2, 2, some 0, none⟩,
            ⟨.hf_tns_data_ttic_data_direction, 10, 1, some 127, none⟩,
            ⟨.hf_tns_data_ttic_param_count, 16, 1, some 0, none⟩], some (.ret 36)⟩ :=
  ⟨(no_terminator_empty_statement sql_sample_no_terminator 0 ttci_packet_zero 21 15
      sql_sample_ttci 0x00 [0x53, 0x45, 0x4c, 0x45, 0x43, 0x54] (by decide) (by decide)
      (by decide)
      (by
        intro j
        by_cases hj : j < 7
        · interval_cases j <;> decide
        · intro h
          have h1 := h.1
          rw [List.getD_eq_default _ _
            (by simp only [List.length_cons, List.length_nil]; omega)] at h1
          exact absurd h1 (by decide))).1 rfl,
    by decide, by decide⟩

/-! ## The skip behind the statement header -/

theorem sql_statement_past (tvb : Tvb) (o1 jmp : Nat) (p1 : ttci_packet_t)
    (hj : (p1.data_direction = 0x7f ∧ jmp = 15) ∨ (p1.data_direction = 0xff ∧ jmp = 18))
    (hpast : tvb.length ≤ o1 + jmp) :
    sql_statement tvb o1 p1 = ⟨[], some (.ret (o1 + jmp))⟩ := by
  have hjmp : (if p1.data_direction = 0x7f then some 15
      else if p1.data_direction = 0xff then some 18 else none) = some jmp := by
    rcases hj with ⟨h1, h2⟩ | ⟨h1, h2⟩
    · rw [if_pos h1, h2]
    · rw [if_neg (by rw [h1]; decide), if_pos h1, h2]
  unfold sql_statement
  simp only [hjmp, tvb_reported_length_remaining]
  rw [if_pos (by omega)]
  rfl

/-- C34 fails on the code: let the statement header leave the cursor at `o1` with
the data direction 0x7F or 0xFF, and let fewer than `jmp` bytes (15 or 18)
remain behind it.  Then `dissect_tns_data_sql` adds the skip without a check,
finds no byte remaining and returns `o1 + jmp`, an offset past the end of the
buffer. -/
theorem sql_offset_past_buffer (tvb : Tvb) (offset : Nat) (pttci : ttci_packet_t)
    (o1 jmp : Nat) (p1 : ttci_packet_t)
    (hentry : (if tvb_reported_length_remaining tvb offset > 19
        then (sql_header tvb offset pttci).val else some (offset, pttci)) = some (o1, p1))
    (hj : (p1.data_direction = 0x7f ∧ jmp = 15) ∨ (p1.data_direction = 0xff ∧ jmp = 18))
    (hpast : tvb.length < o1 + jmp) :
    tvb_reported_length_remaining tvb (o1 + jmp) = 0
      ∧ dissect_tns_data_sql tvb offset pttci
        = ⟨(if tvb_reported_length_remaining tvb offset > 19
            then (sql_header tvb offset pttci).items else []), some (o1 + jmp)⟩
      ∧ ∃ r, (dissect_tns_data_sql tvb offset pttci).val = some r ∧ tvb.length < r := by
  have h := (sql_of_statement_ret tvb offset pttci o1 p1 (o1 + jmp) hentry
    (sql_statement_past tvb o1 jmp p1 hj (Nat.le_of_lt hpast))).2.1
  refine ⟨?_, h, o1 + jmp, ?_, hpast⟩
  · unfold tvb_reported_length_remaining
    omega
  · rw [h]

/-- Witness for C34 on `sql_sample_header_only`, 21 bytes that are exactly a
statement header with the data direction 0x7F: the offset returned is 36.  In a
Data packet with this payload the remainder handed on would start at 44 of 29
bytes, so `dissect_tns_data` raises. -/
theorem sql_offset_past_buffer_witness :
    (tvb_reported_length_remaining sql_sample_header_only (21 + 15) = 0
      ∧ dissect_tns_data_sql sql_sample_header_only 0 ttci_packet_zero
        = ⟨(if tvb_reported_length_remaining sql_sample_header_only 0 > 19
            then (sql_header sql_sample_header_only 0 ttci_packet_zero).items else []),
            some (21 + 15)⟩
      ∧ ∃ r, (dissect_tns_data_sql sql_sample_header_only 0 ttci_packet_zero).val = some r
          ∧ sql_sample_header_only.length < r)
      ∧ sql_sample_header_only.length = 21
      ∧ (dissect_tns_data_sql sql_sample_header_only 0 ttci_packet_zero).val = some 36
      ∧ (data_user_oci_func ([0x00, 0x00, 0x03, 0x5e, 0x01, 0x00, 0x00, 0x29]
            ++ sql_sample_header_only) 3).val = some 44
      ∧ ([0x00, 0x00, 0x03, 0x5e, 0x01, 0x00, 0x00, 0x29] ++ sql_sample_header_only).length = 29
      ∧ (dissect_tns_data ([0x00, 0x00, 0x03, 0x5e, 0x01, 0x00, 0x00, 0x29]
            ++ sql_sample_header_only) 0 true).val = none :=
  ⟨sql_offset_past_buffer sql_sample_header_only 0 ttci_packet_zero 21 15 sql_sample_ttci
      (by decide) (by decide) (by decide),
    by decide, by decide, by decide, by decide, by decide⟩

/-! ## The guard of the statement header -/

theorem read_none_andThen {α β : Type} (f : α → Dis β) :
    Dis.andThen (Dis.read (none : Option α)) f = Dis.raise := rfl

theorem tvb_get_ntohs_none (tvb : Tvb) (offset : Nat) (h : tvb.length ≤ offset + 1) :
    tvb_get_ntohs tvb offset = none := by
  unfold tvb_get_ntohs
  rw [tvb_get_guint8_none tvb (offset + 1) h]
  cases tvb_get_guint8 tvb offset <;> rfl

theorem sql_header_tail_total (tvb : Tvb) (o : Nat) (pttci : ttci_packet_t)
    (h : o + 10 ≤ tvb.length) : ∃ r, (sql_header_tail tvb o pttci).val = some r := by
  obtain ⟨b4, hb4⟩ := tvb_get_guint8_of_lt tvb o (by omega)
  obtain ⟨fl, hfl⟩ := tvb_get_guint8_of_lt tvb (o + 1) (by omega)
  obtain ⟨pc, hpc⟩ := tvb_get_guint8_of_lt tvb (o + 1 + 1) (by omega)
  obtain ⟨u6, hu6⟩ := tvb_get_ntohs_of_le tvb (o + 1 + 1 + 1) (by omega)
  obtain ⟨u7, hu7⟩ := tvb_get_ntohs_of_le tvb (o + 1 + 1 + 1 + 2) (by omega)
  obtain ⟨s1, hs1⟩ := tvb_get_guint8_of_lt tvb (o + 1 + 1 + 1 + 2 + 2) (by omega)
  obtain ⟨s2, hs2⟩ := tvb_get_guint8_of_lt tvb (o + 1 + 1 + 1 + 2 + 2 + 1) (by omega)
  obtain ⟨pc2, hpc2⟩ := tvb_get_guint8_of_lt tvb (o + 1 + 1 + 1 + 2 + 2 + 1 + 1) (by omega)
  by_cases hne : fl = 0x0a
  · rw [hne] at hfl
    rw [sql_header_tail_select tvb o pttci b4 pc u6 u7 s1 s2 pc2 hb4 hfl hpc hu6 hu7 hs1 hs2 hpc2]
    exact ⟨_, rfl⟩
  · rw [sql_header_tail_plain tvb o pttci b4 fl pc u6 u7 hb4 hfl hpc hu6 hu7 hne]
    exact ⟨_, rfl⟩

theorem sql_header_sign_total (tvb : Tvb) (p : Nat) (pttci : ttci_packet_t)
    (h : p + 6 ≤ tvb.length) :
    ∃ c p', sql_header_sign tvb p pttci
        = ⟨(sql_header_sign tvb p pttci).items, some (c, p')⟩ ∧ p' ≤ p + 6 := by
  by_cases hsel : pttci.stmt_sign1 = 0 ∧ pttci.stmt_sign2 = 0x04
  · obtain ⟨d, hd⟩ := tvb_get_guint8_of_lt tvb p (by omega)
    obtain ⟨u4, h4⟩ := tvb_get_guint8_of_lt tvb (p + 1) (by omega)
    obtain ⟨u5, h5⟩ := tvb_get_ntohs_of_le tvb (p + 1 + 1) (by omega)
    rw [sql_header_sign_select tvb p pttci d u4 u5 hsel hd h4 h5]
    exact ⟨_, _, rfl, by omega⟩
  · by_cases hdml : pttci.stmt_sign1 = 0 ∧ pttci.stmt_sign2 = 0
    · obtain ⟨d, hd⟩ := tvb_get_guint8_of_lt tvb (p + 2) (by omega)
      obtain ⟨u4, h4⟩ := tvb_get_guint8_of_lt tvb (p + 2 + 1) (by omega)
      obtain ⟨u5, h5⟩ := tvb_get_ntohs_of_le tvb (p + 2 + 1 + 1) (by omega)
      rw [sql_header_sign_dml tvb p pttci d u4 u5 hdml hd h4 h5]
      exact ⟨_, _, rfl, by omega⟩
    · rw [sql_header_sign_other tvb p pttci (by
        rintro ⟨h1, h2 | h2⟩
        · exact hsel ⟨h1, h2⟩
        · exact hdml ⟨h1, h2⟩)]
      exact ⟨_, _, rfl, by omega⟩

theorem sql_header_rest_total (tvb : Tvb) (q : Nat) (pttci : ttci_packet_t)
    (h : q + 21 ≤ tvb.length) : ∃ r, (sql_header_rest tvb q pttci).val = some r := by
  obtain ⟨b2, hb2⟩ := tvb_get_guint8_of_lt tvb q (by omega)
  obtain ⟨b3, hb3⟩ := tvb_get_guint8_of_lt tvb (q + 1) (by omega)
  obtain ⟨s1, hs1⟩ := tvb_get_ntohs_of_le tvb (q + 1 + 1) (by omega)
  obtain ⟨s2, hs2⟩ := tvb_get_guint8_of_lt tvb (q + 1 + 1 + 2) (by omega)
  rw [sql_header_rest_split, hb2, hb3, hs1, hs2]
  simp only [read_some_andThen]
  obtain ⟨c, p', hsign, hp'⟩ := sql_header_sign_total tvb (q + 1 + 1 + 2 + 1)
    { pttci with stmt_byte2 := b2, stmt_byte3 := b3, stmt_sign1 := s1, stmt_sign2 := s2 }
    (by omega)
  rw [hsign, andThen_mk]
  exact sql_header_tail_total tvb p' c (by omega)

theorem sql_header_total (tvb : Tvb) (o : Nat) (pttci : ttci_packet_t)
    (h : o + 27 ≤ tvb.length) : ∃ r, (sql_header tvb o pttci).val = some r := by
  obtain ⟨u2, hu2⟩ := tvb_get_ntohs_of_le tvb o (by omega)
  obtain ⟨u3, hu3⟩ := tvb_get_ntohs_of_le tvb (o + 2) (by omega)
  obtain ⟨b1, hb1⟩ := tvb_get_guint8_of_lt tvb (o + 2 + 2) (by omega)
  obtain ⟨b, hb⟩ := tvb_get_guint8_of_lt tvb (o + 2 + 2 + 1) (by omega)
  rw [sql_header_split, hu2, hu3, hb1, hb]
  simp only [read_some_andThen, add_uint_some, andThen_mk]
  split
  · exact sql_header_rest_total tvb _ _ (by omega)
  · exact sql_header_rest_total tvb _ _ (by omega)

theorem sql_header_tail_raise (tvb : Tvb) (o : Nat) (pttci : ttci_packet_t)
    (h1 : o + 5 ≤ tvb.length) (h2 : tvb.length < o + 7) :
    (sql_header_tail tvb o pttci).val = none := by
  obtain ⟨b4, hb4⟩ := tvb_get_guint8_of_lt tvb o (by omega)
  obtain ⟨fl, hfl⟩ := tvb_get_guint8_of_lt tvb (o + 1) (by omega)
  obtain ⟨pc, hpc⟩ := tvb_get_guint8_of_lt tvb (o + 1 + 1) (by omega)
  obtain ⟨u6, hu6⟩ := tvb_get_ntohs_of_le tvb (o + 1 + 1 + 1) (by omega)
  have hu7 := tvb_get_ntohs_none tvb (o + 1 + 1 + 1 + 2) (by omega)
  unfold sql_header_tail
  simp only [dis_bind_eq, dis_pure_eq, hb4, hfl, hpc, hu6, hu7, read_some_andThen,
    read_none_andThen]
  rfl

theorem sql_header_select_short (tvb : Tvb) (o : Nat) (pttci : ttci_packet_t)
    (hlen : tvb.length = o + 20) (h1 : tvb_get_guint8 tvb (o + 4) = some 0x01)
    (hs1 : tvb_get_ntohs tvb (o + 7) = some 0) (hs2 : tvb_get_guint8 tvb (o + 9) = some 0x04) :
    (sql_header tvb o pttci).val = none := by
  obtain ⟨u2, hu2⟩ := tvb_get_ntohs_of_le tvb o (by omega)
  obtain ⟨u3, hu3⟩ := tvb_get_ntohs_of_le tvb (o + 2) (by omega)
  obtain ⟨b2, hb2⟩ := tvb_get_guint8_of_lt tvb (o + 2 + 2 + 1) (by omega)
  obtain ⟨b3, hb3⟩ := tvb_get_guint8_of_lt tvb (o + 2 + 2 + 1 + 1) (by omega)
  obtain ⟨d, hd⟩ := tvb_get_guint8_of_lt tvb (o + 2 + 2 + 1 + 1 + 1 + 2 + 1) (by omega)
  obtain ⟨u4, h4⟩ := tvb_get_guint8_of_lt tvb (o + 2 + 2 + 1 + 1 + 1 + 2 + 1 + 1) (by omega)
  obtain ⟨u5, h5⟩ := tvb_get_ntohs_of_le tvb (o + 2 + 2 + 1 + 1 + 1 + 2 + 1 + 1 + 1) (by omega)
  have h1' : tvb_get_guint8 tvb (o + 2 + 2) = some 0x01 := h1
  have hs1' : tvb_get_ntohs tvb (o + 2 + 2 + 1 + 1 + 1) = some 0 := hs1
  have hs2' : tvb_get_guint8 tvb (o + 2 + 2 + 1 + 1 + 1 + 2) = some 0x04 := hs2
  rw [sql_header_split, hu2, hu3, h1']
  simp only [read_some_andThen, add_uint_some, andThen_mk, ne_eq, not_true_eq_false, if_false]
  rw [sql_header_rest_split, hb2, hb3, hs1', hs2']
  simp only [read_some_andThen]
  rw [sql_header_sign_select tvb _ _ d u4 u5 ⟨rfl, rfl⟩ hd h4 h5, andThen_mk]
  exact sql_header_tail_raise tvb _ _ (by omega) (by omega)

/-- C33 fails on the code: the guard `> 19` admits a buffer with exactly 20 bytes
remaining, and for the header shape with `stmt_sign1 == 0`, `stmt_sign2 == 0x04`
and no prefix byte the read of `unknown_7` then covers the bytes 19 and 20 behind
the entry offset, the second of which is outside the buffer: the accessor raises
and the dissection of the packet ends.  What holds is a larger bound: with 27 or
more bytes remaining every read of the statement header, in each of its
variants, lies inside the buffer. -/
theorem header_guard_too_short (tvb : Tvb) (o : Nat) (pttci : ttci_packet_t) :
    (tvb.length = o + 20 → tvb_get_guint8 tvb (o + 4) = some 0x01 →
        tvb_get_ntohs tvb (o + 7) = some 0 → tvb_get_guint8 tvb (o + 9) = some 0x04 →
        tvb_reported_length_remaining tvb o > 19
          ∧ tvb_get_ntohs tvb (o + 19) = none
          ∧ (sql_header tvb o pttci).val = none
          ∧ (dissect_tns_data_sql tvb o pttci).val = none)
      ∧ (o + 27 ≤ tvb.length → ∃ r, (sql_header tvb o pttci).val = some r) := by
  refine ⟨?_, sql_header_total tvb o pttci⟩
  intro hlen h1 hs1 hs2
  have hrem : tvb_reported_length_remaining tvb o > 19 := by
    unfold tvb_reported_length_remaining
    omega
  have hval := sql_header_select_short tvb o pttci hlen h1 hs1 hs2
  refine ⟨hrem, tvb_get_ntohs_none tvb _ (by omega), hval, ?_⟩
  unfold dissect_tns_data_sql dissect_tns_data_sql_stmt
  simp only [if_pos hrem, andThen_val, hval, Option.none_bind]

/-- Witness for C33 on `sql_sample_short`, the first 20 bytes of a 21-byte
statement header: the guard passes and the header read raises after two items.
The 56 bytes of `sql_sample` are more than 27, and its header is read. -/
theorem header_guard_too_short_witness :
    (tvb_reported_length_remaining sql_sample_short 0 > 19
        ∧ tvb_get_ntohs sql_sample_short (0 + 19) = none
        ∧ (sql_header sql_sample_short 0 ttci_packet_zero).val = none
        ∧ (dissect_tns_data_sql sql_sample_short 0 ttci_packet_zero).val = none)
      ∧ (∃ r, (sql_header sql_sample 0 ttci_packet_zero).val = some r)
      ∧ dissect_tns_data_sql sql_sample_short 0 ttci_packet_zero
        = ⟨[⟨.hf_tns_data_ttic_pkt_unknown_3, 2, 2, some 0, none⟩,
            ⟨.hf_tns_data_ttic_data_direction, 10, 1, some 127, none⟩], none⟩ :=
  ⟨(header_guard_too_short sql_sample_short 0 ttci_packet_zero).1 (by decide) (by decide)
      (by decide) (by decide),
    (header_guard_too_short sql_sample 0 ttci_packet_zero).2 (by decide),
    by decide⟩

/-! ## Values longer than the rest of the buffer -/

theorem hex_dump_none (tvb : Tvb) (offset n : Nat) (hshort : tvb.length < offset + n)
    (hn : n ≤ 256) :
    ∀ (fuel j : Nat), offset + j ≤ tvb.length → tvb.length - (offset + j) < fuel →
      hex_dump tvb offset n fuel j = none := by
  intro fuel
  induction fuel with
  | zero => intro j _ h; exact absurd h (Nat.not_lt_zero _)
  | succ fuel ih =>
    intro j hj hf
    rw [hex_dump, if_pos ⟨by omega, by omega⟩]
    cases hg : tvb.get? (offset + j) with
    | none => rfl
    | some b =>
      have hlt : offset + j < tvb.length := by
        rw [List.get?_eq_getElem?] at hg
        exact (List.getElem?_eq_some_iff.mp hg).1
      simp only [ih (j + 1) (by omega) (by omega), Option.map_none']

/-- C35 fails on the code: one pass of the value loop over a value whose length
byte is `n > 0` while fewer than `n` bytes follow it.  The code does not compare
`n` with the bytes remaining: for a String value it asks `tvb_memcpy` for `n`
bytes, for the other values it reads the bytes one by one until the read at the
end of the buffer; in both cases the accessor raises the bounds exception, so
the pass does not end through `exit_clenup_list` but by the exception. -/
theorem truncated_value_raises (tvb : Tvb) (param_count : Nat)
    (pd_list : List ttci_stmt_pd_itm_t) (bytes_remaining fuel i param_idx offset n : Nat)
    (hf : Hf)
    (hi : i < bytes_remaining) (hidx : param_idx < param_count)
    (hhf : hf_prop_ref_list param_idx = some hf)
    (hlen : tvb_get_guint8 tvb offset = some n) (hn : 0 < n)
    (hshort : tvb.length < offset + 1 + n) :
    value_loop tvb param_count pd_list bytes_remaining (fuel + 1) i param_idx offset = Dis.raise
      ∧ tvb_memcpy tvb (offset + 1) n = none
      ∧ hex_dump tvb (offset + 1) n n 0 = none
      ∧ tvb_get_guint8 tvb tvb.length = none := by
  have hlt : offset < tvb.length := by
    simp only [tvb_get_guint8, Option.map_eq_some', List.get?_eq_getElem?] at hlen
    obtain ⟨b, hb, _⟩ := hlen
    exact (List.getElem?_eq_some_iff.mp hb).1
  have hn256 := tvb_get_guint8_lt tvb offset n hlen
  have hcpy : tvb_memcpy tvb (offset + 1) n = none := by
    unfold tvb_memcpy
    rw [if_neg (by omega)]
  have hhex : hex_dump tvb (offset + 1) n n 0 = none :=
    hex_dump_none tvb (offset + 1) n hshort (by omega) n 0 (by omega) (by omega)
  refine ⟨?_, hcpy, hhex, tvb_get_guint8_none tvb _ (Nat.le_refl _)⟩
  rw [value_loop_step tvb param_count pd_list bytes_remaining fuel i param_idx offset n hf hi
    hidx hhf hlen, if_neg (Nat.pos_iff_ne_zero.mp hn), hcpy, hhex]
  split <;> rfl

/-- Witness for C35: the value lists of `params_sample_short_string` and
`params_sample_short_number` are `05 41 42 43`, a length byte 5 with 3 bytes
behind it.  In both the pass over the value raises, and
`dissect_tns_data_sql_params` ends by the exception after the subtree item. -/
theorem truncated_value_raises_witness :
    (value_loop params_sample_short_string 1
          [⟨768, 1, 40, 1, 16, 0, 515, 26881, 7⟩, pd_itm_zero] 4 (0 + 1) 0 0 37 = Dis.raise
        ∧ tvb_memcpy params_sample_short_string (37 + 1) 5 = none
        ∧ hex_dump params_sample_short_string (37 + 1) 5 5 0 = none
        ∧ tvb_get_guint8 params_sample_short_string params_sample_short_string.length = none)
      ∧ dissect_tns_data_sql_params params_sample_short_string 0 params_sample_ttci
        = ⟨[⟨.subtree, 37, 4, none, some (.subtree "TTC/TTI SQL Parameters")⟩], none⟩
      ∧ dissect_tns_data_sql_params params_sample_short_number 0 params_sample_ttci
        = ⟨[⟨.subtree, 37, 4, none, some (.subtree "TTC/TTI SQL Parameters")⟩], none⟩
      ∧ tvb_get_guint8 params_sample_short_number 40 = some 0x43
      ∧ tvb_get_guint8 params_sample_short_number 41 = none :=
  ⟨truncated_value_raises params_sample_short_string 1
      [⟨768, 1, 40, 1, 16, 0, 515, 26881, 7⟩, pd_itm_zero] 4 0 0 0 37 5
      (.hf_tns_data_ttic_stmt_sql_p 1) (by decide) (by decide) (by decide) (by decide)
      (by decide) (by decide),
    by decide, by decide, by decide, by decide⟩

/-! ## Streams with both widths of the length field -/

theorem tvb_get_guint8_append_left (p q : Tvb) (k v : Nat) (h : tvb_get_guint8 p k = some v) :
    tvb_get_guint8 (p ++ q) k = some v := by
  have hlt : k < p.length := by
    simp only [tvb_get_guint8, Option.map_eq_some', List.get?_eq_getElem?] at h
    obtain ⟨b, hb, _⟩ := h
    exact (List.getElem?_eq_some_iff.mp hb).1
  unfold tvb_get_guint8 at h ⊢
  rw [List.get?_eq_getElem?] at h ⊢
  rw [List.getElem?_append_left hlt]
  exact h

theorem tvb_get_guint8_append_right (p q : Tvb) (k : Nat) :
    tvb_get_guint8 (p ++ q) (p.length + k) = tvb_get_guint8 q k := by
  unfold tvb_get_guint8
  rw [List.get?_eq_getElem?, List.get?_eq_getElem?,
    List.getElem?_append_right (Nat.le_add_right _ _), Nat.add_sub_cancel_left]

theorem tvb_get_ntohs_append_left (p q : Tvb) (k v : Nat) (h : tvb_get_ntohs p k = some v) :
    tvb_get_ntohs (p ++ q) k = some v := by
  unfold tvb_get_ntohs at h ⊢
  cases ha : tvb_get_guint8 p k with
  | none => rw [ha] at h; simp at h
  | some a =>
    cases hb : tvb_get_guint8 p (k + 1) with
    | none => rw [ha, hb] at h; simp at h
    | some b =>
      rw [ha, hb] at h
      rw [tvb_get_guint8_append_left p q k a ha, tvb_get_guint8_append_left p q (k + 1) b hb]
      exact h

theorem tvb_get_ntohs_append_right (p q : Tvb) (k : Nat) :
    tvb_get_ntohs (p ++ q) (p.length + k) = tvb_get_ntohs q k := by
  unfold tvb_get_ntohs
  rw [tvb_get_guint8_append_right, Nat.add_assoc, tvb_get_guint8_append_right]

theorem tcp_dissect_pdus_pdu (tvb : Tvb) (fixed_len : Nat) (get_pdu_len : PduLenFn)
    (fuel offset plen : Nat)
    (hcall : get_pdu_len.call tvb offset = some plen) (h0 : 0 < plen)
    (hfix : fixed_len ≤ plen) (hcap : offset + plen ≤ tvb.length) :
    tcp_dissect_pdus tvb fixed_len get_pdu_len (fuel + 1) offset
      = ⟨(tvb.drop offset).take plen
            :: (tcp_dissect_pdus tvb fixed_len get_pdu_len fuel (offset + plen)).pdus,
          (tcp_dissect_pdus tvb fixed_len get_pdu_len fuel (offset + plen)).stop⟩ := by
  have hrem : tvb_reported_length_remaining tvb offset = tvb.length - offset := rfl
  rw [tcp_dissect_pdus, if_pos (by omega)]
  simp only [hcall]
  rw [if_neg (by omega), if_neg (Nat.pos_iff_ne_zero.mp h0), if_neg (by omega),
    if_neg (by omega)]

theorem dissect_tns_classic (tvb : Tvb) (c t : Nat) (hc : tvb_get_ntohs tvb 2 = some c)
    (h16 : c = 0 ∨ c = 4) (hty : tvb_get_guint8 tvb 4 = some t) (ht : 1 ≤ t ∧ t ≤ 19) :
    dissect_tns tvb = .framed 2 .get_tns_pdu_len tvb.length := by
  have e1 : (decide (t < TNS_TYPE_CONNECT) || decide (t > TNS_TYPE_MAX)) = false := by
    simp only [TNS_TYPE_CONNECT, TNS_TYPE_MAX, Bool.or_eq_false_iff, decide_eq_false_iff_not]
    omega
  unfold dissect_tns
  simp only [hty, hc, e1, ite_self, Bool.false_eq_true, if_false, if_pos h16, if_true]

theorem dissect_tns_pdu_modern_length (tvb : Tvb) (is_request : Bool) (c L : Nat)
    (hc : tvb_get_ntohs tvb 2 = some c) (h32 : ¬ (c = 0 ∨ c = 4))
    (hL : tvb_get_ntohl tvb 0 = some L) :
    ⟨.hf_tns_length, 0, 4, some L, none⟩ ∈ (dissect_tns_pdu tvb is_request).items := by
  simp only [dissect_tns_pdu, dis_bind_eq, dis_pure_eq, andThen_items, hc, hL, read_val,
    proto_tree_add_item, if_neg h32]
  cases is_request <;> simp [proto_tree_add_uint]

/-- C31 fails on the code: a buffer that holds a complete packet `p` with the
16-bit length field (its bytes 2..3 are 0 or 4, its type is accepted, its length
field is its size) followed by data `q` that starts with a packet with the
32-bit length field (bytes 2..3 of `q` are neither 0 nor 4, the length is below
65536, so bytes 0..1 are zero).  `dissect_tns` chooses the 16-bit width from the
bytes 2..3 of the buffer, that is of `p`, and `tcp_dissect_pdus` uses it for every
packet: `p` is framed, then the length of the second packet is read from its
bytes 0..1 as 0 and the framing stops and waits for more data.  The second packet
is never handed to `dissect_tns_pdu`, which would decode its length field with
4 bytes. -/
theorem mixed_width_stream_misframed (p q : Tvb) (c t c2 : Nat)
    (hc : tvb_get_ntohs p 2 = some c) (h16 : c = 0 ∨ c = 4)
    (hty : tvb_get_guint8 p 4 = some t) (ht : 1 ≤ t ∧ t ≤ 19)
    (hlen : tvb_get_ntohs p 0 = some p.length)
    (hq0 : tvb_get_ntohs q 0 = some 0) (hq2 : tvb_get_ntohs q 2 = some c2)
    (h32 : ¬ (c2 = 0 ∨ c2 = 4)) :
    dissect_tns (p ++ q) = .framed 2 .get_tns_pdu_len (p ++ q).length
      ∧ PduLenFn.get_tns_pdu_len.call (p ++ q) p.length = some 0
      ∧ dissect_tns_pdus (p ++ q) = ⟨[p], .need_more p.length none⟩
      ∧ tvb_get_ntohl q 0 = some c2
      ∧ ∀ is_request,
          ⟨.hf_tns_length, 0, 4, some c2, none⟩ ∈ (dissect_tns_pdu q is_request).items := by
  have hp5 : 4 < p.length := by
    simp only [tvb_get_guint8, Option.map_eq_some', List.get?_eq_getElem?] at hty
    obtain ⟨b, hb, _⟩ := hty
    exact (List.getElem?_eq_some_iff.mp hb).1
  have hq4 : 3 < q.length := by
    unfold tvb_get_ntohs at hq2
    cases ha : tvb_get_guint8 q 2 with
    | none => rw [ha] at hq2; simp at hq2
    | some a =>
      cases hb : tvb_get_guint8 q (2 + 1) with
      | none => rw [ha, hb] at hq2; simp at hq2
      | some b =>
        simp only [tvb_get_guint8, Option.map_eq_some', List.get?_eq_getElem?] at hb
        obtain ⟨b', hb', _⟩ := hb
        exact (List.getElem?_eq_some_iff.mp hb').1
  have hfr : dissect_tns (p ++ q) = .framed 2 .get_tns_pdu_len (p ++ q).length :=
    dissect_tns_classic (p ++ q) c t (tvb_get_ntohs_append_left p q 2 c hc) h16
      (tvb_get_guint8_append_left p q 4 t hty) ht
  have hcall0 : PduLenFn.get_tns_pdu_len.call (p ++ q) 0 = some p.length :=
    tvb_get_ntohs_append_left p q 0 _ hlen
  have hcall1 : PduLenFn.get_tns_pdu_len.call (p ++ q) p.length = some 0 := by
    have := tvb_get_ntohs_append_right p q 0
    rw [Nat.add_zero, hq0] at this
    exact this
  have hL : tvb_get_ntohl q 0 = some c2 := by
    unfold tvb_get_ntohl
    rw [hq0, hq2]
    simp
  refine ⟨hfr, hcall1, ?_, hL, fun r => dissect_tns_pdu_modern_length q r c2 c2 hq2 h32 hL⟩
  unfold dissect_tns_pdus
  rw [hfr]
  simp only
  have hlpq : (p ++ q).length = p.length + q.length := List.length_append p q
  rw [tcp_dissect_pdus_pdu (p ++ q) 2 .get_tns_pdu_len (p ++ q).length 0 p.length hcall0
    (by omega) (by omega) (by omega)]
  have hfuel : (p ++ q).length = (p.length + q.length - 1) + 1 := by omega
  rw [hfuel, Nat.zero_add,
    tcp_dissect_pdus_zero_length (p ++ q) 2 .get_tns_pdu_len _ p.length (by omega) (by omega)
      hcall1]
  simp

/-- Witness for C31 on the 20 bytes `pdu_sample_classic ++ pdu_sample_modern`: the
first packet is framed, the second, whose bytes 2..3 are `00 0A`, is not.  In
the other order the 32-bit width is used for both and the length of the second
packet is read as 655360.  Two packets of the same width are both framed. -/
theorem mixed_width_stream_misframed_witness :
    (dissect_tns (pdu_sample_classic ++ pdu_sample_modern)
          = .framed 2 .get_tns_pdu_len (pdu_sample_classic ++ pdu_sample_modern).length
        ∧ PduLenFn.get_tns_pdu_len.call (pdu_sample_classic ++ pdu_sample_modern)
            pdu_sample_classic.length = some 0
        ∧ dissect_tns_pdus (pdu_sample_classic ++ pdu_sample_modern)
          = ⟨[pdu_sample_classic], .need_more pdu_sample_classic.length none⟩
        ∧ tvb_get_ntohl pdu_sample_modern 0 = some 10
        ∧ ∀ is_request,
            ⟨.hf_tns_length, 0, 4, some 10, none⟩
              ∈ (dissect_tns_pdu pdu_sample_modern is_request).items)
      ∧ dissect_tns_pdus (pdu_sample_modern ++ pdu_sample_classic)
        = ⟨[pdu_sample_modern], .need_more 10 (some 655350)⟩
      ∧ dissect_tns_pdus (pdu_sample_modern ++ pdu_sample_modern)
        = ⟨[pdu_sample_modern, pdu_sample_modern], .done⟩
      ∧ dissect_tns_pdus (pdu_sample_classic ++ pdu_sample_classic)
        = ⟨[pdu_sample_classic, pdu_sample_classic], .done⟩ :=
  ⟨mixed_width_stream_misframed pdu_sample_classic pdu_sample_modern 0 6 10 (by decide)
      (by decide) (by decide) (by decide) (by decide) (by decide) (by decide) (by decide),
    by decide, by decide, by decide⟩

end Tns
